import Mathlib

/-!
# University course management system: reports, dashboards and write handlers

A shallow embedding of the report endpoints of `src/backend/server.js` (`/api/reports/...`,
`/api/semesters`, `/api/student-semesters`, `/api/faculty-semesters`,
`/api/gpa-analysis-grades`) and of the SQL they send, of the handlers that write sections,
students and departments, and of the functions of the dashboards (`admin.js`,
`student_dashboard.js`, `faculty_dashboard.js`) that build, decode and sort semester strings,
compute the Overall GPA and draw the charts, followed by the properties proved about them.

Conventions of the embedding.

* A value of `req.query` is `Option String`: `none` is `undefined` (the key is not in the query
  string), `some s` is the string that was sent.  Repeated keys and nested keys, which Express
  turns into arrays and objects, are outside the embedding.
* A table is the list of its rows, with the columns of the `CREATE TABLE` statements that the
  report queries read.  A nullable column is an `Option`.  The `INT` identifier columns are held
  as their decimal text, the form in which the client sends them back as filter values.
* SQL `=` on two non-NULL values is equality of the values; a comparison with `NULL` is not true.
  Collation (letter case, trailing blanks) and the engine's numeric conversion of other spellings
  of a number are not modelled in the queries.  The grade scale is given a second time with the
  comparison of the collation as a parameter (`gradePointTopUnder` and its siblings), and what
  is proved about which grades the scale matches holds for every such comparison.
* The decimal literals of the grade scale and `AVG` are exact rationals: the rounding of the
  engine's `DECIMAL` division to a fixed number of digits is not modelled.
* `GROUP BY` yields one group per distinct key, `ORDER BY` is a stable insertion sort by the
  listed keys, `LIMIT n` keeps the first `n` rows.
* A built query is kept as the SQL text and the parameter array handed to `datapool.query`,
  together with the clause lists the text was assembled from; running a query reads the clause
  lists and binds the parameters to the placeholders in order.  The engine rejects a statement
  (`none`) whose placeholders and parameters do not match or whose numeric parameter is not a
  finite number.
* The built-in `parseFloat` is a parameter of the endpoint that calls it; `jsParseFloat` is a
  model of it for concrete runs.
* A JavaScript string is the list of its characters.  A number whose value is an integer is
  held as that integer, with 2 ^ 1024 and its negative for the infinities; `roundToDouble` gives
  the number nearest to an integer, which is what `currentYear++` and `parseInt` return.  The
  conversion of a number to a string is a parameter (`numberText`) of the functions of
  `admin.js` that print a year; the rows of `Semester` hold `INT` years, printed in decimal.
* A `while (true)` loop is run with a bound on the number of iterations (`none` when the bound
  is reached before a `break`); the theorems give a bound that suffices.
* A handler that opens a transaction is the list of its statements, each with the connection it
  is issued on and its effect when it succeeds; the step that throws, if any, is a parameter of
  the run.
-/

namespace Ucms

/-! ## JavaScript values -/

/-- One value of `req.query`: `none` for `undefined`, `some s` for the string sent. -/
abbrev QueryValue := Option String

/-- The method `String.prototype.toLowerCase` on the ASCII letters.  No character outside ASCII
lowercases to an ASCII letter `a` or `l`, so the test `toLowerCase() !== 'all'` is the same. -/
def toLowerCase (s : String) : String := ⟨s.data.map Char.toLower⟩

/-- JavaScript truthiness of a query value: `undefined` and the empty string are falsy. -/
def truthy : QueryValue → Bool
  | none => false
  | some s => s != ""

/-- The guard `v && v.toLowerCase() !== 'all'` put on a filter by the report endpoints. -/
def filterActive : QueryValue → Bool
  | none => false
  | some s => truthy (some s) && toLowerCase s != "all"

/-! ## The grade scale: the four `CASE` expressions -/

/-- SQL `column = 'literal'` on a nullable text column: not true when the column is `NULL`. -/
def sqlEqLit : Option String → String → Bool
  | none, _ => false
  | some v, lit => v == lit

/-- The `CASE` of `GET /api/reports/average-gpa-per-department` (server.js 1597-1610). -/
def gradePointAverageGpa (grade : Option String) : ℚ :=
  if sqlEqLit grade "A" then 4.0
  else if sqlEqLit grade "A-" then 3.7
  else if sqlEqLit grade "B+" then 3.3
  else if sqlEqLit grade "B" then 3.0
  else if sqlEqLit grade "B-" then 2.7
  else if sqlEqLit grade "C+" then 2.3
  else if sqlEqLit grade "C" then 2.0
  else if sqlEqLit grade "C-" then 1.7
  else if sqlEqLit grade "D+" then 1.3
  else if sqlEqLit grade "D" then 1.0
  else if sqlEqLit grade "D-" then 0.7
  else 0.0

/-- The `CASE` of `GET /api/reports/students-on-probation` (server.js 1722-1735). -/
def gradePointProbation (grade : Option String) : ℚ :=
  if sqlEqLit grade "A" then 4.0
  else if sqlEqLit grade "A-" then 3.7
  else if sqlEqLit grade "B+" then 3.3
  else if sqlEqLit grade "B" then 3.0
  else if sqlEqLit grade "B-" then 2.7
  else if sqlEqLit grade "C+" then 2.3
  else if sqlEqLit grade "C" then 2.0
  else if sqlEqLit grade "C-" then 1.7
  else if sqlEqLit grade "D+" then 1.3
  else if sqlEqLit grade "D" then 1.0
  else if sqlEqLit grade "D-" then 0.7
  else 0.0

/-- The `CASE` of `GET /api/reports/course-performance-trends` (server.js 1759-1772). -/
def gradePointTrends (grade : Option String) : ℚ :=
  if sqlEqLit grade "A" then 4.0
  else if sqlEqLit grade "A-" then 3.7
  else if sqlEqLit grade "B+" then 3.3
  else if sqlEqLit grade "B" then 3.0
  else if sqlEqLit grade "B-" then 2.7
  else if sqlEqLit grade "C+" then 2.3
  else if sqlEqLit grade "C" then 2.0
  else if sqlEqLit grade "C-" then 1.7
  else if sqlEqLit grade "D+" then 1.3
  else if sqlEqLit grade "D" then 1.0
  else if sqlEqLit grade "D-" then 0.7
  else 0.0

/-- The `CASE` of `GET /api/reports/top-performing-students` (server.js 1841-1854). -/
def gradePointTop (grade : Option String) : ℚ :=
  if sqlEqLit grade "A" then 4.0
  else if sqlEqLit grade "A-" then 3.7
  else if sqlEqLit grade "B+" then 3.3
  else if sqlEqLit grade "B" then 3.0
  else if sqlEqLit grade "B-" then 2.7
  else if sqlEqLit grade "C+" then 2.3
  else if sqlEqLit grade "C" then 2.0
  else if sqlEqLit grade "C-" then 1.7
  else if sqlEqLit grade "D+" then 1.3
  else if sqlEqLit grade "D" then 1.0
  else if sqlEqLit grade "D-" then 0.7
  else 0.0

/-- The grade scale as the specification lists it: letter and grade-point value. -/
def specGradeScale : List (String × ℚ) :=
  [("A", 4.0), ("A-", 3.7), ("B+", 3.3), ("B", 3.0), ("B-", 2.7), ("C+", 2.3), ("C", 2.0),
   ("C-", 1.7), ("D+", 1.3), ("D", 1.0), ("D-", 0.7)]

/-- The mapping of the specification: the value listed for a letter of the scale, and 0.0 for
everything else, a missing grade included. -/
def specGradePoint : Option String → ℚ
  | none => 0.0
  | some g => ((specGradeScale.lookup g).getD 0.0)

/-- The four grade-point functions of the GPA reports. -/
def reportGradePoints : List (Option String → ℚ) :=
  [gradePointAverageGpa, gradePointProbation, gradePointTrends, gradePointTop]

/-! ## SQL aggregates -/

/-- SQL `AVG` over the values of one group: the running sum and the row count, divided at the
end; `NULL` (here `none`) when the group has no row. -/
def sqlAvg (vals : List ℚ) : Option ℚ :=
  let acc := vals.foldl (fun (a : ℚ × ℕ) v => (a.1 + v, a.2 + 1)) (0, 0)
  if acc.2 = 0 then none else some (acc.1 / acc.2)

/-- The aggregate `AVG(CASE ... END)` of a GPA report over the grades of one group. -/
def groupGpa (gradePoint : Option String → ℚ) (grades : List (Option String)) : Option ℚ :=
  sqlAvg (grades.map gradePoint)

/-! ## Tables -/

/-- An `INT` identifier column, held as its decimal text. -/
abbrev Ident := String

/-- A row of `Department` (`DepartmentID INT PRIMARY KEY`, `DepartmentName ... UNIQUE`). -/
structure Department where
  DepartmentID : Ident
  DepartmentName : String
deriving DecidableEq

/-- A row of `Semester` (`SemesterID INT PRIMARY KEY`, `UNIQUE (Year, Season)`). -/
structure Semester where
  SemesterID : Ident
  Year : Int
  Season : String
deriving DecidableEq

/-- A row of `Course` (`CourseCode VARCHAR(50) PRIMARY KEY`), with the columns the reports read. -/
structure Course where
  CourseCode : String
  Title : String
deriving DecidableEq

/-- A row of `Student` (`StudentID INT PRIMARY KEY`), with the columns the reports read. -/
structure Student where
  StudentID : Ident
  FirstName : String
  LastName : String
  Gender : Option String
  DepartmentID : Option Ident
deriving DecidableEq

/-- A row of `Section` (`SectionID INT PRIMARY KEY`), with the columns the reports read. -/
structure Section where
  SectionID : Ident
  CourseCode : String
  SemesterID : Ident
  FacultyID : Option Ident
deriving DecidableEq

/-- A row of `Enrollment` (`PRIMARY KEY (StudentID, SectionID)`, `Grade VARCHAR(20)` nullable). -/
structure Enrollment where
  StudentID : Ident
  SectionID : Ident
  Grade : Option String
deriving DecidableEq

/-- The tables the report queries read. -/
structure Database where
  departments : List Department := []
  semesters : List Semester := []
  courses : List Course := []
  students : List Student := []
  sections : List Section := []
  enrollments : List Enrollment := []

/-! ## SQL operators -/

/-- The distinct values of a list, each at its first occurrence (`SELECT DISTINCT`, and the keys
of `GROUP BY`). -/
def distinct {κ : Type} [DecidableEq κ] : List κ → List κ
  | [] => []
  | k :: ks => k :: (distinct ks).filter (fun x => x ≠ k)

/-- SQL `GROUP BY`: one group per distinct key, holding the rows that have that key. -/
def groupBy {α κ : Type} [DecidableEq κ] (key : α → κ) (rows : List α) : List (κ × List α) :=
  (distinct (rows.map key)).map (fun k => (k, rows.filter (fun r => key r = k)))

/-- SQL `ORDER BY`: a stable insertion sort; `precedes a b` says that `a` may stand before
`b`. -/
def orderBy {α : Type} (precedes : α → α → Bool) (rows : List α) : List α :=
  rows.insertionSort (fun a b => precedes a b = true)

/-- MySQL `FIELD(str, str1, str2, ...)`: the 1-based position of the first argument equal to
`str`, and 0 when there is none. -/
def sqlField (str : String) (args : List String) : Nat :=
  if str ∈ args then args.indexOf str + 1 else 0

/-- Ascending order of a text column (code point order of the characters). -/
def textLe (a b : String) : Bool := decide (a.data ≤ b.data)

/-- Ascending order of a numeric aggregate that may be `NULL`: `NULL` sorts first. -/
def nullableLe : Option ℚ → Option ℚ → Bool
  | none, _ => true
  | some _, none => false
  | some x, some y => decide (x ≤ y)

/-! ## Semester orderings -/

/-- The argument list `'Fall', 'Summer', 'Spring', 'Winter'` of `FIELD` in the report queries and
in `GET /api/semesters`. -/
def seasonField4 : List String := ["Fall", "Summer", "Spring", "Winter"]

/-- The argument list `'Fall', 'Summer', 'Spring'` of `FIELD` in student-semesters and
faculty-semesters. -/
def seasonField3 : List String := ["Fall", "Summer", "Spring"]

/-- The clause `ORDER BY Year DESC, FIELD(Season, ...) DESC`: `a` may stand before `b`. -/
def yearDescFieldDesc (args : List String) (aYear : Int) (aSeason : String) (bYear : Int)
    (bSeason : String) : Bool :=
  decide (bYear < aYear) ||
    (decide (aYear = bYear) && decide (sqlField bSeason args ≤ sqlField aSeason args))

/-- The clause `ORDER BY Year ASC, FIELD(Season, ...) ASC`, before any further key. -/
def yearAscFieldAsc (args : List String) (aYear : Int) (aSeason : String) (bYear : Int)
    (bSeason : String) : Bool :=
  decide (aYear < bYear) ||
    (decide (aYear = bYear) && decide (sqlField aSeason args ≤ sqlField bSeason args))

/-- The ordering of `Semester` rows by `Year DESC, FIELD(Season, 'Fall', 'Summer', 'Spring',
'Winter') DESC`. -/
def semesterRecentFirst (a b : Semester) : Bool :=
  yearDescFieldDesc seasonField4 a.Year a.Season b.Year b.Season

/-- `GET /api/semesters` (server.js 2035): `SELECT SemesterID, Season, Year FROM Semester ORDER BY
Year DESC, FIELD(Season, 'Fall', 'Summer', 'Spring', 'Winter') DESC`. -/
def getSemesters (db : Database) : List Semester :=
  orderBy semesterRecentFirst db.semesters

/-- The subquery `SELECT SemesterID FROM Semester ORDER BY Year DESC, FIELD(Season, 'Fall',
'Summer', 'Spring', 'Winter') DESC LIMIT k`: `RecentSemesters` of students-enrolled-per-department
with `k = 3` (server.js 1572-1574), `recentSemesterRows` of inactive-students with `k = 2`
(server.js 1917-1922). -/
def recentSemesterIds (k : Nat) (db : Database) : List Ident :=
  ((orderBy semesterRecentFirst db.semesters).take k).map (fun sem => sem.SemesterID)

/-- The template literal that renders a row as a semester string (server.js 545, 765): the
season followed by the year, an `INT` value, which is printed in decimal. -/
def semesterString (season : String) (year : Int) : String :=
  season ++ toString year

/-- The rows `SELECT DISTINCT sem.Season, sem.Year ... ORDER BY sem.Year DESC, FIELD(sem.Season,
'Fall', 'Summer', 'Spring') DESC` of `GET /api/student-semesters/:studentId` (server.js
535-544). -/
def studentSemesterRows (db : Database) (studentId : Ident) : List (String × Int) :=
  let joined := db.enrollments.flatMap (fun e =>
    (db.sections.filter (fun s => e.SectionID = s.SectionID)).flatMap (fun s =>
      (db.semesters.filter (fun sem => s.SemesterID = sem.SemesterID)).map (fun sem =>
        (e, s, sem))))
  let selected := joined.filter (fun r => r.1.StudentID = studentId)
  orderBy (fun a b => yearDescFieldDesc seasonField3 a.2 a.1 b.2 b.1)
    (distinct (selected.map (fun r => (r.2.2.Season, r.2.2.Year))))

/-- `GET /api/student-semesters/:studentId`: the rows as semester strings. -/
def studentSemesters (db : Database) (studentId : Ident) : List String :=
  (studentSemesterRows db studentId).map (fun row => semesterString row.1 row.2)

/-- The rows `SELECT DISTINCT sem.Season, sem.Year FROM Section s JOIN Semester sem ... WHERE
s.FacultyID = ? ORDER BY sem.Year DESC, FIELD(sem.Season, 'Fall', 'Summer', 'Spring') DESC` of
`GET /api/faculty-semesters/:facultyId` (server.js 756-764). -/
def facultySemesterRows (db : Database) (facultyId : Ident) : List (String × Int) :=
  let joined := db.sections.flatMap (fun s =>
    (db.semesters.filter (fun sem => s.SemesterID = sem.SemesterID)).map (fun sem => (s, sem)))
  let selected := joined.filter (fun r => r.1.FacultyID = some facultyId)
  orderBy (fun a b => yearDescFieldDesc seasonField3 a.2 a.1 b.2 b.1)
    (distinct (selected.map (fun r => (r.2.Season, r.2.Year))))

/-- `GET /api/faculty-semesters/:facultyId`: the rows as semester strings. -/
def facultySemesters (db : Database) (facultyId : Ident) : List String :=
  (facultySemesterRows db facultyId).map (fun row => semesterString row.1 row.2)

/-! ## Bound parameters and `parseFloat` -/

/-- A JavaScript number as far as the reports need it: `NaN`, a finite value, or an infinity. -/
inductive JsNumber where
  | nan
  | finite (value : ℚ)
  | infinite (negative : Bool)
deriving DecidableEq

/-- One element of the `params` array handed to `datapool.query`. -/
inductive Param where
  | str (value : String)
  | num (value : JsNumber)
deriving DecidableEq

/-- The white space and line terminators that `parseFloat` skips at the start. -/
def isJsWhiteSpace (c : Char) : Bool :=
  c.toNat ∈ [0x9, 0xA, 0xB, 0xC, 0xD, 0x20, 0xA0, 0x1680, 0x2000, 0x2001, 0x2002, 0x2003, 0x2004,
    0x2005, 0x2006, 0x2007, 0x2008, 0x2009, 0x200A, 0x2028, 0x2029, 0x202F, 0x205F, 0x3000, 0xFEFF]

/-- The value of a run of decimal digits. -/
def digitsValue (ds : List Char) : Nat :=
  ds.foldl (fun n d => 10 * n + (d.toNat - 48)) 0

/-- The exponent part `e`/`E`, optional sign, digits, when the text starts with a complete one;
0 otherwise. -/
def exponentValue : List Char → Int
  | [] => 0
  | e :: rest =>
    if e = 'e' ∨ e = 'E' then
      match rest with
      | '-' :: ds => -((digitsValue (ds.takeWhile Char.isDigit) : Nat) : Int)
      | '+' :: ds => ((digitsValue (ds.takeWhile Char.isDigit) : Nat) : Int)
      | ds => ((digitsValue (ds.takeWhile Char.isDigit) : Nat) : Int)
    else 0

/-- A model of the built-in `parseFloat` on strings: leading white space is skipped, the longest
prefix that is a decimal literal (sign, digits, fraction, exponent, or `Infinity`) is read, and
`NaN` is returned when there is none.  The value is the exact decimal: rounding to a double is not
modelled.  The endpoint takes the function as a parameter; this model serves concrete runs. -/
def jsParseFloat (s : String) : JsNumber :=
  let trimmed := s.data.dropWhile isJsWhiteSpace
  let signed : Bool × List Char :=
    match trimmed with
    | '-' :: r => (true, r)
    | '+' :: r => (false, r)
    | r => (false, r)
  let body := signed.2
  if "Infinity".data.isPrefixOf body then JsNumber.infinite signed.1
  else
    let intPart := body.takeWhile Char.isDigit
    let afterInt := body.dropWhile Char.isDigit
    let fracPart : List Char :=
      match afterInt with
      | '.' :: r => r.takeWhile Char.isDigit
      | _ => []
    let afterFrac : List Char :=
      match afterInt with
      | '.' :: r => r.dropWhile Char.isDigit
      | r => r
    if intPart = [] ∧ fracPart = [] then JsNumber.nan
    else
      let mantissa : ℚ := (digitsValue (intPart ++ fracPart) : ℚ) / (10 : ℚ) ^ fracPart.length
      let magnitude : ℚ := mantissa * (10 : ℚ) ^ exponentValue afterFrac
      JsNumber.finite (if signed.1 then -magnitude else magnitude)

/-! ## The SQL text of the report queries -/

/-- The template literal that opens the query of average-gpa-per-department (server.js
1591-1616). -/
def averageGpaSelect : String :=
  String.join
    ["\n",
     "        SELECT\n",
     "            d.DepartmentName,\n",
     "            sem.Year,\n",
     "            sem.Season,\n",
     "            s.Gender,\n",
     "            AVG(CASE\n",
     "                WHEN e.Grade = 'A' THEN 4.0\n",
     "                WHEN e.Grade = 'A-' THEN 3.7\n",
     "                WHEN e.Grade = 'B+' THEN 3.3\n",
     "                WHEN e.Grade = 'B' THEN 3.0\n",
     "                WHEN e.Grade = 'B-' THEN 2.7\n",
     "                WHEN e.Grade = 'C+' THEN 2.3\n",
     "                WHEN e.Grade = 'C' THEN 2.0\n",
     "                WHEN e.Grade = 'C-' THEN 1.7\n",
     "                WHEN e.Grade = 'D+' THEN 1.3\n",
     "                WHEN e.Grade = 'D' THEN 1.0\n",
     "                WHEN e.Grade = 'D-' THEN 0.7\n",
     "                ELSE 0.0\n",
     "            END) AS AverageGPA\n",
     "        FROM Enrollment e\n",
     "        JOIN Student s ON e.StudentID = s.StudentID\n",
     "        JOIN Section sec ON e.SectionID = sec.SectionID\n",
     "        JOIN Semester sem ON sec.SemesterID = sem.SemesterID\n",
     "        JOIN Department d ON s.DepartmentID = d.DepartmentID\n",
     "    "]

/-- The template literal that closes the query of average-gpa-per-department (server.js
1633-1636). -/
def averageGpaGroupOrder : String :=
  String.join
    ["\n",
     "        GROUP BY d.DepartmentName, sem.Year, sem.Season, s.Gender\n",
     "        ORDER BY d.DepartmentName, sem.Year DESC, FIELD(sem.Season, 'Fall', 'Summer', 'Spring', 'Winter') DESC, s.Gender;\n",
     "    "]

/-- The template literal that opens the query of course-performance-trends (server.js
1754-1777). -/
def trendsSelect : String :=
  String.join
    ["\n",
     "        SELECT\n",
     "            sem.Year,\n",
     "            sem.Season,\n",
     "            c.Title,\n",
     "            AVG(CASE\n",
     "                WHEN e.Grade = 'A' THEN 4.0\n",
     "                WHEN e.Grade = 'A-' THEN 3.7\n",
     "                WHEN e.Grade = 'B+' THEN 3.3\n",
     "                WHEN e.Grade = 'B' THEN 3.0\n",
     "                WHEN e.Grade = 'B-' THEN 2.7\n",
     "                WHEN e.Grade = 'C+' THEN 2.3\n",
     "                WHEN e.Grade = 'C' THEN 2.0\n",
     "                WHEN e.Grade = 'C-' THEN 1.7\n",
     "                WHEN e.Grade = 'D+' THEN 1.3\n",
     "                WHEN e.Grade = 'D' THEN 1.0\n",
     "                WHEN e.Grade = 'D-' THEN 0.7\n",
     "                ELSE 0.0\n",
     "            END) AS AverageGrade\n",
     "        FROM Enrollment e\n",
     "        JOIN Section sec ON e.SectionID = sec.SectionID\n",
     "        JOIN Semester sem ON sec.SemesterID = sem.SemesterID\n",
     "        JOIN Course c ON sec.CourseCode = c.CourseCode\n",
     "    "]

/-- The template literal that closes the query of course-performance-trends (server.js
1787-1790). -/
def trendsGroupOrder : String :=
  String.join
    ["\n",
     "        GROUP BY sem.Year, sem.Season, c.Title\n",
     "        ORDER BY sem.Year ASC, FIELD(sem.Season, 'Fall', 'Summer', 'Spring', 'Winter') ASC, c.Title;\n",
     "    "]

/-- The template literal that opens the query of top-performing-students (server.js
1837-1859). -/
def topPerformingSelect : String :=
  String.join
    ["\n",
     "        SELECT\n",
     "            s.FirstName,\n",
     "            s.LastName,\n",
     "            AVG(CASE\n",
     "                WHEN e.Grade = 'A' THEN 4.0\n",
     "                WHEN e.Grade = 'A-' THEN 3.7\n",
     "                WHEN e.Grade = 'B+' THEN 3.3\n",
     "                WHEN e.Grade = 'B' THEN 3.0\n",
     "                WHEN e.Grade = 'B-' THEN 2.7\n",
     "                WHEN e.Grade = 'C+' THEN 2.3\n",
     "                WHEN e.Grade = 'C' THEN 2.0\n",
     "                WHEN e.Grade = 'C-' THEN 1.7\n",
     "                WHEN e.Grade = 'D+' THEN 1.3\n",
     "                WHEN e.Grade = 'D' THEN 1.0\n",
     "                WHEN e.Grade = 'D-' THEN 0.7\n",
     "                ELSE 0.0\n",
     "            END) AS GPA,\n",
     "            d.DepartmentName\n",
     "        FROM Student s\n",
     "        JOIN Enrollment e ON s.StudentID = e.StudentID\n",
     "        JOIN Department d ON s.DepartmentID = d.DepartmentID\n",
     "    "]

/-- The template literal that opens the query of section-fill-rate (server.js 1951-1962). -/
def fillRateSelect : String :=
  String.join
    ["\n",
     "        SELECT\n",
     "            sec.SectionID,\n",
     "            c.Title AS CourseTitle,\n",
     "            COUNT(e.StudentID) AS EnrolledStudents,\n",
     "            cr.Capacity,\n",
     "            (COUNT(e.StudentID) / cr.Capacity) * 100 AS FillRate\n",
     "        FROM Section sec\n",
     "        JOIN Course c ON sec.CourseCode = c.CourseCode\n",
     "        JOIN ClassRoom cr ON sec.RoomNumber = cr.RoomNumber\n",
     "        LEFT JOIN Enrollment e ON sec.SectionID = e.SectionID\n",
     "    "]

/-- The template literal that closes the query of section-fill-rate (server.js 1968-1971). -/
def fillRateGroupOrder : String :=
  String.join
    ["\n",
     "        GROUP BY sec.SectionID, c.Title, cr.Capacity\n",
     "        ORDER BY sec.SectionID;\n",
     "    "]

/-- The template literal that opens the query of grade-distribution (server.js 1985-1997). -/
def gradeDistributionSelect : String :=
  String.join
    ["\n",
     "        SELECT\n",
     "            sem.Year,\n",
     "            sem.Season,\n",
     "            COALESCE(f.FullName, 'N/A') AS InstructorName,\n",
     "            e.Grade,\n",
     "            COUNT(e.Grade) AS GradeCount\n",
     "        FROM Enrollment e\n",
     "        JOIN Section sec ON e.SectionID = sec.SectionID\n",
     "        JOIN Course c ON sec.CourseCode = c.CourseCode\n",
     "        JOIN Semester sem ON sec.SemesterID = sem.SemesterID\n",
     "        LEFT JOIN Faculty f ON sec.FacultyID = f.FacultyID\n",
     "    "]

/-- The template literal that closes the query of grade-distribution (server.js
2018-2021). -/
def gradeDistributionGroupOrder : String :=
  String.join
    ["\n",
     "        GROUP BY sem.Year, sem.Season, InstructorName, e.Grade -- Changed f.FullName to InstructorName alias\n",
     "        ORDER BY sem.Year DESC, FIELD(sem.Season, 'Fall', 'Summer', 'Spring', 'Winter') DESC, InstructorName, e.Grade;\n",
     "    "]

/-- The template literal that opens the query of gpa-analysis-grades (server.js 2073-2088). -/
def gpaAnalysisSelect : String :=
  String.join
    ["\n",
     "        SELECT\n",
     "            E.StudentID,\n",
     "            S.Gender,\n",
     "            D.DepartmentName,\n",
     "            C.CourseCode,\n",
     "            E.Grade,\n",
     "            SEM.SemesterID\n",
     "        FROM Enrollment E\n",
     "        JOIN Student S ON E.StudentID = S.StudentID\n",
     "        JOIN Section SEC ON E.SectionID = SEC.SectionID\n",
     "        JOIN Course C ON SEC.CourseCode = C.CourseCode\n",
     "        JOIN Department D ON S.DepartmentID = D.DepartmentID\n",
     "        JOIN Semester SEM ON SEC.SemesterID = SEM.SemesterID\n",
     "        WHERE 1=1\n",
     "    "]

/-- The query text of students-on-probation (server.js 1721-1741). -/
def probationQuery : String :=
  String.join
    ["\n",
     "            SELECT s.FirstName, s.LastName, AVG(CASE\n",
     "                WHEN e.Grade = 'A' THEN 4.0\n",
     "                WHEN e.Grade = 'A-' THEN 3.7\n",
     "                WHEN e.Grade = 'B+' THEN 3.3\n",
     "                WHEN e.Grade = 'B' THEN 3.0\n",
     "                WHEN e.Grade = 'B-' THEN 2.7\n",
     "                WHEN e.Grade = 'C+' THEN 2.3\n",
     "                WHEN e.Grade = 'C' THEN 2.0\n",
     "                WHEN e.Grade = 'C-' THEN 1.7\n",
     "                WHEN e.Grade = 'D+' THEN 1.3\n",
     "                WHEN e.Grade = 'D' THEN 1.0\n",
     "                WHEN e.Grade = 'D-' THEN 0.7\n",
     "                ELSE 0.0\n",
     "            END) AS GPA\n",
     "            FROM Student s\n",
     "            JOIN Enrollment e ON s.StudentID = e.StudentID\n",
     "            GROUP BY s.StudentID, s.FirstName, s.LastName\n",
     "            HAVING GPA < 2.0\n",
     "            ORDER BY GPA ASC;\n",
     "        "]

/-! ## Building the report queries -/

/-- What a report endpoint hands to `datapool.query(query, params)`, together with the pieces the
text was assembled from: the `column = ?` conditions of the `WHERE` clause in the order of their
placeholders, the conditions of the `HAVING` clause, and the row limit. -/
structure ReportQuery where
  query : String
  params : List Param
  conditions : List String := []
  havingConditions : List String := []
  limit : Option Nat := none
deriving DecidableEq

/-- The step `if (v && v.toLowerCase() !== 'all') { conditions.push(cond); params.push(v); }`
on the pair of arrays `(conditions, params)`. -/
def pushFilter (v : QueryValue) (cond : String) (arrays : List String × List Param) :
    List String × List Param :=
  match v with
  | none => arrays
  | some s =>
    if filterActive (some s) then (arrays.1 ++ [cond], arrays.2 ++ [Param.str s]) else arrays

/-- The step `if (conditions.length > 0) { query += " WHERE " + conditions.join(" AND "); }`. -/
def appendWhere (query : String) (conditions : List String) : String :=
  if conditions.length > 0 then query ++ " WHERE " ++ String.intercalate " AND " conditions
  else query

/-- `GET /api/reports/average-gpa-per-department` (server.js 1589-1636): the query it builds from
`req.query.gender` and `req.query.semesterId`. -/
def buildAverageGpa (gender semesterId : QueryValue) : ReportQuery :=
  let arrays := pushFilter gender "s.Gender = ?" ([], [])
  let arrays := pushFilter semesterId "sem.SemesterID = ?" arrays
  let query := appendWhere averageGpaSelect arrays.1
  let query := query ++ averageGpaGroupOrder
  { query := query, params := arrays.2, conditions := arrays.1 }

/-- `GET /api/reports/course-performance-trends` (server.js 1752-1790): the query it builds from
`req.query.courseCode`. -/
def buildTrends (courseCode : QueryValue) : ReportQuery :=
  let arrays := pushFilter courseCode "c.CourseCode = ?" ([], [])
  let query := appendWhere trendsSelect arrays.1
  let query := query ++ trendsGroupOrder
  { query := query, params := arrays.2, conditions := arrays.1 }

/-- The test `!departmentId || departmentId.toLowerCase() === 'all'` that guards `LIMIT 10`. -/
def noSpecificDepartment : QueryValue → Bool
  | none => true
  | some s => !truthy (some s) || toLowerCase s == "all"

/-- `GET /api/reports/top-performing-students` (server.js 1835-1902): the query it builds from
`req.query.departmentId` and `req.query.minGpa`, with the built-in `parseFloat` as a parameter. -/
def buildTopPerforming (parseFloat : String → JsNumber) (departmentId minGpa : QueryValue) :
    ReportQuery :=
  let arrays := pushFilter departmentId "s.DepartmentID = ?" ([], [])
  let query := appendWhere topPerformingSelect arrays.1
  let query := query ++ " GROUP BY s.StudentID, s.FirstName, s.LastName, d.DepartmentName"
  let having : List String × List Param :=
    match minGpa with
    | some m =>
      if toLowerCase m != "all" then
        let parsedGpa := parseFloat m
        if parsedGpa ≠ JsNumber.nan then (["GPA >= ?"], arrays.2 ++ [Param.num parsedGpa])
        else ([], arrays.2)
      else (["GPA >= ?"], arrays.2 ++ [Param.num (JsNumber.finite 0.0)])
    | none => (["GPA >= ?"], arrays.2 ++ [Param.num (JsNumber.finite 0.0)])
  let query :=
    if having.1.length > 0 then query ++ " HAVING " ++ String.intercalate " AND " having.1
    else query
  let query := query ++ " ORDER BY GPA DESC"
  let query := if noSpecificDepartment departmentId then query ++ " LIMIT 10" else query
  { query := query, params := having.2, conditions := arrays.1, havingConditions := having.1,
    limit := if noSpecificDepartment departmentId then some 10 else none }

/-- `GET /api/reports/section-fill-rate` (server.js 1949-1971): the query it builds from
`req.query.sectionId`; the condition is appended to the text directly. -/
def buildFillRate (sectionId : QueryValue) : ReportQuery :=
  let arrays := pushFilter sectionId "sec.SectionID = ?" ([], [])
  let query :=
    if filterActive sectionId then fillRateSelect ++ " WHERE sec.SectionID = ?"
    else fillRateSelect
  let query := query ++ fillRateGroupOrder
  { query := query, params := arrays.2, conditions := arrays.1 }

/-- `GET /api/reports/grade-distribution` (server.js 1983-2021): the query it builds from
`req.query.courseCode`, `req.query.semesterId` and `req.query.facultyId`. -/
def buildGradeDistribution (courseCode semesterId facultyId : QueryValue) : ReportQuery :=
  let arrays := pushFilter courseCode "c.CourseCode = ?" ([], [])
  let arrays := pushFilter semesterId "sem.SemesterID = ?" arrays
  let arrays := pushFilter facultyId "f.FacultyID = ?" arrays
  let query := appendWhere gradeDistributionSelect arrays.1
  let query := query ++ gradeDistributionGroupOrder
  { query := query, params := arrays.2, conditions := arrays.1 }

/-- `GET /api/gpa-analysis-grades` (server.js 2071-2097): the query it builds from
`req.query.semesterId` and `req.query.gender`; each condition is appended after `WHERE 1=1`. -/
def buildGpaAnalysis (semesterId gender : QueryValue) : ReportQuery :=
  let arrays := pushFilter semesterId "SEM.SemesterID = ?" ([], [])
  let query :=
    if filterActive semesterId then gpaAnalysisSelect ++ " AND SEM.SemesterID = ?"
    else gpaAnalysisSelect
  let arrays := pushFilter gender "S.Gender = ?" arrays
  let query := if filterActive gender then query ++ " AND S.Gender = ?" else query
  { query := query, params := arrays.2, conditions := arrays.1 }

/-- `GET /api/reports/students-on-probation` (server.js 1719-1743): a fixed text, no parameter. -/
def buildProbation : ReportQuery :=
  { query := probationQuery, params := [] }

/-! ## Running the report queries -/

/-- SQL `column = ?` with the placeholder bound to a text parameter. -/
def sqlEqParam : Option String → Param → Bool
  | some v, Param.str p => v == p
  | _, _ => false

/-- Whether a parameter is a string, the form of every filter value bound in a `WHERE` clause. -/
def Param.isText : Param → Bool
  | Param.str _ => true
  | Param.num _ => false

/-- Whether a parameter is a finite number, which the driver writes as a numeric literal; `NaN`
and the infinities are written as bare words that the engine rejects. -/
def Param.isFiniteNumber : Param → Bool
  | Param.num (JsNumber.finite _) => true
  | _ => false

/-- The parameters of the `WHERE` placeholders: the first ones of the array. -/
def ReportQuery.whereParams (q : ReportQuery) : List Param :=
  q.params.take q.conditions.length

/-- The parameters of the `HAVING` placeholders: those after the `WHERE` ones. -/
def ReportQuery.havingParams (q : ReportQuery) : List Param :=
  q.params.drop q.conditions.length

/-- The conditions of the `WHERE` clause, each with the parameter bound to its placeholder. -/
def ReportQuery.whereBound (q : ReportQuery) : List (String × Param) :=
  q.conditions.zip q.whereParams

/-- The conditions of the `HAVING` clause, each with the parameter bound to its placeholder. -/
def ReportQuery.havingBound (q : ReportQuery) : List (String × Param) :=
  q.havingConditions.zip q.havingParams

/-- Whether the engine accepts the statement: as many parameters as placeholders, only
conditions on columns of the query (`knownWhere`, `knownHaving`), text parameters in `WHERE` and
finite numbers in `HAVING`. -/
def ReportQuery.accepted (knownWhere knownHaving : List String) (q : ReportQuery) : Bool :=
  (q.conditions.length + q.havingConditions.length == q.params.length) &&
  q.conditions.all (fun c => decide (c ∈ knownWhere)) &&
  q.havingConditions.all (fun c => decide (c ∈ knownHaving)) &&
  q.whereParams.all Param.isText &&
  q.havingParams.all Param.isFiniteNumber

/-- SQL `LIMIT`: the first `n` rows when a limit is set. -/
def applyLimit {α : Type} (limit : Option Nat) (rows : List α) : List α :=
  match limit with
  | some n => rows.take n
  | none => rows

/-! ### top-performing-students -/

/-- A row of `Student s JOIN Enrollment e ON s.StudentID = e.StudentID JOIN Department d ON
s.DepartmentID = d.DepartmentID`. -/
structure TopJoinRow where
  s : Student
  e : Enrollment
  d : Department
deriving DecidableEq

/-- The join of top-performing-students (server.js 1856-1858). -/
def topJoin (db : Database) : List TopJoinRow :=
  db.students.flatMap (fun s =>
    (db.enrollments.filter (fun e => s.StudentID = e.StudentID)).flatMap (fun e =>
      (db.departments.filter (fun d => s.DepartmentID = some d.DepartmentID)).map (fun d =>
        { s := s, e := e, d := d })))

/-- A bound `WHERE` condition of top-performing-students on a joined row. -/
def topWhere (r : TopJoinRow) (bound : String × Param) : Bool :=
  if bound.1 = "s.DepartmentID = ?" then sqlEqParam r.s.DepartmentID bound.2 else false

/-- A bound `HAVING` condition of top-performing-students on the aggregate `GPA`. -/
def topHaving (gpa : Option ℚ) (bound : String × Param) : Bool :=
  match bound.2, gpa with
  | Param.num (JsNumber.finite q), some g => decide (bound.1 = "GPA >= ?") && decide (q ≤ g)
  | _, _ => false

/-- The key `GROUP BY s.StudentID, s.FirstName, s.LastName, d.DepartmentName`. -/
def topKey (r : TopJoinRow) : Ident × String × String × String :=
  (r.s.StudentID, r.s.FirstName, r.s.LastName, r.d.DepartmentName)

/-- The groups of top-performing-students with their `GPA`, after `WHERE`, `GROUP BY`. -/
def topAggregated (db : Database) (q : ReportQuery) :
    List ((Ident × String × String × String) × Option ℚ) :=
  let rows := (topJoin db).filter (fun r => q.whereBound.all (topWhere r))
  (groupBy topKey rows).map (fun g => (g.1, groupGpa gradePointTop (g.2.map (fun r => r.e.Grade))))

/-- The groups of top-performing-students after `HAVING`, `ORDER BY GPA DESC` and `LIMIT`. -/
def topGroups (db : Database) (q : ReportQuery) :
    List ((Ident × String × String × String) × Option ℚ) :=
  let kept := (topAggregated db q).filter (fun g => q.havingBound.all (topHaving g.2))
  applyLimit q.limit (orderBy (fun a b => nullableLe b.2 a.2) kept)

/-- A row of the result of top-performing-students: `FirstName, LastName, GPA,
DepartmentName`. -/
structure TopRow where
  FirstName : String
  LastName : String
  GPA : Option ℚ
  DepartmentName : String
deriving DecidableEq

/-- The rows the engine returns for a query of top-performing-students; `none` when it rejects
the statement. -/
def runTopPerforming (db : Database) (q : ReportQuery) : Option (List TopRow) :=
  if q.accepted ["s.DepartmentID = ?"] ["GPA >= ?"] then
    some ((topGroups db q).map (fun g =>
      { FirstName := g.1.2.1, LastName := g.1.2.2.1, GPA := g.2, DepartmentName := g.1.2.2.2 }))
  else none

/-! ### students-on-probation -/

/-- The join `Student s JOIN Enrollment e ON s.StudentID = e.StudentID` (server.js 1736-1737). -/
def probationJoin (db : Database) : List (Student × Enrollment) :=
  db.students.flatMap (fun s =>
    (db.enrollments.filter (fun e => s.StudentID = e.StudentID)).map (fun e => (s, e)))

/-- The key `GROUP BY s.StudentID, s.FirstName, s.LastName`. -/
def probationKey (r : Student × Enrollment) : Ident × String × String :=
  (r.1.StudentID, r.1.FirstName, r.1.LastName)

/-- The groups of students-on-probation with their `GPA`, after `HAVING GPA < 2.0` and `ORDER BY
GPA ASC`. -/
def probationGroups (db : Database) : List ((Ident × String × String) × Option ℚ) :=
  let aggregated := (groupBy probationKey (probationJoin db)).map (fun g =>
    (g.1, groupGpa gradePointProbation (g.2.map (fun r => r.2.Grade))))
  let kept := aggregated.filter (fun g =>
    match g.2 with
    | some gpa => decide (gpa < 2.0)
    | none => false)
  orderBy (fun a b => nullableLe a.2 b.2) kept

/-- A row of the result of students-on-probation: `FirstName, LastName, GPA`. -/
structure ProbationRow where
  FirstName : String
  LastName : String
  GPA : Option ℚ
deriving DecidableEq

/-- The rows of `GET /api/reports/students-on-probation`. -/
def runProbation (db : Database) : List ProbationRow :=
  (probationGroups db).map (fun g => { FirstName := g.1.2.1, LastName := g.1.2.2, GPA := g.2 })

/-- The enrollments of one student. -/
def enrollmentsOf (db : Database) (s : Student) : List Enrollment :=
  db.enrollments.filter (fun e => s.StudentID = e.StudentID)

/-- The mean of the mapped grade points over a list of enrollments, as a plain quotient. -/
def meanGradePoint (gradePoint : Option String → ℚ) (es : List Enrollment) : ℚ :=
  (es.map (fun e => gradePoint e.Grade)).sum / (es.length : ℚ)

/-! ### average-gpa-per-department -/

/-- A row of `Enrollment e JOIN Student s JOIN Section sec JOIN Semester sem JOIN Department d`
with the `ON` conditions of server.js 1611-1615. -/
structure GpaJoinRow where
  e : Enrollment
  s : Student
  sec : Section
  sem : Semester
  d : Department
deriving DecidableEq

/-- The join of average-gpa-per-department (server.js 1611-1615). -/
def averageGpaJoin (db : Database) : List GpaJoinRow :=
  db.enrollments.flatMap (fun e =>
    (db.students.filter (fun s => e.StudentID = s.StudentID)).flatMap (fun s =>
      (db.sections.filter (fun sec => e.SectionID = sec.SectionID)).flatMap (fun sec =>
        (db.semesters.filter (fun sem => sec.SemesterID = sem.SemesterID)).flatMap (fun sem =>
          (db.departments.filter (fun d => s.DepartmentID = some d.DepartmentID)).map (fun d =>
            { e := e, s := s, sec := sec, sem := sem, d := d })))))

/-- A bound `WHERE` condition of average-gpa-per-department on a joined row. -/
def averageGpaWhere (r : GpaJoinRow) (bound : String × Param) : Bool :=
  if bound.1 = "s.Gender = ?" then sqlEqParam r.s.Gender bound.2
  else if bound.1 = "sem.SemesterID = ?" then sqlEqParam (some r.sem.SemesterID) bound.2
  else false

/-- The key `GROUP BY d.DepartmentName, sem.Year, sem.Season, s.Gender`. -/
def averageGpaKey (r : GpaJoinRow) : String × Int × String × Option String :=
  (r.d.DepartmentName, r.sem.Year, r.sem.Season, r.s.Gender)

/-- A row of the result of average-gpa-per-department: `DepartmentName, Year, Season, Gender,
AverageGPA`. -/
structure AverageGpaRow where
  DepartmentName : String
  Year : Int
  Season : String
  Gender : Option String
  AverageGPA : Option ℚ
deriving DecidableEq

/-- Ascending order of a nullable text column: `NULL` sorts first. -/
def nullableTextLe : Option String → Option String → Bool
  | none, _ => true
  | some _, none => false
  | some a, some b => textLe a b

/-- The clause `ORDER BY d.DepartmentName, sem.Year DESC, FIELD(sem.Season, 'Fall', 'Summer',
'Spring', 'Winter') DESC, s.Gender`: `a` may stand before `b`. -/
def averageGpaPrecedes (a b : AverageGpaRow) : Bool :=
  if a.DepartmentName ≠ b.DepartmentName then textLe a.DepartmentName b.DepartmentName
  else if a.Year ≠ b.Year then decide (b.Year < a.Year)
  else if sqlField a.Season seasonField4 ≠ sqlField b.Season seasonField4 then
    decide (sqlField b.Season seasonField4 < sqlField a.Season seasonField4)
  else nullableTextLe a.Gender b.Gender

/-- The joined rows that pass the `WHERE` clause of a query of average-gpa-per-department. -/
def averageGpaSelected (db : Database) (q : ReportQuery) : List GpaJoinRow :=
  (averageGpaJoin db).filter (fun r => q.whereBound.all (averageGpaWhere r))

/-- The rows the engine returns for a query of average-gpa-per-department; `none` when it
rejects the statement. -/
def runAverageGpa (db : Database) (q : ReportQuery) : Option (List AverageGpaRow) :=
  if q.accepted ["s.Gender = ?", "sem.SemesterID = ?"] [] then
    some (orderBy averageGpaPrecedes
      ((groupBy averageGpaKey (averageGpaSelected db q)).map (fun g =>
        { DepartmentName := g.1.1, Year := g.1.2.1, Season := g.1.2.2.1, Gender := g.1.2.2.2,
          AverageGPA := groupGpa gradePointAverageGpa (g.2.map (fun r => r.e.Grade)) })))
  else none

/-! ### course-performance-trends -/

/-- A row of `Enrollment e JOIN Section sec JOIN Semester sem JOIN Course c` with the `ON`
conditions of server.js 1773-1776. -/
structure TrendJoinRow where
  e : Enrollment
  sec : Section
  sem : Semester
  c : Course
deriving DecidableEq

/-- The join of course-performance-trends (server.js 1773-1776). -/
def trendsJoin (db : Database) : List TrendJoinRow :=
  db.enrollments.flatMap (fun e =>
    (db.sections.filter (fun sec => e.SectionID = sec.SectionID)).flatMap (fun sec =>
      (db.semesters.filter (fun sem => sec.SemesterID = sem.SemesterID)).flatMap (fun sem =>
        (db.courses.filter (fun c => sec.CourseCode = c.CourseCode)).map (fun c =>
          { e := e, sec := sec, sem := sem, c := c }))))

/-- A bound `WHERE` condition of course-performance-trends on a joined row. -/
def trendsWhere (r : TrendJoinRow) (bound : String × Param) : Bool :=
  if bound.1 = "c.CourseCode = ?" then sqlEqParam (some r.c.CourseCode) bound.2 else false

/-- The key `GROUP BY sem.Year, sem.Season, c.Title`. -/
def trendsKey (r : TrendJoinRow) : Int × String × String :=
  (r.sem.Year, r.sem.Season, r.c.Title)

/-- A row of the result of course-performance-trends: `Year, Season, Title, AverageGrade`. -/
structure TrendRow where
  Year : Int
  Season : String
  Title : String
  AverageGrade : Option ℚ
deriving DecidableEq

/-- The clause `ORDER BY sem.Year ASC, FIELD(sem.Season, 'Fall', 'Summer', 'Spring', 'Winter')
ASC, c.Title`: `a` may stand before `b`. -/
def trendsPrecedes (a b : TrendRow) : Bool :=
  if a.Year ≠ b.Year then decide (a.Year < b.Year)
  else if sqlField a.Season seasonField4 ≠ sqlField b.Season seasonField4 then
    decide (sqlField a.Season seasonField4 < sqlField b.Season seasonField4)
  else textLe a.Title b.Title

/-- The rows the engine returns for a query of course-performance-trends; `none` when it rejects
the statement. -/
def runTrends (db : Database) (q : ReportQuery) : Option (List TrendRow) :=
  if q.accepted ["c.CourseCode = ?"] [] then
    some (orderBy trendsPrecedes
      ((groupBy trendsKey ((trendsJoin db).filter (fun r => q.whereBound.all (trendsWhere r)))).map
        (fun g =>
          { Year := g.1.1, Season := g.1.2.1, Title := g.1.2.2,
            AverageGrade := groupGpa gradePointTrends (g.2.map (fun r => r.e.Grade)) })))
  else none

/-! ## Chronological order, as the specification and the client define it -/

/-- The season rank of the specification, the fixed sequence Spring, Summer, Fall; it is also the
`seasonMap` of `parseSemesterForSort` and the `semesterOrder` of `generateSemestersInRange` in
`admin.js`. -/
def specSeasonRank (season : String) : Option Nat :=
  if season = "Spring" then some 0
  else if season = "Summer" then some 1
  else if season = "Fall" then some 2
  else none

/-- The specification's order of two semesters: `a` is strictly later than `b`, by Year and then
by season rank. -/
def specLater (aYear : Int) (aSeason : String) (bYear : Int) (bSeason : String) : Prop :=
  bYear < aYear ∨
    (aYear = bYear ∧ ∃ ra rb, specSeasonRank aSeason = some ra ∧ specSeasonRank bSeason = some rb ∧
      rb < ra)

/-- The seasons a `Semester` row may carry. -/
def validSeasons : List String := ["Spring", "Summer", "Fall", "Winter"]

/-- The sort key `(Year, FIELD(Season, ...))` of the `ORDER BY` clauses on semesters. -/
def semesterSortKey (args : List String) (sem : Semester) : Int × Nat :=
  (sem.Year, sqlField sem.Season args)

/-! ## Concrete database states -/

/-- A state with the three semesters of 2024 and the Fall of 2023, one course taught by one
faculty member in each of them, and one student enrolled in all four sections. -/
def calendarDb : Database :=
  { departments := [{ DepartmentID := "1", DepartmentName := "Computing" }],
    semesters :=
      [{ SemesterID := "1", Year := 2023, Season := "Fall" },
       { SemesterID := "2", Year := 2024, Season := "Spring" },
       { SemesterID := "3", Year := 2024, Season := "Summer" },
       { SemesterID := "4", Year := 2024, Season := "Fall" }],
    courses := [{ CourseCode := "CSC302", Title := "Databases" }],
    students :=
      [{ StudentID := "10", FirstName := "Ada", LastName := "Byron", Gender := some "Female",
         DepartmentID := some "1" }],
    sections :=
      [{ SectionID := "100", CourseCode := "CSC302", SemesterID := "1", FacultyID := some "7" },
       { SectionID := "101", CourseCode := "CSC302", SemesterID := "2", FacultyID := some "7" },
       { SectionID := "102", CourseCode := "CSC302", SemesterID := "3", FacultyID := some "7" },
       { SectionID := "103", CourseCode := "CSC302", SemesterID := "4", FacultyID := some "7" }],
    enrollments :=
      [{ StudentID := "10", SectionID := "100", Grade := some "C" },
       { StudentID := "10", SectionID := "101", Grade := some "B" },
       { StudentID := "10", SectionID := "102", Grade := some "A-" },
       { StudentID := "10", SectionID := "103", Grade := some "A" }] }

/-- The state `calendarDb` with the rows of `Semester` stored in another order. -/
def calendarDbReordered : Database :=
  { calendarDb with
    semesters :=
      [{ SemesterID := "4", Year := 2024, Season := "Fall" },
       { SemesterID := "2", Year := 2024, Season := "Spring" },
       { SemesterID := "1", Year := 2023, Season := "Fall" },
       { SemesterID := "3", Year := 2024, Season := "Summer" }] }

/-- `a` stands strictly before `b` under `ORDER BY Year DESC, FIELD(Season, ...) DESC`. -/
def strictlyBefore (args : List String) (a b : Semester) : Prop :=
  yearDescFieldDesc args a.Year a.Season b.Year b.Season = true ∧
    yearDescFieldDesc args b.Year b.Season a.Year a.Season = false

/-- A student whose two grades are both `C`. -/
def studentAnn : Student :=
  { StudentID := "10", FirstName := "Ann", LastName := "Lee", Gender := some "Female",
    DepartmentID := some "1" }

/-- A student with a `D` and an ungraded enrollment. -/
def studentBob : Student :=
  { StudentID := "11", FirstName := "Bob", LastName := "Ray", Gender := some "Male",
    DepartmentID := some "1" }

/-- A state for the probation report: Ann has two grades `C` (mean exactly 2.0), Bob a `D` and an
ungraded enrollment (mean 0.5), Cy an `A`, Dee no enrollment. -/
def probationDb : Database :=
  { students :=
      [studentAnn, studentBob,
       { StudentID := "12", FirstName := "Cy", LastName := "Poe", Gender := none,
         DepartmentID := none },
       { StudentID := "13", FirstName := "Dee", LastName := "Orr", Gender := some "Female",
         DepartmentID := some "1" }],
    enrollments :=
      [{ StudentID := "10", SectionID := "100", Grade := some "C" },
       { StudentID := "11", SectionID := "100", Grade := some "D" },
       { StudentID := "11", SectionID := "101", Grade := some "Ungraded" },
       { StudentID := "10", SectionID := "101", Grade := some "C" },
       { StudentID := "12", SectionID := "100", Grade := some "A" }] }

/-- The joined rows of average-gpa-per-department whose student has the given Gender, whose
section is in the given semester, and whose `GROUP BY` key is `key`. -/
def averageGpaGroup (db : Database) (gender : String) (semesterId : Ident)
    (key : String × Int × String × Option String) : List GpaJoinRow :=
  (averageGpaJoin db).filter (fun r =>
    decide (r.s.Gender = some gender) && decide (r.sem.SemesterID = semesterId) &&
      decide (averageGpaKey r = key))

/-! ## Requests and the filters an endpoint reads -/

/-- The object `req.query`: the value of each key of the query string, `none` for a key that is
not there. -/
abbrev Query := String → QueryValue

/-- The handler of average-gpa-per-department: `const { gender, semesterId } = req.query`. -/
def handleAverageGpa (req : Query) : ReportQuery :=
  buildAverageGpa (req "gender") (req "semesterId")

/-- The handler of course-performance-trends: `const { courseCode } = req.query`. -/
def handleTrends (req : Query) : ReportQuery :=
  buildTrends (req "courseCode")

/-- The handler of top-performing-students: `const { departmentId, minGpa } = req.query`. -/
def handleTopPerforming (parseFloat : String → JsNumber) (req : Query) : ReportQuery :=
  buildTopPerforming parseFloat (req "departmentId") (req "minGpa")

/-- The handler of section-fill-rate: `const { sectionId } = req.query`. -/
def handleFillRate (req : Query) : ReportQuery :=
  buildFillRate (req "sectionId")

/-- The handler of grade-distribution: `const { courseCode, semesterId, facultyId } =
req.query`. -/
def handleGradeDistribution (req : Query) : ReportQuery :=
  buildGradeDistribution (req "courseCode") (req "semesterId") (req "facultyId")

/-- The handler of gpa-analysis-grades: `const { semesterId, gender } = req.query`. -/
def handleGpaAnalysis (req : Query) : ReportQuery :=
  buildGpaAnalysis (req "semesterId") (req "gender")

/-- The number of `?` placeholders in an SQL text. -/
def placeholderCount (sql : String) : Nat :=
  sql.data.count '?'

/-- The conditions of the filters that are active, in the order in which the handler tests
them; a filter is given as its value and its condition. -/
def activeConditions (filters : List (QueryValue × String)) : List String :=
  (filters.filter (fun f => filterActive f.1)).map (fun f => f.2)

/-- The values of the filters that are active, as bound parameters, in the order in which the
handler tests them. -/
def activeValues (filters : List (QueryValue × String)) : List Param :=
  (filters.filter (fun f => filterActive f.1)).filterMap (fun f => f.1.map Param.str)

/-- The clause ` WHERE c1 AND c2 ...` of a list of conditions, empty for no condition. -/
def whereClause (conditions : List String) : String :=
  if conditions = [] then "" else " WHERE " ++ String.intercalate " AND " conditions

/-- The clause ` HAVING c1 AND c2 ...` of a list of conditions, empty for no condition. -/
def havingClause (conditions : List String) : String :=
  if conditions = [] then "" else " HAVING " ++ String.intercalate " AND " conditions

/-- What top-performing-students puts in its `HAVING` clause for a value of minGpa: the parsed
number when minGpa is given, is not `All` and parses; the default 0.0 when minGpa is absent or
`All`; nothing when minGpa is given, is not `All` and does not parse. -/
def minGpaBound (parseFloat : String → JsNumber) : QueryValue → Option JsNumber
  | none => some (JsNumber.finite 0.0)
  | some m =>
    if toLowerCase m = "all" then some (JsNumber.finite 0.0)
    else if parseFloat m = JsNumber.nan then none
    else some (parseFloat m)

/-- The parameter top-performing-students binds in its `HAVING` clause, if any. -/
def minGpaParams (parseFloat : String → JsNumber) (minGpa : QueryValue) : List Param :=
  match minGpaBound parseFloat minGpa with
  | some x => [Param.num x]
  | none => []

/-- The conditions top-performing-students puts in its `HAVING` clause. -/
def minGpaConditions (parseFloat : String → JsNumber) (minGpa : QueryValue) : List String :=
  match minGpaBound parseFloat minGpa with
  | some _ => ["GPA >= ?"]
  | none => []

/-- The text appended by gpa-analysis-grades after `WHERE 1=1`: each condition behind an
` AND `. -/
def andClauses (conditions : List String) : String :=
  String.join (conditions.map (fun c => " AND " ++ c))

/-- A request that carries only the given key. -/
def singleKeyQuery (key value : String) : Query :=
  fun k => if k = key then some value else none

/-- A request without any key. -/
def emptyQuery : Query := fun _ => none

/-! ## The reports dashboard (`admin.js`) -/

/-- An entry of `reportsMetadata` (admin.js 1799-1812). -/
structure ReportInfo where
  name : String
  func : String
  headers : List String
  graphType : Option String
  plotIndices : Option (List Nat × Nat)
  filters : List String
deriving DecidableEq

/-- The array `reportsMetadata` of the reports dashboard (admin.js 1799-1812). -/
def reportsMetadata : List ReportInfo :=
  [{ name := "Departmental Enrollment Statistics",
     func := "/reports/students-enrolled-per-department",
     headers := ["Department", "Student Count"],
     graphType := some "bar", plotIndices := some ([0], 1), filters := [] },
   { name := "Average GPA Analysis by Department",
     func := "/reports/average-gpa-per-department",
     headers := ["Department", "Year", "Season", "Gender", "Average GPA"],
     graphType := some "bar", plotIndices := some ([0, 1, 2, 3], 4),
     filters := ["gender", "semester_id"] },
   { name := "Faculty Course Load",
     func := "/reports/faculty-with-courses",
     headers := ["Faculty Name", "Course Count"],
     graphType := some "pie", plotIndices := some ([0], 1), filters := [] },
   { name := "Popular Courses by Enrollment",
     func := "/reports/most-popular-courses",
     headers := ["Course Title", "Enrollment Count"],
     graphType := some "bar", plotIndices := some ([0], 1), filters := [] },
   { name := "Classroom Utilization Audit",
     func := "/reports/overbooked-classrooms",
     headers := ["Classroom", "Capacity", "Total Enrollment", "Over Capacity"],
     graphType := some "bar", plotIndices := some ([0], 2), filters := [] },
   { name := "Academic Probation List",
     func := "/reports/students-on-probation",
     headers := ["First Name", "Last Name", "GPA"],
     graphType := some "bar", plotIndices := some ([0, 1], 2), filters := [] },
   { name := "Course Performance Trend",
     func := "/reports/course-performance-trends",
     headers := ["Year", "Season", "Course Title", "Average Grade"],
     graphType := some "line", plotIndices := some ([0, 1, 2], 3),
     filters := ["course_code"] },
   { name := "Schedule Conflict Detection",
     func := "/reports/timetable-conflicts",
     headers := ["Student First Name", "Student Last Name", "Section 1 ID", "Section 2 ID"],
     graphType := none, plotIndices := none, filters := [] },
   { name := "Top Performing Students",
     func := "/reports/top-performing-students",
     headers := ["First Name", "Last Name", "GPA", "Department"],
     graphType := some "bar", plotIndices := some ([0, 1], 2),
     filters := ["department_id", "min_gpa"] },
   { name := "Inactive Students Report",
     func := "/reports/inactive-students",
     headers := ["First Name", "Last Name", "Student ID"],
     graphType := none, plotIndices := none, filters := [] },
   { name := "Section Fill Rate",
     func := "/reports/section-fill-rate",
     headers := ["Section ID", "Course Title", "Enrolled Students", "Capacity",
       "Fill Rate (%)"],
     graphType := some "bar", plotIndices := some ([0, 1], 4), filters := ["section_id"] },
   { name := "Custom Report: Grade Distribution",
     func := "/reports/grade-distribution",
     headers := ["Semester Year", "Semester Season", "Instructor", "Grade", "Count"],
     graphType := some "bar", plotIndices := some ([0, 1, 2, 3], 4),
     filters := ["course_code", "semester_id", "faculty_id"] }]

/-- The names under which the rows of a report endpoint carry the columns of its SELECT list, in
the order of the list: the alias of a column when it has one, its own name otherwise (server.js
1565, 1593-1610, 1651, 1673, 1696-1699, 1722-1735, 1756-1772, 1806-1809, 1839-1855, 1930,
1953-1957, 1987-1991). -/
def selectColumns (func : String) : List String :=
  if func = "/reports/students-enrolled-per-department" then
    ["DepartmentName", "EnrollmentCount"]
  else if func = "/reports/average-gpa-per-department" then
    ["DepartmentName", "Year", "Season", "Gender", "AverageGPA"]
  else if func = "/reports/faculty-with-courses" then ["FullName", "CourseCount"]
  else if func = "/reports/most-popular-courses" then ["Title", "EnrollmentCount"]
  else if func = "/reports/overbooked-classrooms" then
    ["RoomNumber", "Capacity", "TotalEnrollment", "OverCapacity"]
  else if func = "/reports/students-on-probation" then ["FirstName", "LastName", "GPA"]
  else if func = "/reports/course-performance-trends" then
    ["Year", "Season", "Title", "AverageGrade"]
  else if func = "/reports/timetable-conflicts" then
    ["FirstName", "LastName", "Section1ID", "Section2ID"]
  else if func = "/reports/top-performing-students" then
    ["FirstName", "LastName", "GPA", "DepartmentName"]
  else if func = "/reports/inactive-students" then ["FirstName", "LastName", "StudentID"]
  else if func = "/reports/section-fill-rate" then
    ["SectionID", "CourseTitle", "EnrolledStudents", "Capacity", "FillRate"]
  else if func = "/reports/grade-distribution" then
    ["Year", "Season", "InstructorName", "Grade", "GradeCount"]
  else []

/-- Assignment `obj[key] = value` on an object kept as its own string keys, in insertion order,
with their values: an existing key keeps its place. -/
def setProperty {α : Type} (obj : List (String × α)) (key : String) (value : α) :
    List (String × α) :=
  if obj.any (fun kv => kv.1 = key) then
    obj.map (fun kv => if kv.1 = key then (key, value) else kv)
  else obj ++ [(key, value)]

/-- The row object the driver builds from the column names of a result set and the values of
one row. -/
def rowObject {α : Type} (columns : List String) (values : List α) : List (String × α) :=
  (columns.zip values).foldl (fun obj kv => setProperty obj kv.1 kv.2) []

/-- `Object.values` of an object none of whose keys is an array index: the values in insertion
order of the keys. -/
def objectValues {α : Type} (obj : List (String × α)) : List α :=
  obj.map (fun kv => kv.2)

/-- The table `showReportTable` draws (admin.js 1983-2003): one header cell per header, and for
each row one cell per element of `Object.values(row)`, in order. -/
def showReportTable {α : Type} (data : List (List (String × α))) (headers : List String) :
    List String × List (List α) :=
  (headers, data.map objectValues)

/-- The keys each report endpoint reads from `req.query` (server.js 1590, 1753, 1836, 1950,
1984); the other report endpoints read none. -/
def endpointKeys (func : String) : List String :=
  if func = "/reports/average-gpa-per-department" then ["gender", "semesterId"]
  else if func = "/reports/course-performance-trends" then ["courseCode"]
  else if func = "/reports/top-performing-students" then ["departmentId", "minGpa"]
  else if func = "/reports/section-fill-rate" then ["sectionId"]
  else if func = "/reports/grade-distribution" then ["courseCode", "semesterId", "facultyId"]
  else []

/-- The entries `displayReport` appends to its `URLSearchParams` (admin.js 1937-1960), for the
object `filterValues` given as its keys in insertion order with their values as text.
`resolveSemester` stands for the lookup `GET /api/semester-id/:season/:year` of a semester
string: the identifier when there is one. -/
def displayReportParams (resolveSemester : String → Option String)
    (filterValues : List (String × String)) : List (String × String) :=
  filterValues.flatMap (fun kv =>
    if kv.1 = "semester_id" ∧ kv.2 ≠ "All" then
      match resolveSemester kv.2 with
      | some semesterId => [(kv.1, semesterId)]
      | none => []
    else if kv.2 ≠ "All" then [(kv.1, kv.2)]
    else [])

/-- The object `req.query` of a request whose query string has the given entries, no key
twice. -/
def queryOf (entries : List (String × String)) : Query :=
  fun key => entries.lookup key

/-! ## The grade chart of the student dashboard (`student_dashboard.js`) -/

/-- The object `gradePointMap` of `showGradesGraph` (student_dashboard.js 575-578). -/
def clientGradePointMap : List (String × ℚ) :=
  [("A", 4.0), ("A-", 3.7), ("B+", 3.3), ("B", 3.0), ("B-", 2.7), ("C+", 2.3), ("C", 2.0),
   ("C-", 1.7), ("D+", 1.3), ("D", 1.0), ("D-", 0.7), ("F", 0.0)]

/-- The method `String.prototype.toUpperCase` on the ASCII letters. No character outside ASCII
has an upper case made of the letters of the grade scale or of `UNGRADED`. -/
def toUpperCase (s : String) : String := ⟨s.data.map Char.toUpper⟩

/-- The method `String.prototype.trim`. -/
def jsTrim (s : String) : String :=
  ⟨((s.data.dropWhile isJsWhiteSpace).reverse.dropWhile isJsWhiteSpace).reverse⟩

/-- The letter `(g.Grade || '').trim().toUpperCase()` of an enrollment. -/
def gradeLetterOf (grade : Option String) : String :=
  toUpperCase (jsTrim (grade.getD ""))

/-- The grade points the chart adds for an enrollment, if it counts the enrollment: the letter
must be non-empty, other than `UNGRADED`, and a key of `gradePointMap`. -/
def clientGradePoint (grade : Option String) : Option ℚ :=
  if gradeLetterOf grade ≠ "" ∧ gradeLetterOf grade ≠ "UNGRADED" then
    clientGradePointMap.lookup (gradeLetterOf grade)
  else none

/-- One call of the `grades.forEach` callback on `(totalPoints, totalCourses)`. -/
def gradeStep (totals : ℚ × Nat) (grade : Option String) : ℚ × Nat :=
  match clientGradePoint grade with
  | some points => (totals.1 + points, totals.2 + 1)
  | none => totals

/-- The value `gpa` of `showGradesGraph` before `toFixed(2)`: `totalPoints / totalCourses`, and
`none` for the text `N/A`.  The sums are exact; the rounding of floating point and of
`toFixed` is not modelled. -/
def overallGpa (grades : List (Option String)) : Option ℚ :=
  let totals := grades.foldl gradeStep (0, 0)
  if totals.2 > 0 then some (totals.1 / (totals.2 : ℚ)) else none

/-! ## `generateSemestersInRange` (`admin.js`)

A year is a JavaScript number whose value is an integer, held as that integer; 2 ^ 1024 and its
negative stand for the two infinities. -/

/-- The number of binary digits of `m`, for `m` below `2 ^ fuel`. -/
def bitLength : Nat → Nat → Nat
  | 0, _ => 0
  | fuel + 1, m => if m = 0 then 0 else bitLength fuel (m / 2) + 1

/-- The Number value of a mathematical integer: the integer itself below 2 ^ 53 = 9007199254740992
in magnitude, else the nearest integer with 53 significant binary digits, a tie going to the even
significand, and an infinity from 2 ^ 1024 on. -/
def roundToDouble (n : Int) : Int :=
  let m := n.natAbs
  if m < 9007199254740992 then n
  else
    let e := bitLength 1100 m - 53
    let q := m / 2 ^ e
    let r := m % 2 ^ e
    let q := if 2 * r > 2 ^ e ∨ (2 * r = 2 ^ e ∧ q % 2 = 1) then q + 1 else q
    if q * 2 ^ e ≥ 2 ^ 1024 then n.sign * ((2 ^ 1024 : Nat) : Int)
    else n.sign * ((q * 2 ^ e : Nat) : Int)

/-- The array `semesterOrder` of `generateSemestersInRange`. -/
def semesterOrder : List String := ["Spring", "Summer", "Fall"]

/-- `Array.prototype.indexOf` on `semesterOrder`: `none` for -1. -/
def seasonIndex (season : String) : Option Nat :=
  if season ∈ semesterOrder then some (semesterOrder.indexOf season) else none

/-- The template literal of the loop: the season at the current index followed by the year;
`numberText` is the conversion of a number to a string that the template literal applies. -/
def semesterLabel (numberText : Int → String) (currentYear : Int) (currentSeasonIdx : Nat) :
    String :=
  semesterOrder.getD currentSeasonIdx "undefined" ++ numberText currentYear

/-- The `while (true)` loop of `generateSemestersInRange` (admin.js 43-60), run for at most
`fuel` iterations: `none` when the fuel runs out before a `break`.  `currentYear++` adds 1 in
floating point. -/
def semestersLoop (numberText : Int → String) :
    Nat → Int → Nat → Int → Nat → List String → Option (List String)
  | 0, _, _, _, _, _ => none
  | fuel + 1, currentYear, currentSeasonIdx, endYear, endSeasonIdx, semesters =>
    let semesters := semesters ++ [semesterLabel numberText currentYear currentSeasonIdx]
    if currentYear = endYear ∧ currentSeasonIdx = endSeasonIdx then some semesters
    else if currentYear > endYear then some semesters
    else if currentSeasonIdx + 1 ≥ semesterOrder.length then
      semestersLoop numberText fuel (roundToDouble (currentYear + 1)) 0 endYear endSeasonIdx
        semesters
    else
      semestersLoop numberText fuel currentYear (currentSeasonIdx + 1) endYear endSeasonIdx
        semesters

/-- `generateSemestersInRange` (admin.js 22-62) with the loop run for at most `fuel`
iterations: the empty list when a season is not in `semesterOrder`. -/
def generateSemestersInRange (numberText : Int → String) (fuel : Nat) (startYear : Int)
    (startSeason : String) (endYear : Int) (endSeason : String) : Option (List String) :=
  match seasonIndex startSeason, seasonIndex endSeason with
  | some startSeasonIdx, some endSeasonIdx =>
    semestersLoop numberText fuel startYear startSeasonIdx endYear endSeasonIdx []
  | _, _ => some []

/-- The semester `steps` places after the one at `(year, seasonIdx)`, as the loop labels it. -/
def semesterAfter (numberText : Int → String) (year : Int) (seasonIdx : Nat) (steps : Nat) :
    String :=
  semesterLabel numberText (year + ((seasonIdx + steps) / 3 : Nat)) ((seasonIdx + steps) % 3)

/-- The years that are safe integers: the magnitude is at most 2 ^ 53 - 1. -/
def safeYear (year : Int) : Prop := -9007199254740992 < year ∧ year < 9007199254740992

instance (year : Int) : Decidable (safeYear year) := by
  unfold safeYear
  infer_instance

/-- What the theorems assume of the conversion of a number to a string: an integer of magnitude
at most 2 ^ 53 is printed in decimal, with a minus sign when negative. -/
def printsDecimal (numberText : Int → String) : Prop :=
  ∀ year : Int, -9007199254740992 ≤ year → year ≤ 9007199254740992 →
    numberText year = toString year

/-! ## Semester keys (admin.js 64-91) and the decoding of `SeasonYear` strings -/

/-- Number of iterations that the loop of `generateSemestersInRange` takes from the position
`(currentYear, currentSeasonIdx)`: up to the end semester when the position is not later than
it, one iteration when the year is already past the end year, and up to the first semester of
the next year when the position is in the end year after the end season. -/
def loopIterations (currentYear : Int) (currentSeasonIdx : Nat) (endYear : Int)
    (endSeasonIdx : Nat) : Nat :=
  if currentYear > endYear then 1
  else if currentYear = endYear ∧ endSeasonIdx < currentSeasonIdx then 4 - currentSeasonIdx
  else (3 * (endYear - currentYear) + endSeasonIdx - currentSeasonIdx + 1).toNat

/-- The year and the season index of the semester `steps` semesters after
`(year, seasonIdx)`. -/
def semesterPairAfter (year : Int) (seasonIdx : Nat) (steps : Nat) : Int × Nat :=
  (year + ((seasonIdx + steps) / 3 : Nat), (seasonIdx + steps) % 3)

/-- Chronological order of semesters given as year and season index: not later. -/
def notLater (a b : Int × Nat) : Prop := a.1 < b.1 ∨ (a.1 = b.1 ∧ a.2 ≤ b.2)

instance (a b : Int × Nat) : Decidable (notLater a b) := by
  unfold notLater
  infer_instance

/-- Chronological order of semesters given as year and season index: strictly earlier. -/
def earlier (a b : Int × Nat) : Prop := a.1 < b.1 ∨ (a.1 = b.1 ∧ a.2 < b.2)

instance (a b : Int × Nat) : Decidable (earlier a b) := by
  unfold earlier
  infer_instance

/-- The value of a character as a hexadecimal digit. -/
def hexDigit (c : Char) : Option Nat :=
  if c.isDigit then some (c.toNat - 48)
  else if 97 ≤ c.toNat ∧ c.toNat ≤ 102 then some (c.toNat - 87)
  else if 65 ≤ c.toNat ∧ c.toNat ≤ 70 then some (c.toNat - 55)
  else none

/-- The digits that `parseInt` reads, without radix argument, after white space and sign: after
`0x` or `0X` the longest run of hexadecimal digits, else the longest run of decimal digits;
`none` (NaN) when the run is empty. -/
def parseIntMagnitude (body : List Char) : Option Nat :=
  if "0x".data.isPrefixOf body ∨ "0X".data.isPrefixOf body then
    let z := (body.drop 2).takeWhile (fun c => (hexDigit c).isSome)
    if z = [] then none else some (z.foldl (fun n c => 16 * n + (hexDigit c).getD 0) 0)
  else
    let z := body.takeWhile Char.isDigit
    if z = [] then none else some (digitsValue z)

/-- The sign that `parseInt` reads after the white space, `true` for a minus, and the text
behind it. -/
def splitSign : List Char → Bool × List Char
  | '-' :: r => (true, r)
  | '+' :: r => (false, r)
  | r => (false, r)

/-- A model of the built-in `parseInt` called with one string argument: `none` is NaN, and the
value is the Number value of the integer read (`roundToDouble`, where 2 ^ 1024 and its negative
stand for the infinities); -0 is 0. -/
def jsParseInt (s : String) : Option Int :=
  let signed := splitSign (s.data.dropWhile isJsWhiteSpace)
  match parseIntMagnitude signed.2 with
  | some n => some (roundToDouble (if signed.1 then -(n : Int) else (n : Int)))
  | none => none

/-- `String.prototype.startsWith` with a search string. -/
def startsWith (s search : String) : Bool := search.data.isPrefixOf s.data

/-- `String.prototype.substring` with a start index only.  Indices count characters: the strings
cut here are cut after an ASCII prefix, where characters and UTF-16 code units agree. -/
def substring (s : String) (start : Nat) : String := ⟨s.data.drop start⟩

/-- The `for ... of` loop of `parseSemesterForSort` (admin.js 75-81): the pair
`(seasonPart, yearPart)`, both empty when no season is a prefix. -/
def seasonParts (sStr : String) : List String → String × String
  | [] => ("", "")
  | season :: rest =>
    if startsWith sStr season then (season, substring sStr season.length)
    else seasonParts sStr rest

/-- The object `seasonMap` of `parseSemesterForSort`. -/
def seasonMap : List (String × Int) := [("Spring", 0), ("Summer", 1), ("Fall", 2)]

/-- The `try` block of `parseSemesterForSort` (admin.js 83-86): `parseInt` and the property
lookup, neither of which throws, so the block always completes with the pair. -/
def parseSemesterTry (yearPart seasonPart : String) : Except Unit (Option Int × Int) :=
  let year := jsParseInt yearPart
  let seasonIndex : Int :=
    match seasonMap.lookup seasonPart with
    | some i => i
    | none => -1
  Except.ok (year, seasonIndex)

/-- `parseSemesterForSort` (admin.js 69-91): the pair `[year, seasonIndex]`, the year `none` for
NaN; the `catch` branch returns `[9999, 99]`. -/
def parseSemesterForSort (sStr : String) : Option Int × Int :=
  let parts := seasonParts sStr ["Spring", "Summer", "Fall"]
  match parseSemesterTry parts.2 parts.1 with
  | Except.ok key => key
  | Except.error _ => (some 9999, 99)

/-- Lexicographic comparison of two sort keys `[year, seasonIndex]`; a NaN year compares
false. -/
def keyLess (a b : Option Int × Int) : Prop :=
  match a.1, b.1 with
  | some x, some y => x < y ∨ (x = y ∧ a.2 < b.2)
  | _, _ => False

instance (a b : Option Int × Int) : Decidable (keyLess a b) := by
  unfold keyLess
  split <;> infer_instance

/-- `String.prototype.slice(-k)`: the last `k` characters, the whole string when it is shorter.
Characters and UTF-16 code units agree on the decimal digits cut off here. -/
def sliceLast (s : String) (k : Nat) : String := ⟨s.data.drop (s.data.length - k)⟩

/-- `String.prototype.slice(0, -k)`: the string without its last `k` characters. -/
def sliceInit (s : String) (k : Nat) : String := ⟨s.data.take (s.data.length - k)⟩

/-- The decoding of a semester string in GET /api/enrollment-counts-by-department (server.js
2126-2127) and in the dashboards: `[semStr.slice(0, -4), parseInt(semStr.slice(-4))]`. -/
def decodeSemester (semStr : String) : String × Option Int :=
  (sliceInit semStr 4, jsParseInt (sliceLast semStr 4))

/-! ## The semester selectors of the faculty dashboard -/

/-- `fetchAndPopulateSemesters` of the faculty dashboard (faculty_dashboard.js 217-222, 273-278,
422-427): the value given to the selector, `allSemesters[allSemesters.length - 1]`, when the
list is not empty; `none` when the selector shows `No semesters found`. -/
def defaultSemester (allSemesters : List String) : Option String :=
  if allSemesters.length > 0 then allSemesters[allSemesters.length - 1]? else none

/-! ## The inactive-students report (server.js 1914-1946) -/

/-- A row of the result of inactive-students: `FirstName, LastName, StudentID`. -/
structure InactiveRow where
  FirstName : String
  LastName : String
  StudentID : Ident
deriving DecidableEq

/-- The second query of inactive-students, with the semester identifiers bound to the
placeholders of `IN (...)`: `SELECT s.FirstName, s.LastName, s.StudentID FROM Student s WHERE
s.StudentID NOT IN (SELECT DISTINCT e_sub.StudentID FROM Enrollment e_sub JOIN Section sec_sub ON
e_sub.SectionID = sec_sub.SectionID WHERE sec_sub.SemesterID IN (...))`. -/
def inactiveStudentsIn (semesterIds : List Ident) (db : Database) : List InactiveRow :=
  let joined := db.enrollments.flatMap (fun e_sub =>
    (db.sections.filter (fun sec_sub => e_sub.SectionID = sec_sub.SectionID)).map
      (fun sec_sub => (e_sub, sec_sub)))
  let enrolled := distinct
    ((joined.filter (fun r => r.2.SemesterID ∈ semesterIds)).map (fun r => r.1.StudentID))
  (db.students.filter (fun s => s.StudentID ∉ enrolled)).map
    (fun s => { FirstName := s.FirstName, LastName := s.LastName, StudentID := s.StudentID })

/-- `GET /api/reports/inactive-students` (server.js 1914-1946): the identifiers of the first two
rows of `Semester` under `ORDER BY Year DESC, FIELD(Season, 'Fall', 'Summer', 'Spring',
'Winter') DESC`, the empty list when there is none, and else the students without an enrollment
in a section of these semesters. -/
def inactiveStudents (db : Database) : List InactiveRow :=
  let recentSemesterIds := recentSemesterIds 2 db
  if recentSemesterIds.length = 0 then []
  else inactiveStudentsIn recentSemesterIds db

/-- The order of the specification on `Semester` rows, descending by Year and then by season
rank (Fall, then Summer, then Spring): `a` may stand before `b`. -/
def specRecentFirst (a b : Semester) : Bool :=
  decide (b.Year < a.Year) ||
    (decide (a.Year = b.Year) &&
      decide ((specSeasonRank b.Season).getD 0 ≤ (specSeasonRank a.Season).getD 0))

/-- The selection of the specification: the identifiers of the first `k` semesters sorted
descending by Year and season rank. -/
def specRecentSemesterIds (k : Nat) (db : Database) : List Ident :=
  ((orderBy specRecentFirst db.semesters).take k).map (fun sem => sem.SemesterID)

/-- The inactive-students report over the selection of the specification. -/
def specInactiveStudents (db : Database) : List InactiveRow :=
  if (specRecentSemesterIds 2 db).length = 0 then []
  else inactiveStudentsIn (specRecentSemesterIds 2 db) db

/-- A state with the semesters and sections of `calendarDb` and two students: Ada is enrolled in
the section of Fall 2024 only, Bob in the section of Spring 2024 only. -/
def activityDb : Database :=
  { calendarDb with
    students :=
      [{ StudentID := "10", FirstName := "Ada", LastName := "Byron", Gender := some "Female",
         DepartmentID := some "1" },
       { StudentID := "11", FirstName := "Bob", LastName := "Cole", Gender := some "Male",
         DepartmentID := some "1" }],
    enrollments :=
      [{ StudentID := "10", SectionID := "103", Grade := none },
       { StudentID := "11", SectionID := "101", Grade := some "B" }] }

/-! ## The chart of the reports dashboard (admin.js 2004-2155) -/

/-- A value of a column in a row of the JSON answer of a report. -/
inductive Json where
  | null
  | num (value : ℚ)
  | str (value : String)
deriving DecidableEq

/-- The `backgroundColor` or `borderColor` of a dataset: one colour, or one per value. -/
inductive Colors where
  | one (color : String)
  | each (colors : List String)
deriving DecidableEq

/-- An element of `data.datasets` of the chart configuration. -/
structure Dataset where
  label : Option String
  data : List JsNumber
  backgroundColor : Colors
  borderColor : Colors
  borderWidth : Nat
  fill : Option Bool
deriving DecidableEq

/-- The object `chartConfig`, with the properties that `showReportGraph` sets or reads:
`type`, `data.labels`, `data.datasets`, of `options` the parts that depend on the report
(`plugins.legend.display`, `plugins.title.text`, and the `display` of both axes in `scales`,
`none` once `scales` is deleted), and the property `datasets` of `chartConfig` itself, `none`
while the object has no such property. -/
structure ChartConfig where
  type : Option String
  dataLabels : List String
  dataDatasets : List Dataset
  legendDisplay : Bool
  titleText : String
  scalesDisplay : Option Bool
  datasets : Option (List Dataset)
deriving DecidableEq

/-- What a call of `showReportGraph` comes to: one of the two messages, the configuration handed
to `new Chart`, or an exception. -/
inductive GraphOutcome where
  | noData
  | notAvailable
  | chart (config : ChartConfig)
  | typeError (message : String)
deriving DecidableEq

/-- `Object.keys` of a row object. -/
def objectKeys {α : Type} (item : List (String × α)) : List String := item.map (fun p => p.1)

/-- One part of a label: `String(item[key])` for the key at position `idx`, and `N/A` when the
key or the value is missing or the value is `null`. -/
def labelPart (numberText : ℚ → String) (item : List (String × Json)) (idx : Nat) : String :=
  match (objectKeys item)[idx]? with
  | some key =>
    match item.lookup key with
    | some (Json.num v) => numberText v
    | some (Json.str s) => s
    | some Json.null => "N/A"
    | none => "N/A"
  | none => "N/A"

/-- The expression `x || 0` on a number: 0 for `NaN` and for 0. -/
def orZero (x : JsNumber) : JsNumber :=
  if x = JsNumber.nan ∨ x = JsNumber.finite 0 then JsNumber.finite 0 else x

/-- One plotted value: the value at the key at position `index` when it is a number, else
`parseFloat(value) || 0`; 0 when there is no key at that position. -/
def plotValue (parseFloat : String → JsNumber) (item : List (String × Json)) (index : Nat) :
    JsNumber :=
  match (objectKeys item)[index]? with
  | some key =>
    match item.lookup key with
    | some (Json.num v) => JsNumber.finite v
    | some (Json.str s) => orZero (parseFloat s)
    | some Json.null => orZero (parseFloat "null")
    | none => orZero (parseFloat "undefined")
  | none => JsNumber.finite 0

/-- The colour strings of `backgroundColors` and `borderColors` for the random components
`rgb`: `replace('0.6', '1')` acts on the last component, the only place where `0.6` occurs. -/
def rgbaText (rgb : Nat × Nat × Nat) (alpha : String) : String :=
  "rgba(" ++ toString rgb.1 ++ ", " ++ toString rgb.2.1 ++ ", " ++ toString rgb.2.2 ++ ", " ++
    alpha ++ ")"

/-- `showReportGraph` (admin.js 2004-2155) for a page whose canvas and drawing context exist;
`numberText` is `String` on numbers, `parseFloat` the built-in, `random i` the three random
colour components drawn for the value at position `i`. -/
def showReportGraph (numberText : ℚ → String) (parseFloat : String → JsNumber)
    (random : Nat → Nat × Nat × Nat) (data : List (List (String × Json)))
    (reportInfo : ReportInfo) : GraphOutcome :=
  if data.length = 0 then GraphOutcome.noData
  else
    match reportInfo.graphType, reportInfo.plotIndices with
    | some graphType, some plotIndices =>
      if graphType = "" then GraphOutcome.notAvailable
      else
        let labels := data.map (fun item =>
          " ".intercalate (plotIndices.1.map (labelPart numberText item)))
        let values := data.map (fun item => plotValue parseFloat item plotIndices.2)
        let backgroundColors := (List.range values.length).map (fun i => rgbaText (random i) "0.6")
        let borderColors := (List.range values.length).map (fun i => rgbaText (random i) "1")
        let chartConfig : ChartConfig :=
          { type := none,
            dataLabels := labels,
            dataDatasets :=
              [{ label := reportInfo.headers[plotIndices.2]?,
                 data := values,
                 backgroundColor :=
                   if graphType = "pie" then Colors.each backgroundColors
                   else Colors.one "rgba(75, 192, 192, 0.6)",
                 borderColor :=
                   if graphType = "pie" then Colors.each borderColors
                   else Colors.one "rgba(75, 192, 192, 1)",
                 borderWidth := 1,
                 fill := none }],
            legendDisplay := decide (graphType = "pie") || decide (labels.length ≤ 10),
            titleText := reportInfo.name,
            scalesDisplay := some (decide (graphType ≠ "pie")),
            datasets := none }
        if graphType = "pie" then
          GraphOutcome.chart { chartConfig with type := some "pie", scalesDisplay := none }
        else if graphType = "line" then
          let chartConfig := { chartConfig with type := some "line" }
          match chartConfig.datasets with
          | none => GraphOutcome.typeError "Cannot read properties of undefined (reading '0')"
          | some [] => GraphOutcome.typeError "Cannot set properties of undefined (setting 'fill')"
          | some (first :: rest) =>
            GraphOutcome.chart
              { chartConfig with
                datasets := some
                  ({ first with
                     fill := some false,
                     borderColor := Colors.one "rgba(75, 192, 192, 1)",
                     backgroundColor := Colors.one "rgba(75, 192, 192, 0.2)" } :: rest) }
        else GraphOutcome.chart { chartConfig with type := some "bar" }
    | _, _ => GraphOutcome.notAvailable

/-- Rows of course-performance-trends as the server sends them: the average is a decimal
string. -/
def trendData : List (List (String × Json)) :=
  [[("Year", Json.num 2024), ("Season", Json.str "Fall"), ("Title", Json.str "Databases"),
    ("AverageGrade", Json.str "3.50000")]]

/-- Decimal text of the integers, enough for the examples. -/
def integerText (v : ℚ) : String := toString v.num

/-! ## All tables of the schema (server.js 59-147) -/

/-- A row of `Schedules` (`ScheduleID INT PRIMARY KEY`, `StartTime TIME NOT NULL`, `EndTime TIME
NOT NULL`, `DayOfWeek VARCHAR(10) NOT NULL`); a time is a number of seconds. -/
structure Schedule where
  ScheduleID : Ident
  StartTime : Int
  EndTime : Int
  DayOfWeek : String
deriving DecidableEq

/-- A row of `Section` with all its columns (`SectionID INT PRIMARY KEY`, `ScheduleID INT NOT
NULL`). -/
structure SectionRow where
  SectionID : Ident
  CourseCode : String
  SemesterID : Ident
  ScheduleID : Ident
  RoomNumber : Option Ident
  FacultyID : Option Ident
deriving DecidableEq

/-- A row of `Course` with the columns the write handlers read. -/
structure CourseRow where
  CourseCode : String
  Title : String
  DepartmentID : Option Ident
deriving DecidableEq

/-- A row of `Faculty` with the columns the write handlers read. -/
structure FacultyRow where
  FacultyID : Ident
  FullName : String
  DepartmentID : Option Ident
deriving DecidableEq

/-- A row of `ClassRoom` with the columns the write handlers read. -/
structure ClassRoomRow where
  RoomNumber : Ident
  DepartmentID : Option Ident
deriving DecidableEq

/-- A row of `User` with the columns the write handlers read. -/
structure UserRow where
  UserID : String
  Role : String
  FacultyID : Option Ident
  StudentID : Option Ident
deriving DecidableEq

/-- The tables of the database. -/
structure Tables where
  departments : List Department := []
  classRooms : List ClassRoomRow := []
  schedules : List Schedule := []
  semesters : List Semester := []
  courses : List CourseRow := []
  faculty : List FacultyRow := []
  students : List Student := []
  users : List UserRow := []
  sections : List SectionRow := []
  enrollments : List Enrollment := []
deriving DecidableEq

/-! ## The timetable-conflicts report (server.js 1802-1832) -/

/-- A row of the join of timetable-conflicts. -/
structure ConflictJoinRow where
  e1 : Enrollment
  e2 : Enrollment
  sec1 : SectionRow
  sec2 : SectionRow
  sch1 : Schedule
  sch2 : Schedule
  s : Student
deriving DecidableEq

/-- The `ON` conditions of the six joins of timetable-conflicts. -/
def conflictOn (r : ConflictJoinRow) : Bool :=
  decide (r.e1.StudentID = r.e2.StudentID ∧ r.e1.SectionID ≠ r.e2.SectionID) &&
    decide (r.e1.SectionID = r.sec1.SectionID) &&
    decide (r.e2.SectionID = r.sec2.SectionID) &&
    decide (r.sec1.ScheduleID = r.sch1.ScheduleID) &&
    decide (r.sec2.ScheduleID = r.sch2.ScheduleID) &&
    decide (r.e1.StudentID = r.s.StudentID)

/-- The join `FROM Enrollment e1 JOIN Enrollment e2 ON ... JOIN Section sec1 ON ... JOIN Section
sec2 ON ... JOIN Schedules sch1 ON ... JOIN Schedules sch2 ON ... JOIN Student s ON ...`: the
combinations of rows that satisfy the `ON` conditions. -/
def conflictJoin (t : Tables) : List ConflictJoinRow :=
  ((List.product t.enrollments (List.product t.enrollments (List.product t.sections
    (List.product t.sections (List.product t.schedules
      (List.product t.schedules t.students)))))).map
    (fun p =>
      ({ e1 := p.1, e2 := p.2.1, sec1 := p.2.2.1, sec2 := p.2.2.2.1, sch1 := p.2.2.2.2.1,
         sch2 := p.2.2.2.2.2.1, s := p.2.2.2.2.2.2 } : ConflictJoinRow))).filter conflictOn

/-- The first disjunct of the overlap test: `sch1.StartTime < sch2.EndTime AND sch1.EndTime >
sch2.StartTime`. -/
def overlapFirst (a b : Schedule) : Bool :=
  decide (a.StartTime < b.EndTime) && decide (a.EndTime > b.StartTime)

/-- The second disjunct of the overlap test: `sch2.StartTime < sch1.EndTime AND sch2.EndTime >
sch1.StartTime`. -/
def overlapSecond (a b : Schedule) : Bool :=
  decide (b.StartTime < a.EndTime) && decide (b.EndTime > a.StartTime)

/-- The `WHERE` clause of timetable-conflicts. -/
def conflictWhere (r : ConflictJoinRow) : Bool :=
  decide (r.sec1.SemesterID = r.sec2.SemesterID) &&
    decide (r.sch1.DayOfWeek = r.sch2.DayOfWeek) &&
    (overlapFirst r.sch1 r.sch2 || overlapSecond r.sch1 r.sch2)

/-- The clause `ORDER BY s.FirstName, s.LastName`: `a` may stand before `b`. -/
def conflictPrecedes (a b : ConflictJoinRow) : Bool :=
  if a.s.FirstName ≠ b.s.FirstName then textLe a.s.FirstName b.s.FirstName
  else textLe a.s.LastName b.s.LastName

/-- A row of the result of timetable-conflicts: `FirstName, LastName, Section1ID,
Section2ID`. -/
structure ConflictRow where
  FirstName : String
  LastName : String
  Section1ID : Ident
  Section2ID : Ident
deriving DecidableEq

/-- The joined rows that timetable-conflicts lists, in the order of the report. -/
def conflictSelected (t : Tables) : List ConflictJoinRow :=
  orderBy conflictPrecedes ((conflictJoin t).filter conflictWhere)

/-- `GET /api/reports/timetable-conflicts`: the rows of the report. -/
def timetableConflicts (t : Tables) : List ConflictRow :=
  (conflictSelected t).map (fun r =>
    { FirstName := r.s.FirstName, LastName := r.s.LastName, Section1ID := r.e1.SectionID,
      Section2ID := r.e2.SectionID })

/-- A conflict: a student and two sections. -/
structure Conflict where
  StudentID : Ident
  Section1ID : Ident
  Section2ID : Ident
deriving DecidableEq

/-- The student of a joined row with its two sections: what a row of the report stands for. -/
def conflictTriple (r : ConflictJoinRow) : Conflict :=
  { StudentID := r.s.StudentID, Section1ID := r.e1.SectionID, Section2ID := r.e2.SectionID }

/-- The joined row with the two sections exchanged. -/
def ConflictJoinRow.swap (r : ConflictJoinRow) : ConflictJoinRow :=
  { e1 := r.e2, e2 := r.e1, sec1 := r.sec2, sec2 := r.sec1, sch1 := r.sch2, sch2 := r.sch1,
    s := r.s }

/-- The primary keys of the tables that timetable-conflicts joins. -/
def conflictKeys (t : Tables) : Prop :=
  (t.students.map (fun s => s.StudentID)).Nodup ∧
    (t.sections.map (fun s => s.SectionID)).Nodup ∧
    (t.schedules.map (fun s => s.ScheduleID)).Nodup ∧
    (t.enrollments.map (fun e => (e.StudentID, e.SectionID))).Nodup

instance (t : Tables) : Decidable (conflictKeys t) := by
  unfold conflictKeys
  infer_instance

/-- A state with one student enrolled in three sections of one semester on Mondays: section 1
from 9:00 to 10:00, section 2 from 10:00 to 11:00, section 3 from 9:30 to 10:30. -/
def timetableDb : Tables :=
  { students :=
      [{ StudentID := "10", FirstName := "Ada", LastName := "Byron", Gender := none,
         DepartmentID := none }],
    schedules :=
      [{ ScheduleID := "1", StartTime := 32400, EndTime := 36000, DayOfWeek := "Monday" },
       { ScheduleID := "2", StartTime := 36000, EndTime := 39600, DayOfWeek := "Monday" },
       { ScheduleID := "3", StartTime := 34200, EndTime := 37800, DayOfWeek := "Monday" }],
    sections :=
      [{ SectionID := "1", CourseCode := "CSC302", SemesterID := "4", ScheduleID := "1",
         RoomNumber := none, FacultyID := none },
       { SectionID := "2", CourseCode := "CSC303", SemesterID := "4", ScheduleID := "2",
         RoomNumber := none, FacultyID := none },
       { SectionID := "3", CourseCode := "CSC304", SemesterID := "4", ScheduleID := "3",
         RoomNumber := none, FacultyID := none }],
    enrollments :=
      [{ StudentID := "10", SectionID := "1", Grade := none },
       { StudentID := "10", SectionID := "2", Grade := none },
       { StudentID := "10", SectionID := "3", Grade := none }] }

/-! ## The write handlers on sections, students and departments

A handler that opens a transaction is a list of statements, each issued either on the connection
that holds the transaction (`connection.query`) or on the pool (`datapool.query`, which runs on a
connection of its own and is committed at once).  `run` is the effect of a statement that
succeeds; a statement, or the commit, that throws is chosen by `failAt`, and the `catch` block
then rolls the transaction back.  Request values are taken as the numbers and texts the columns
hold. -/

/-- The answer of a handler: the status and the `message` or `error` text. -/
structure Response where
  status : Nat
  text : String
deriving DecidableEq

/-- Truthiness of the JavaScript number that an INT column holds, from its decimal text: only 0
is falsy. -/
def idTruthy (id : Ident) : Bool := decide (id ≠ "0")

/-- Where a statement is issued: on the connection of the transaction or on the pool. -/
inductive Channel where
  | connection
  | datapool
deriving DecidableEq

/-- A statement of a handler, with its effect on the tables when it succeeds. -/
structure Statement where
  channel : Channel
  sql : String
  run : Tables → Tables

/-- The statements of a handler from step `k` on, followed by `connection.commit()`:
`committed` is what the database holds for every other connection, `view` what the transaction
sees.  A statement on the connection changes the view only; a statement on the pool is
committed at once; the commit makes the view the committed state; when step `failAt` throws,
the rollback leaves the committed state. -/
def runSteps (failAt : Option Nat) : Nat → List Statement → Tables → Tables → Tables
  | k, [], committed, view => if failAt = some k then committed else view
  | k, st :: rest, committed, view =>
    if failAt = some k then committed
    else
      match st.channel with
      | Channel.connection => runSteps failAt (k + 1) rest committed (st.run view)
      | Channel.datapool => runSteps failAt (k + 1) rest (st.run committed) (st.run view)

/-- A handler run after `beginTransaction`: the state of the database afterwards.  Step
`script.length` is the commit; `failAt = none` means that nothing throws. -/
def runHandler (failAt : Option Nat) (script : List Statement) (t : Tables) : Tables :=
  runSteps failAt 0 script t t

/-- The statement `SET FOREIGN_KEY_CHECKS=...`: no effect on the tables. -/
def setForeignKeyChecks (channel : Channel) (value : String) : Statement :=
  { channel := channel, sql := "SET FOREIGN_KEY_CHECKS=" ++ value, run := fun t => t }

/-! ### DELETE /api/section/:sectionId (server.js 1286-1325) -/

/-- The statements of DELETE /api/section/:sectionId after the `SELECT ScheduleID FROM Section
WHERE SectionID = ?`, `none` when the `SELECT` finds no row (rollback and 404).  The last
`DELETE` is issued under `resultSection.affectedRows > 0 && scheduleIdToDelete`. -/
def deleteSectionScript (sectionId : Ident) (t : Tables) : Option (List Statement) :=
  match (t.sections.filter (fun s => s.SectionID = sectionId)).map (fun s => s.ScheduleID) with
  | [] => none
  | scheduleIdToDelete :: _ =>
    let affectedRows := (t.sections.filter (fun s => s.SectionID = sectionId)).length
    some
      ([setForeignKeyChecks Channel.connection "0",
        { channel := Channel.connection,
          sql := "DELETE FROM Enrollment WHERE SectionID = ?",
          run := fun t =>
            { t with enrollments := t.enrollments.filter (fun e => e.SectionID ≠ sectionId) } },
        { channel := Channel.connection,
          sql := "DELETE FROM Section WHERE SectionID = ?",
          run := fun t =>
            { t with sections := t.sections.filter (fun s => s.SectionID ≠ sectionId) } }] ++
       (if affectedRows > 0 ∧ idTruthy scheduleIdToDelete = true then
          [{ channel := Channel.connection,
             sql := "DELETE FROM Schedules WHERE ScheduleID = ?",
             run := fun t =>
               { t with
                 schedules := t.schedules.filter (fun s => s.ScheduleID ≠ scheduleIdToDelete) } }]
        else []) ++
       [setForeignKeyChecks Channel.connection "1"])

/-- DELETE /api/section/:sectionId when nothing throws: the tables afterwards and the answer. -/
def deleteSection (sectionId : Ident) (t : Tables) : Tables × Response :=
  match deleteSectionScript sectionId t with
  | none => (t, { status := 404, text := "Section not found" })
  | some script =>
    (runHandler none script t,
      if (t.sections.filter (fun s => s.SectionID = sectionId)).length > 0 then
        { status := 200, text := "Section and associated schedule deleted successfully!" }
      else { status := 404, text := "Section not found" })

/-! ### POST /api/section (server.js 1203-1234) and PUT /api/section/:sectionId (1237-1283) -/

/-- The body of a request that adds or updates a section; a `Year` or `Season` that the request
leaves out is 0 or the empty text, which are falsy as `undefined` is. -/
structure SectionBody where
  SectionID : Ident
  CourseCode : String
  SemesterID : Ident
  Year : Int
  Season : String
  StartTime : Int
  EndTime : Int
  DayOfWeek : String
  FacultyID : Option Ident
  RoomNumber : Option Ident
deriving DecidableEq

/-- `INSERT IGNORE INTO Semester (SemesterID, Year, Season) VALUES (?, ?, ?)`: no row is added
when the primary key or the pair `(Year, Season)` is taken. -/
def insertIgnoreSemester (sem : Semester) (t : Tables) : Tables :=
  if t.semesters.any (fun s =>
      decide (s.SemesterID = sem.SemesterID) || decide (s.Year = sem.Year ∧ s.Season = sem.Season))
  then t
  else { t with semesters := t.semesters ++ [sem] }

/-- `INSERT INTO Semester ... ON DUPLICATE KEY UPDATE Year = VALUES(Year), Season =
VALUES(Season)`: the row with the primary key is updated when there is one. -/
def upsertSemester (sem : Semester) (t : Tables) : Tables :=
  if t.semesters.any (fun s => decide (s.SemesterID = sem.SemesterID)) then
    { t with
      semesters := t.semesters.map (fun s => if s.SemesterID = sem.SemesterID then sem else s) }
  else if t.semesters.any (fun s => decide (s.Year = sem.Year ∧ s.Season = sem.Season)) then t
  else { t with semesters := t.semesters ++ [sem] }

/-- The statements of POST /api/section; `ScheduleID` is the value drawn by
`Math.floor(Math.random() * 100000)`. -/
def postSectionScript (body : SectionBody) (ScheduleID : Ident) : List Statement :=
  [{ channel := Channel.connection,
     sql := "INSERT IGNORE INTO Semester (SemesterID, Year, Season) VALUES (?, ?, ?)",
     run := insertIgnoreSemester
       { SemesterID := body.SemesterID, Year := body.Year, Season := body.Season } },
   { channel := Channel.connection,
     sql := "INSERT INTO Schedules (ScheduleID, StartTime, EndTime, DayOfWeek) VALUES (?, ?, ?, ?)",
     run := fun t =>
       { t with
         schedules := t.schedules ++
           [{ ScheduleID := ScheduleID, StartTime := body.StartTime, EndTime := body.EndTime,
              DayOfWeek := body.DayOfWeek }] } },
   { channel := Channel.connection,
     sql := "INSERT INTO Section (SectionID, CourseCode, SemesterID, ScheduleID, FacultyID, " ++
       "RoomNumber) VALUES (?, ?, ?, ?, ?, ?)",
     run := fun t =>
       { t with
         sections := t.sections ++
           [{ SectionID := body.SectionID, CourseCode := body.CourseCode,
              SemesterID := body.SemesterID, ScheduleID := ScheduleID,
              RoomNumber := body.RoomNumber, FacultyID := body.FacultyID }] } }]

/-- The statements of PUT /api/section/:sectionId after the `SELECT ScheduleID, SemesterID FROM
Section WHERE SectionID = ?`, `none` when the `SELECT` finds no row (rollback and 404).  The
`UPDATE Section` is issued by `datapool.query` (server.js 1265). -/
def putSectionScript (sectionId : Ident) (body : SectionBody) (t : Tables) :
    Option (List Statement) :=
  match t.sections.filter (fun s => s.SectionID = sectionId) with
  | [] => none
  | existing :: _ =>
    some
      ((if idTruthy body.SemesterID = true ∧
            (body.SemesterID ≠ existing.SemesterID ∨ body.Year ≠ 0 ∨ body.Season ≠ "") then
          [{ channel := Channel.connection,
             sql := "INSERT INTO Semester (SemesterID, Year, Season) VALUES (?, ?, ?) " ++
               "ON DUPLICATE KEY UPDATE Year = VALUES(Year), Season = VALUES(Season)",
             run := upsertSemester
               { SemesterID := body.SemesterID, Year := body.Year, Season := body.Season } }]
        else []) ++
       [{ channel := Channel.connection,
          sql := "UPDATE Schedules SET StartTime = ?, EndTime = ?, DayOfWeek = ? " ++
            "WHERE ScheduleID = ?",
          run := fun t =>
            { t with
              schedules := t.schedules.map (fun s =>
                if s.ScheduleID = existing.ScheduleID then
                  { s with StartTime := body.StartTime, EndTime := body.EndTime,
                           DayOfWeek := body.DayOfWeek }
                else s) } },
        { channel := Channel.datapool,
          sql := "UPDATE Section SET CourseCode = ?, SemesterID = ?, FacultyID = ?, " ++
            "RoomNumber = ? WHERE SectionID = ?",
          run := fun t =>
            { t with
              sections := t.sections.map (fun s =>
                if s.SectionID = sectionId then
                  { s with CourseCode := body.CourseCode, SemesterID := body.SemesterID,
                           FacultyID := body.FacultyID, RoomNumber := body.RoomNumber }
                else s) } }])

/-! ### DELETE /api/department/:departmentId (server.js 850-881) -/

/-- The statements of DELETE /api/department/:departmentId. -/
def deleteDepartmentScript (departmentId : Ident) : List Statement :=
  [setForeignKeyChecks Channel.connection "0",
   { channel := Channel.connection,
     sql := "DELETE FROM Course WHERE DepartmentID = ?",
     run := fun t =>
       { t with courses := t.courses.filter (fun c => c.DepartmentID ≠ some departmentId) } },
   { channel := Channel.connection,
     sql := "DELETE FROM Faculty WHERE DepartmentID = ?",
     run := fun t =>
       { t with faculty := t.faculty.filter (fun f => f.DepartmentID ≠ some departmentId) } },
   { channel := Channel.connection,
     sql := "DELETE FROM ClassRoom WHERE DepartmentID = ?",
     run := fun t =>
       { t with
         classRooms := t.classRooms.filter (fun c => c.DepartmentID ≠ some departmentId) } },
   { channel := Channel.connection,
     sql := "DELETE FROM Student WHERE DepartmentID = ?",
     run := fun t =>
       { t with students := t.students.filter (fun s => s.DepartmentID ≠ some departmentId) } },
   { channel := Channel.connection,
     sql := "DELETE FROM Department WHERE DepartmentID = ?",
     run := fun t =>
       { t with
         departments := t.departments.filter (fun d => d.DepartmentID ≠ departmentId) } },
   setForeignKeyChecks Channel.connection "1"]

/-- DELETE /api/department/:departmentId when nothing throws: the tables afterwards and the
answer. -/
def deleteDepartment (departmentId : Ident) (t : Tables) : Tables × Response :=
  (runHandler none (deleteDepartmentScript departmentId) t,
    if (t.departments.filter (fun d => d.DepartmentID = departmentId)).length > 0 then
      { status := 200, text := "Department and related data deleted successfully!" }
    else { status := 404, text := "Department not found" })

/-! ### DELETE /api/student/:studentId (server.js 481-497) and the flow of the dashboard -/

/-- DELETE /api/user/by-student/:studentId (server.js 380-395): no table references `User`, so
the `DELETE` succeeds with or without foreign key checks. -/
def deleteUserByStudent (studentId : Ident) (t : Tables) : Tables × Response :=
  ({ t with users := t.users.filter (fun u => u.StudentID ≠ some studentId) },
    if (t.users.filter (fun u => u.StudentID = some studentId)).length > 0 then
      { status := 200, text := "User deleted successfully by student ID!" }
    else { status := 404, text := "User not found for this student ID." })

/-- DELETE /api/student/:studentId.  The three statements go to the pool one by one, so
`SET FOREIGN_KEY_CHECKS=0` reaches the session that runs the `DELETE` only when the pool hands
out the same connection: `foreignKeyChecks` says whether the checks are on for the `DELETE`.
With the checks on, the `DELETE` throws when a row of `Enrollment` or `User` references a row
it would delete. -/
def deleteStudent (foreignKeyChecks : Bool) (studentId : Ident) (t : Tables) :
    Tables × Response :=
  let affectedRows := (t.students.filter (fun s => s.StudentID = studentId)).length
  let referenced :=
    t.enrollments.any (fun e => decide (e.StudentID = studentId)) ||
      t.users.any (fun u => decide (u.StudentID = some studentId))
  if foreignKeyChecks = true ∧ affectedRows > 0 ∧ referenced = true then
    (t, { status := 500, text := "Failed to delete student" })
  else
    ({ t with students := t.students.filter (fun s => s.StudentID ≠ studentId) },
      if affectedRows > 0 then { status := 200, text := "Student deleted successfully!" }
      else { status := 404, text := "Student not found" })

/-- `response.ok`: the status is in the range 200 to 299. -/
def Response.ok (r : Response) : Bool := decide (200 ≤ r.status ∧ r.status ≤ 299)

/-- The flow `deleteStudent` of the admin dashboard (admin.js 625-633): `sendData` throws when
an answer is not `ok`, which ends the flow; the result says whether the success message is
shown. -/
def dashboardDeleteStudent (foreignKeyChecks : Bool) (studentId : Ident) (t : Tables) :
    Tables × Bool :=
  let first := deleteUserByStudent studentId t
  if Response.ok first.2 = true then
    let second := deleteStudent foreignKeyChecks studentId first.1
    (second.1, Response.ok second.2)
  else (first.1, false)

/-- A state with one department and its two courses, one student of it with a user account, and
one section with ScheduleID 7 in which the student is enrolled. -/
def registrarDb : Tables :=
  { departments := [{ DepartmentID := "1", DepartmentName := "Computing" }],
    schedules := [{ ScheduleID := "7", StartTime := 32400, EndTime := 36000,
                    DayOfWeek := "Monday" }],
    semesters := [{ SemesterID := "4", Year := 2024, Season := "Fall" }],
    courses :=
      [{ CourseCode := "CSC302", Title := "Databases", DepartmentID := some "1" },
       { CourseCode := "CSC303", Title := "Networks", DepartmentID := some "1" }],
    students :=
      [{ StudentID := "10", FirstName := "Ada", LastName := "Byron", Gender := none,
         DepartmentID := some "1" }],
    users := [{ UserID := "ada", Role := "student", FacultyID := none, StudentID := some "10" }],
    sections :=
      [{ SectionID := "100", CourseCode := "CSC302", SemesterID := "4", ScheduleID := "7",
         RoomNumber := none, FacultyID := none }],
    enrollments := [{ StudentID := "10", SectionID := "100", Grade := some "A" }] }

/-- The body of a request for section 5 of CSC302 in Fall 2024, Mondays from 9:00 to 10:00. -/
def sectionFive : SectionBody :=
  { SectionID := "5", CourseCode := "CSC302", SemesterID := "4", Year := 2024, Season := "Fall",
    StartTime := 32400, EndTime := 36000, DayOfWeek := "Monday", FacultyID := none,
    RoomNumber := none }

/-- The body of a request that moves section 100 to CSC303 on Tuesdays from 10:00 to 11:00,
without `Year` and `Season`. -/
def sectionMoved : SectionBody :=
  { SectionID := "100", CourseCode := "CSC303", SemesterID := "4", Year := 0, Season := "",
    StartTime := 36000, EndTime := 39600, DayOfWeek := "Tuesday", FacultyID := none,
    RoomNumber := none }

/-! ## The grade scale under the collation of the column

`Grade` is declared `VARCHAR(20)` without `COLLATE` (server.js 139-146), so which texts
`e.Grade = 'A'` holds for is decided by the collation the server gives the column: a
case-insensitive one also accepts `a`.  Here the comparison of two texts is a parameter `eq`;
`gradePointTop` and its three siblings are the case of exact equality. -/

/-- SQL `column = 'literal'` on a nullable text column, the two texts compared by `eq`: not true
when the column is `NULL`. -/
def sqlEqUnder (eq : String → String → Bool) : Option String → String → Bool
  | none, _ => false
  | some v, lit => eq v lit

/-- The `CASE` of `GET /api/reports/average-gpa-per-department` (server.js 1597-1610), the
comparisons made by `eq`. -/
def gradePointAverageGpaUnder (eq : String → String → Bool) (grade : Option String) : ℚ :=
  if sqlEqUnder eq grade "A" then 4.0
  else if sqlEqUnder eq grade "A-" then 3.7
  else if sqlEqUnder eq grade "B+" then 3.3
  else if sqlEqUnder eq grade "B" then 3.0
  else if sqlEqUnder eq grade "B-" then 2.7
  else if sqlEqUnder eq grade "C+" then 2.3
  else if sqlEqUnder eq grade "C" then 2.0
  else if sqlEqUnder eq grade "C-" then 1.7
  else if sqlEqUnder eq grade "D+" then 1.3
  else if sqlEqUnder eq grade "D" then 1.0
  else if sqlEqUnder eq grade "D-" then 0.7
  else 0.0

/-- The `CASE` of `GET /api/reports/students-on-probation` (server.js 1722-1735), the comparisons
made by `eq`. -/
def gradePointProbationUnder (eq : String → String → Bool) (grade : Option String) : ℚ :=
  if sqlEqUnder eq grade "A" then 4.0
  else if sqlEqUnder eq grade "A-" then 3.7
  else if sqlEqUnder eq grade "B+" then 3.3
  else if sqlEqUnder eq grade "B" then 3.0
  else if sqlEqUnder eq grade "B-" then 2.7
  else if sqlEqUnder eq grade "C+" then 2.3
  else if sqlEqUnder eq grade "C" then 2.0
  else if sqlEqUnder eq grade "C-" then 1.7
  else if sqlEqUnder eq grade "D+" then 1.3
  else if sqlEqUnder eq grade "D" then 1.0
  else if sqlEqUnder eq grade "D-" then 0.7
  else 0.0

/-- The `CASE` of `GET /api/reports/course-performance-trends` (server.js 1759-1772), the
comparisons made by `eq`. -/
def gradePointTrendsUnder (eq : String → String → Bool) (grade : Option String) : ℚ :=
  if sqlEqUnder eq grade "A" then 4.0
  else if sqlEqUnder eq grade "A-" then 3.7
  else if sqlEqUnder eq grade "B+" then 3.3
  else if sqlEqUnder eq grade "B" then 3.0
  else if sqlEqUnder eq grade "B-" then 2.7
  else if sqlEqUnder eq grade "C+" then 2.3
  else if sqlEqUnder eq grade "C" then 2.0
  else if sqlEqUnder eq grade "C-" then 1.7
  else if sqlEqUnder eq grade "D+" then 1.3
  else if sqlEqUnder eq grade "D" then 1.0
  else if sqlEqUnder eq grade "D-" then 0.7
  else 0.0

/-- The `CASE` of `GET /api/reports/top-performing-students` (server.js 1841-1854), the
comparisons made by `eq`. -/
def gradePointTopUnder (eq : String → String → Bool) (grade : Option String) : ℚ :=
  if sqlEqUnder eq grade "A" then 4.0
  else if sqlEqUnder eq grade "A-" then 3.7
  else if sqlEqUnder eq grade "B+" then 3.3
  else if sqlEqUnder eq grade "B" then 3.0
  else if sqlEqUnder eq grade "B-" then 2.7
  else if sqlEqUnder eq grade "C+" then 2.3
  else if sqlEqUnder eq grade "C" then 2.0
  else if sqlEqUnder eq grade "C-" then 1.7
  else if sqlEqUnder eq grade "D+" then 1.3
  else if sqlEqUnder eq grade "D" then 1.0
  else if sqlEqUnder eq grade "D-" then 0.7
  else 0.0

/-- Exact equality of two texts. -/
def exactEq (a b : String) : Bool := a == b

/-- Equality of two texts up to the case of the ASCII letters: what a case-insensitive
collation decides on texts made of ASCII letters and signs without trailing blanks. -/
def caseInsensitiveEq (a b : String) : Bool := toLowerCase a == toLowerCase b

/-- The values of the grade scale, with the 0.0 of the `ELSE` branch. -/
def gradePointValues : List ℚ := [4.0, 3.7, 3.3, 3.0, 2.7, 2.3, 2.0, 1.7, 1.3, 1.0, 0.7, 0.0]

/-- The eleven letters of the grade scale. -/
def gradeLetters : List String := specGradeScale.map (fun p => p.1)

/-- The comparison `eq` tells the eleven letters of the scale apart: on them it is equality. -/
def tellsLettersApart (eq : String → String → Bool) : Prop :=
  ∀ a ∈ gradeLetters, ∀ b ∈ gradeLetters, eq a b = (a == b)

instance (eq : String → String → Bool) : Decidable (tellsLettersApart eq) := by
  unfold tellsLettersApart
  infer_instance

/-! ## Properties of the grade scale and of the average -/

theorem specGradePoint_some (g : String) :
    specGradePoint (some g) =
      if g = "A" then 4.0 else if g = "A-" then 3.7 else if g = "B+" then 3.3
      else if g = "B" then 3.0 else if g = "B-" then 2.7 else if g = "C+" then 2.3
      else if g = "C" then 2.0 else if g = "C-" then 1.7 else if g = "D+" then 1.3
      else if g = "D" then 1.0 else if g = "D-" then 0.7 else 0.0 := by
  by_cases h1 : g = "A"
  · subst h1; decide!
  by_cases h2 : g = "A-"
  · subst h2; decide!
  by_cases h3 : g = "B+"
  · subst h3; decide!
  by_cases h4 : g = "B"
  · subst h4; decide!
  by_cases h5 : g = "B-"
  · subst h5; decide!
  by_cases h6 : g = "C+"
  · subst h6; decide!
  by_cases h7 : g = "C"
  · subst h7; decide!
  by_cases h8 : g = "C-"
  · subst h8; decide!
  by_cases h9 : g = "D+"
  · subst h9; decide!
  by_cases h10 : g = "D"
  · subst h10; decide!
  by_cases h11 : g = "D-"
  · subst h11; decide!
  have hb : ∀ lit : String, g ≠ lit → (g == lit) = false := fun lit h => by simpa using h
  simp only [specGradePoint, specGradeScale, List.lookup, hb _ h1, hb _ h2, hb _ h3, hb _ h4,
    hb _ h5, hb _ h6, hb _ h7, hb _ h8, hb _ h9, hb _ h10, hb _ h11, if_neg h1, if_neg h2,
    if_neg h3, if_neg h4, if_neg h5, if_neg h6, if_neg h7, if_neg h8, if_neg h9, if_neg h10,
    if_neg h11, Option.getD_none]

theorem gradePointTop_eq_spec (grade : Option String) :
    gradePointTop grade = specGradePoint grade := by
  rcases grade with _ | g
  · simp [gradePointTop, sqlEqLit, specGradePoint]
  · rw [specGradePoint_some]
    simp only [gradePointTop, sqlEqLit, beq_iff_eq]

theorem gradePoint_same_case :
    gradePointAverageGpa = gradePointTop ∧ gradePointProbation = gradePointTop ∧
      gradePointTrends = gradePointTop :=
  ⟨rfl, rfl, rfl⟩

theorem mem_reportGradePoints {f : Option String → ℚ} (hf : f ∈ reportGradePoints) :
    f = gradePointTop := by
  simp only [reportGradePoints, List.mem_cons, List.mem_singleton, List.not_mem_nil,
    or_false] at hf
  rcases hf with h | h | h | h
  · exact h.trans gradePoint_same_case.1
  · exact h.trans gradePoint_same_case.2.1
  · exact h.trans gradePoint_same_case.2.2
  · exact h

theorem gradePointTop_unlisted {grade : Option String}
    (h : grade ∉ specGradeScale.map (fun p => some p.1)) : gradePointTop grade = 0 := by
  rcases grade with _ | g
  · norm_num [gradePointTop, sqlEqLit]
  · simp only [specGradeScale, List.map_cons, List.map_nil, List.mem_cons, List.mem_singleton,
      Option.some.injEq, List.not_mem_nil, or_false, not_or] at h
    obtain ⟨h1, h2, h3, h4, h5, h6, h7, h8, h9, h10, h11⟩ := h
    norm_num [gradePointTop, sqlEqLit, h1, h2, h3, h4, h5, h6, h7, h8, h9, h10, h11]

theorem ite_within {c : Prop} [Decidable c] {a b lo hi : ℚ} (ha : lo ≤ a ∧ a ≤ hi)
    (hb : lo ≤ b ∧ b ≤ hi) : lo ≤ (if c then a else b) ∧ (if c then a else b) ≤ hi := by
  split <;> assumption

theorem gradePointTop_within (grade : Option String) :
    0 ≤ gradePointTop grade ∧ gradePointTop grade ≤ 4 := by
  unfold gradePointTop
  repeat (apply ite_within (by norm_num))
  norm_num

theorem gradePointTop_nonneg (grade : Option String) : 0 ≤ gradePointTop grade :=
  (gradePointTop_within grade).1

theorem sqlAvg_foldl (vals : List ℚ) (a : ℚ × ℕ) :
    vals.foldl (fun (a : ℚ × ℕ) v => (a.1 + v, a.2 + 1)) a = (a.1 + vals.sum, a.2 + vals.length) := by
  induction vals generalizing a with
  | nil => simp
  | cons v vs ih =>
    simp only [List.foldl_cons, ih, List.sum_cons, List.length_cons]
    ext <;> simp <;> ring

theorem sqlAvg_eq (vals : List ℚ) :
    sqlAvg vals = if vals = [] then none else some (vals.sum / (vals.length : ℚ)) := by
  unfold sqlAvg
  simp only [sqlAvg_foldl, zero_add]
  by_cases h : vals = []
  · subst h; simp
  · have hl : vals.length ≠ 0 := by simpa using h
    simp [h, hl]

theorem groupGpa_eq (f : Option String → ℚ) (grades : List (Option String)) :
    groupGpa f grades =
      if grades = [] then none else some ((grades.map f).sum / (grades.length : ℚ)) := by
  unfold groupGpa
  rw [sqlAvg_eq]
  by_cases h : grades = []
  · subst h; simp
  · simp [h]

theorem groupGpa_top_nonneg {grades : List (Option String)} {g : ℚ}
    (h : groupGpa gradePointTop grades = some g) : 0 ≤ g := by
  rw [groupGpa_eq] at h
  by_cases hn : grades = []
  · simp [hn] at h
  · simp only [hn, if_false, Option.some.injEq] at h
    rw [← h]
    apply div_nonneg
    · apply List.sum_nonneg
      intro x hx
      obtain ⟨y, -, rfl⟩ := List.mem_map.1 hx
      exact gradePointTop_nonneg y
    · exact Nat.cast_nonneg _

/-- C2. For each of the four GPA reports and every non-empty group of grades, the aggregate
`AVG(CASE ... END)` is the sum of the mapped grade points of the rows divided by the number of
rows; a further row whose grade is `Ungraded`, or any other value outside the eleven letters of
the scale, leaves the sum unchanged and raises the divisor by one. -/
theorem group_gpa_is_mean (gradePoint : Option String → ℚ)
    (hf : gradePoint ∈ reportGradePoints) (grades : List (Option String))
    (hne : grades ≠ []) :
    groupGpa gradePoint grades =
        some ((grades.map gradePoint).sum / (grades.length : ℚ)) ∧
      groupGpa gradePoint (grades ++ [some "Ungraded"]) =
        some ((grades.map gradePoint).sum / ((grades.length : ℚ) + 1)) ∧
      ∀ u : Option String, u ∉ specGradeScale.map (fun p => some p.1) →
        groupGpa gradePoint (grades ++ [u]) =
          some ((grades.map gradePoint).sum / ((grades.length : ℚ) + 1)) := by
  have hu : ∀ u : Option String, u ∉ specGradeScale.map (fun p => some p.1) →
      groupGpa gradePoint (grades ++ [u]) =
        some ((grades.map gradePoint).sum / ((grades.length : ℚ) + 1)) := by
    intro u hu
    rw [groupGpa_eq, mem_reportGradePoints hf]
    simp [gradePointTop_unlisted hu]
  refine ⟨?_, hu _ (by decide), hu⟩
  rw [groupGpa_eq]
  simp [hne]

theorem group_gpa_is_mean_witness :
    groupGpa gradePointProbation [some "A", some "C"] = some 3 ∧
      groupGpa gradePointProbation ([some "A", some "C"] ++ [some "Ungraded"]) = some 2 ∧
      groupGpa gradePointProbation ([some "A", some "C"] ++ [some "Pass"]) = some 2 :=
  have h := group_gpa_is_mean gradePointProbation (by simp [reportGradePoints])
    [some "A", some "C"] (by decide)
  ⟨h.1.trans (by decide!), h.2.1.trans (by decide!), (h.2.2 (some "Pass") (by decide)).trans
    (by decide!)⟩

/-! ## Semester orderings -/

theorem yearDescFieldDesc_iff (args : List String) (aY : Int) (aS : String) (bY : Int)
    (bS : String) :
    yearDescFieldDesc args aY aS bY bS = true ↔
      bY < aY ∨ (aY = bY ∧ sqlField bS args ≤ sqlField aS args) := by
  simp [yearDescFieldDesc]

theorem yearDescFieldDesc_total (args : List String) (aY : Int) (aS : String) (bY : Int)
    (bS : String) :
    yearDescFieldDesc args aY aS bY bS = true ∨ yearDescFieldDesc args bY bS aY aS = true := by
  simp only [yearDescFieldDesc_iff]
  omega

theorem yearDescFieldDesc_trans (args : List String) {aY bY cY : Int} {aS bS cS : String}
    (hab : yearDescFieldDesc args aY aS bY bS = true)
    (hbc : yearDescFieldDesc args bY bS cY cS = true) :
    yearDescFieldDesc args aY aS cY cS = true := by
  simp only [yearDescFieldDesc_iff] at *
  omega

theorem sqlField_injective_on_valid (args : List String)
    (hargs : args = seasonField4 ∨ args = seasonField3) {s t : String} (hs : s ∈ validSeasons)
    (ht : t ∈ validSeasons) (h : sqlField s args = sqlField t args) : s = t := by
  simp only [validSeasons, List.mem_cons, List.mem_singleton, List.not_mem_nil, or_false] at hs ht
  rcases hargs with rfl | rfl <;> rcases hs with rfl | rfl | rfl | rfl <;>
    rcases ht with rfl | rfl | rfl | rfl <;>
    first
    | rfl
    | (exfalso; revert h; decide)

theorem eq_of_perm_of_sorted_on {α : Type} {r : α → α → Prop} :
    ∀ {l₁ l₂ : List α}, l₁.Perm l₂ → l₁.Sorted r → l₂.Sorted r →
      (∀ a ∈ l₁, ∀ b ∈ l₁, r a b → r b a → a = b) → l₁ = l₂
  | [], l₂, hp, _, _, _ => (List.Perm.nil_eq hp)
  | a :: t, [], hp, _, _, _ => absurd hp.symm (by simp)
  | a :: t, b :: u, hp, h₁, h₂, anti => by
    have hab : a = b := by
      by_contra hne
      have ha : a ∈ u := by
        have : a ∈ b :: u := hp.subset (List.mem_cons_self a t)
        rcases List.mem_cons.1 this with h | h
        · exact absurd h hne
        · exact h
      have hb : b ∈ t := by
        have : b ∈ a :: t := hp.symm.subset (List.mem_cons_self b u)
        rcases List.mem_cons.1 this with h | h
        · exact absurd h.symm hne
        · exact h
      exact hne (anti a (List.mem_cons_self a t) b (List.mem_cons_of_mem a hb)
        (List.rel_of_sorted_cons h₁ b hb) (List.rel_of_sorted_cons h₂ a ha))
    subst hab
    have ht : t = u :=
      eq_of_perm_of_sorted_on (List.Perm.cons_inv hp) h₁.of_cons h₂.of_cons
        (fun x hx y hy => anti x (List.mem_cons_of_mem a hx) y (List.mem_cons_of_mem a hy))
    rw [ht]

theorem orderBy_perm {α : Type} (precedes : α → α → Bool) (rows : List α) :
    (orderBy precedes rows).Perm rows :=
  List.perm_insertionSort _ rows

theorem orderBy_sorted {α : Type} (precedes : α → α → Bool)
    (htotal : ∀ a b, precedes a b = true ∨ precedes b a = true)
    (htrans : ∀ a b c, precedes a b = true → precedes b c = true → precedes a c = true)
    (rows : List α) : (orderBy precedes rows).Sorted (fun a b => precedes a b = true) := by
  haveI : IsTotal α (fun a b => precedes a b = true) := ⟨htotal⟩
  haveI : IsTrans α (fun a b => precedes a b = true) := ⟨htrans⟩
  exact List.sorted_insertionSort _ rows

theorem semesterRecentFirst_sorted (rows : List Semester) :
    (orderBy semesterRecentFirst rows).Sorted (fun a b => semesterRecentFirst a b = true) :=
  orderBy_sorted semesterRecentFirst
    (fun a b => yearDescFieldDesc_total seasonField4 a.Year a.Season b.Year b.Season)
    (fun _ _ _ hab hbc => yearDescFieldDesc_trans seasonField4 hab hbc) rows

theorem semester_eq_of_key_eq {rows : List Semester}
    (hvalid : ∀ s ∈ rows, s.Season ∈ validSeasons)
    (hunique : (rows.map (fun s => (s.Year, s.Season))).Nodup) {a b : Semester} (ha : a ∈ rows)
    (hb : b ∈ rows) (hab : semesterRecentFirst a b = true) (hba : semesterRecentFirst b a = true) :
    a = b := by
  simp only [semesterRecentFirst, yearDescFieldDesc_iff] at hab hba
  have hy : a.Year = b.Year := by omega
  have hf : sqlField a.Season seasonField4 = sqlField b.Season seasonField4 := by omega
  have hs : a.Season = b.Season :=
    sqlField_injective_on_valid seasonField4 (Or.inl rfl) (hvalid a ha) (hvalid b hb) hf
  exact List.inj_on_of_nodup_map hunique ha hb (by simp [hy, hs])

/-- C3 (the code departs from the claim). On the state `calendarDb`, every "most recent first"
ordering of the server lists Spring 2024 first, then Summer 2024, then Fall 2024, then Fall 2023:
the greater Year does come first, but within 2024 Fall stands after Summer and Summer after
Spring, although Fall 2024 is the latest semester; the two-row selection of inactive-students
leaves Fall 2024 out. -/
theorem recent_first_puts_fall_after_spring :
    getSemesters calendarDb =
        [{ SemesterID := "2", Year := 2024, Season := "Spring" },
         { SemesterID := "3", Year := 2024, Season := "Summer" },
         { SemesterID := "4", Year := 2024, Season := "Fall" },
         { SemesterID := "1", Year := 2023, Season := "Fall" }] ∧
      recentSemesterIds 3 calendarDb = ["2", "3", "4"] ∧
      recentSemesterIds 2 calendarDb = ["2", "3"] ∧
      studentSemesters calendarDb "10" = ["Spring2024", "Summer2024", "Fall2024", "Fall2023"] ∧
      facultySemesters calendarDb "7" = ["Spring2024", "Summer2024", "Fall2024", "Fall2023"] ∧
      specLater 2024 "Fall" 2024 "Summer" ∧ specLater 2024 "Summer" 2024 "Spring" :=
  ⟨by decide, by decide, by decide, by decide, by decide,
    Or.inr ⟨rfl, 2, 1, by decide, by decide, by decide⟩,
    Or.inr ⟨rfl, 1, 0, by decide, by decide, by decide⟩⟩

/-- C4 (the code departs from the claim). On the state `calendarDb`, the Course Performance
Trend report lists Fall 2023, then Fall 2024, then Summer 2024, then Spring 2024: Year is
ascending, but within 2024 the rows run Fall, Summer, Spring, the reverse of the chronological
order Spring, Summer, Fall. -/
theorem trends_put_fall_before_spring :
    runTrends calendarDb (buildTrends none) =
        some
          [{ Year := 2023, Season := "Fall", Title := "Databases", AverageGrade := some 2.0 },
           { Year := 2024, Season := "Fall", Title := "Databases", AverageGrade := some 4.0 },
           { Year := 2024, Season := "Summer", Title := "Databases", AverageGrade := some 3.7 },
           { Year := 2024, Season := "Spring", Title := "Databases", AverageGrade := some 3.0 }] ∧
      specLater 2024 "Fall" 2024 "Spring" :=
  ⟨by decide!, Or.inr ⟨rfl, 2, 0, by decide, by decide, by decide⟩⟩

/-- C5. On semesters whose Season is Spring, Summer, Fall or Winter, the sort key `(Year,
FIELD(Season, ...))` of the `ORDER BY` clauses is injective, with the four-season and with the
three-season argument list; the order it induces is a strict total order (of two semesters with
different `(Year, Season)` exactly one stands strictly before the other, and standing strictly
before is transitive); and for a `Semester` table that satisfies `UNIQUE (Year, Season)`, the
"most recent `k`" selection does not depend on the order in which the rows are stored. -/
theorem semester_sort_key_injective (db₁ db₂ : Database) (k : Nat)
    (hperm : db₁.semesters.Perm db₂.semesters)
    (hvalid : ∀ s ∈ db₁.semesters, s.Season ∈ validSeasons)
    (hunique : (db₁.semesters.map (fun s => (s.Year, s.Season))).Nodup) :
    recentSemesterIds k db₁ = recentSemesterIds k db₂ ∧
      getSemesters db₁ = getSemesters db₂ ∧
      (∀ args ∈ [seasonField4, seasonField3], ∀ a b : Semester,
        a.Season ∈ validSeasons → b.Season ∈ validSeasons →
          (semesterSortKey args a = semesterSortKey args b →
            (a.Year, a.Season) = (b.Year, b.Season)) ∧
          ((a.Year, a.Season) ≠ (b.Year, b.Season) →
            (strictlyBefore args a b ∨ strictlyBefore args b a) ∧
              ¬(strictlyBefore args a b ∧ strictlyBefore args b a))) ∧
      (∀ args : List String, ∀ a b c : Semester,
        strictlyBefore args a b → strictlyBefore args b c → strictlyBefore args a c) := by
  have hsort : orderBy semesterRecentFirst db₁.semesters =
      orderBy semesterRecentFirst db₂.semesters := by
    have hp₁ := orderBy_perm semesterRecentFirst db₁.semesters
    have hp₂ := orderBy_perm semesterRecentFirst db₂.semesters
    refine eq_of_perm_of_sorted_on (hp₁.trans (hperm.trans hp₂.symm))
      (semesterRecentFirst_sorted _) (semesterRecentFirst_sorted _) ?_
    intro a ha b hb hab hba
    exact semester_eq_of_key_eq hvalid hunique (hp₁.subset ha) (hp₁.subset hb) hab hba
  refine ⟨?_, hsort, ?_, ?_⟩
  · simp only [recentSemesterIds, hsort]
  · intro args hargs a b ha hb
    have hargs' : args = seasonField4 ∨ args = seasonField3 := by
      simpa using hargs
    have hinj : semesterSortKey args a = semesterSortKey args b →
        (a.Year, a.Season) = (b.Year, b.Season) := by
      intro h
      simp only [semesterSortKey, Prod.mk.injEq] at h
      rw [Prod.mk.injEq]
      exact ⟨h.1, sqlField_injective_on_valid args hargs' ha hb h.2⟩
    refine ⟨hinj, ?_⟩
    intro hne
    have hkey : ¬(a.Year = b.Year ∧ sqlField a.Season args = sqlField b.Season args) := by
      intro h
      exact hne (hinj (by simp [semesterSortKey, h.1, h.2]))
    have hiff := yearDescFieldDesc_iff args a.Year a.Season b.Year b.Season
    have hiff' := yearDescFieldDesc_iff args b.Year b.Season a.Year a.Season
    simp only [strictlyBefore, ← Bool.not_eq_true, hiff, hiff']
    omega
  · intro args a b c hab hbc
    simp only [strictlyBefore, ← Bool.not_eq_true, yearDescFieldDesc_iff] at *
    omega

theorem semester_sort_key_injective_witness :
    recentSemesterIds 2 calendarDb = recentSemesterIds 2 calendarDbReordered ∧
      getSemesters calendarDb = getSemesters calendarDbReordered :=
  have h := semester_sort_key_injective calendarDb calendarDbReordered 2 (by decide) (by decide)
    (by decide)
  ⟨h.1, h.2.1⟩

/-! ## `DISTINCT`, `GROUP BY`, `ORDER BY` -/

theorem mem_distinct {κ : Type} [DecidableEq κ] {x : κ} :
    ∀ {l : List κ}, x ∈ distinct l ↔ x ∈ l
  | [] => by simp [distinct]
  | k :: ks => by
    have ih := mem_distinct (x := x) (l := ks)
    by_cases h : x = k
    · simp [distinct, h]
    · simp [distinct, h, List.mem_filter, ih]

theorem nodup_distinct {κ : Type} [DecidableEq κ] : ∀ (l : List κ), (distinct l).Nodup
  | [] => by simp [distinct]
  | k :: ks => by
    have ih := nodup_distinct ks
    simp only [distinct, List.nodup_cons, List.mem_filter, decide_not, Bool.not_eq_eq_eq_not,
      Bool.not_true, decide_eq_false_iff_not, not_true_eq_false, and_false, not_false_eq_true,
      true_and]
    exact ih.filter _

theorem mem_groupBy {α κ : Type} [DecidableEq κ] {key : α → κ} {rows : List α}
    {g : κ × List α} :
    g ∈ groupBy key rows ↔
      (∃ r ∈ rows, key r = g.1) ∧ g.2 = rows.filter (fun r => key r = g.1) := by
  simp only [groupBy, List.mem_map, mem_distinct]
  constructor
  · rintro ⟨k, ⟨r, hr, rfl⟩, rfl⟩
    exact ⟨⟨r, hr, rfl⟩, rfl⟩
  · rintro ⟨⟨r, hr, hk⟩, hg⟩
    refine ⟨g.1, ⟨r, hr, hk⟩, ?_⟩
    rw [← hg]

theorem groupBy_ne_nil {α κ : Type} [DecidableEq κ] {key : α → κ} {rows : List α}
    {g : κ × List α} (hg : g ∈ groupBy key rows) : g.2 ≠ [] := by
  obtain ⟨⟨r, hr, hk⟩, h2⟩ := mem_groupBy.1 hg
  rw [h2]
  intro hnil
  have : r ∈ rows.filter (fun r => key r = g.1) := by
    simp [List.mem_filter, hr, hk]
  rw [hnil] at this
  simp at this

theorem groupBy_keys_nodup {α κ : Type} [DecidableEq κ] (key : α → κ) (rows : List α) :
    ((groupBy key rows).map (fun g => g.1)).Nodup := by
  simp only [groupBy, List.map_map]
  have : ((fun g : κ × List α => g.1) ∘ fun k => (k, rows.filter (fun r => key r = k))) = id := by
    funext k; rfl
  rw [this, List.map_id]
  exact nodup_distinct _

theorem mem_orderBy {α : Type} {precedes : α → α → Bool} {rows : List α} {x : α} :
    x ∈ orderBy precedes rows ↔ x ∈ rows :=
  (orderBy_perm precedes rows).mem_iff

theorem nullableLe_total (a b : Option ℚ) : nullableLe a b = true ∨ nullableLe b a = true := by
  rcases a with _ | x <;> rcases b with _ | y <;> simp [nullableLe]
  exact le_total x y

theorem nullableLe_trans {a b c : Option ℚ} (hab : nullableLe a b = true)
    (hbc : nullableLe b c = true) : nullableLe a c = true := by
  rcases a with _ | x <;> rcases b with _ | y <;> rcases c with _ | z <;>
    simp [nullableLe] at *
  exact le_trans hab hbc

/-! ## The filter value `All` -/

theorem filterActive_all {v : String} (hv : toLowerCase v = "all") :
    filterActive (some v) = false := by
  simp [filterActive, hv]

theorem pushFilter_all {v : String} (hv : toLowerCase v = "all") (cond : String)
    (arrays : List String × List Param) : pushFilter (some v) cond arrays = arrays := by
  simp [pushFilter, filterActive_all hv]

theorem pushFilter_none (cond : String) (arrays : List String × List Param) :
    pushFilter none cond arrays = arrays := rfl

theorem noSpecificDepartment_all {v : String} (hv : toLowerCase v = "all") :
    noSpecificDepartment (some v) = true := by
  simp [noSpecificDepartment, hv]

theorem noSpecificDepartment_eq (d : QueryValue) :
    noSpecificDepartment d = !filterActive d := by
  rcases d with _ | s
  · rfl
  · simp only [noSpecificDepartment, filterActive, bne, Bool.not_and, Bool.not_not]

theorem buildTop_all_minGpa (pf : String → JsNumber) (d : QueryValue) {v : String}
    (hv : toLowerCase v = "all") :
    buildTopPerforming pf d (some v) = buildTopPerforming pf d none := by
  have hne : (toLowerCase v != "all") = false := by simp [hv]
  simp only [buildTopPerforming, hne]
  rfl

/-- C6. For each of the six filterable endpoints and each filter it reads, a value whose lower
case is `all` (every spelling of `All`, eight in number) gives the same built query as omitting
the filter, all other filters held fixed: the same SQL text, the same parameter list, the same
clause lists and limit. -/
theorem all_value_same_as_omitted (parseFloat : String → JsNumber) (v : String)
    (hv : toLowerCase v = "all")
    (gender semesterId courseCode departmentId facultyId minGpa : QueryValue) :
    buildAverageGpa (some v) semesterId = buildAverageGpa none semesterId ∧
      buildAverageGpa gender (some v) = buildAverageGpa gender none ∧
      buildTrends (some v) = buildTrends none ∧
      buildTopPerforming parseFloat (some v) minGpa = buildTopPerforming parseFloat none minGpa ∧
      buildTopPerforming parseFloat departmentId (some v) =
        buildTopPerforming parseFloat departmentId none ∧
      buildFillRate (some v) = buildFillRate none ∧
      buildGradeDistribution (some v) semesterId facultyId =
        buildGradeDistribution none semesterId facultyId ∧
      buildGradeDistribution courseCode (some v) facultyId =
        buildGradeDistribution courseCode none facultyId ∧
      buildGradeDistribution courseCode semesterId (some v) =
        buildGradeDistribution courseCode semesterId none ∧
      buildGpaAnalysis (some v) gender = buildGpaAnalysis none gender ∧
      buildGpaAnalysis semesterId (some v) = buildGpaAnalysis semesterId none ∧
      ∀ spelling ∈ ["all", "All", "aLl", "alL", "ALl", "AlL", "aLL", "ALL"],
        toLowerCase spelling = "all" := by
  have hf := filterActive_all hv
  have hn : filterActive none = false := rfl
  refine ⟨?_, ?_, ?_, ?_, ?_, ?_, ?_, ?_, ?_, ?_, ?_, by decide⟩
  · simp only [buildAverageGpa, pushFilter_all hv, pushFilter_none]
  · simp only [buildAverageGpa, pushFilter_all hv, pushFilter_none]
  · simp only [buildTrends, pushFilter_all hv, pushFilter_none]
  · unfold buildTopPerforming
    rw [pushFilter_all hv, noSpecificDepartment_all hv]
    rfl
  · exact buildTop_all_minGpa parseFloat departmentId hv
  · simp only [buildFillRate, pushFilter_all hv, pushFilter_none, hf, hn]
  · simp only [buildGradeDistribution, pushFilter_all hv, pushFilter_none]
  · simp only [buildGradeDistribution, pushFilter_all hv, pushFilter_none]
  · simp only [buildGradeDistribution, pushFilter_all hv, pushFilter_none]
  · simp only [buildGpaAnalysis, pushFilter_all hv, pushFilter_none, hf, hn]
  · simp only [buildGpaAnalysis, pushFilter_all hv, pushFilter_none, hf, hn]

theorem all_value_same_as_omitted_witness :
    buildAverageGpa (some "ALL") (some "4") = buildAverageGpa none (some "4") ∧
      buildTopPerforming jsParseFloat (some "1") (some "aLl") =
        buildTopPerforming jsParseFloat (some "1") none :=
  have h := all_value_same_as_omitted jsParseFloat "ALL" (by decide) (some "Female") (some "4")
    (some "CSC302") (some "1") (some "7") (some "3.5")
  have h' := all_value_same_as_omitted jsParseFloat "aLl" (by decide) (some "Female") (some "4")
    (some "CSC302") (some "1") (some "7") (some "3.5")
  ⟨h.1, h'.2.2.2.2.1⟩

/-! ## top-performing-students -/

theorem pushFilter_cases (d : QueryValue) (cond : String) :
    (filterActive d = false ∧ pushFilter d cond ([], []) = ([], [])) ∨
      (∃ s, d = some s ∧ filterActive d = true ∧
        pushFilter d cond ([], []) = ([cond], [Param.str s])) := by
  rcases d with _ | s
  · exact Or.inl ⟨rfl, rfl⟩
  · by_cases h : filterActive (some s) = true
    · exact Or.inr ⟨s, rfl, h, by simp [pushFilter, h]⟩
    · have h' : filterActive (some s) = false := by simpa using h
      exact Or.inl ⟨h', by simp [pushFilter, h']⟩

theorem buildTop_conditions (pf : String → JsNumber) (d m : QueryValue) :
    (buildTopPerforming pf d m).conditions = (pushFilter d "s.DepartmentID = ?" ([], [])).1 :=
  rfl

theorem buildTop_limit (pf : String → JsNumber) (d m : QueryValue) :
    (buildTopPerforming pf d m).limit = if noSpecificDepartment d then some 10 else none :=
  rfl

theorem buildTop_omitted_having (pf : String → JsNumber) (d : QueryValue) :
    (buildTopPerforming pf d none).havingConditions = ["GPA >= ?"] :=
  rfl

theorem buildTop_omitted_params (pf : String → JsNumber) (d : QueryValue) :
    (buildTopPerforming pf d none).params =
      (pushFilter d "s.DepartmentID = ?" ([], [])).2 ++ [Param.num (JsNumber.finite 0.0)] :=
  rfl

theorem buildTop_nan_having (pf : String → JsNumber) (d : QueryValue) {m : String}
    (hnan : pf m = JsNumber.nan) (hall : toLowerCase m ≠ "all") :
    (buildTopPerforming pf d (some m)).havingConditions = [] := by
  simp [buildTopPerforming, hnan, hall]

theorem buildTop_nan_params (pf : String → JsNumber) (d : QueryValue) {m : String}
    (hnan : pf m = JsNumber.nan) (hall : toLowerCase m ≠ "all") :
    (buildTopPerforming pf d (some m)).params =
      (pushFilter d "s.DepartmentID = ?" ([], [])).2 := by
  simp [buildTopPerforming, hnan, hall]

theorem topAggregated_gpa {db : Database} {q : ReportQuery}
    {g : (Ident × String × String × String) × Option ℚ} (hg : g ∈ topAggregated db q) :
    ∃ x, g.2 = some x ∧ 0 ≤ x := by
  simp only [topAggregated, List.mem_map] at hg
  obtain ⟨grp, hgrp, rfl⟩ := hg
  have hne := groupBy_ne_nil hgrp
  have hmap : grp.2.map (fun r => r.e.Grade) ≠ [] := by simpa using hne
  have h := groupGpa_eq gradePointTop (grp.2.map (fun r => r.e.Grade))
  rw [if_neg hmap] at h
  exact ⟨_, h, groupGpa_top_nonneg h⟩

theorem topHaving_default {gpa : Option ℚ} (h : ∃ x, gpa = some x ∧ 0 ≤ x) :
    topHaving gpa ("GPA >= ?", Param.num (JsNumber.finite 0.0)) = true := by
  obtain ⟨x, rfl, hx⟩ := h
  simp only [topHaving, decide_True, Bool.true_and, decide_eq_true_eq]
  norm_num
  exact hx

theorem topAggregated_congr (db : Database) {q₁ q₂ : ReportQuery}
    (h : q₁.whereBound = q₂.whereBound) : topAggregated db q₁ = topAggregated db q₂ := by
  simp only [topAggregated, h]

theorem default_having_keeps_all (db : Database) (q : ReportQuery) :
    (topAggregated db q).filter
        (fun g => [("GPA >= ?", Param.num (JsNumber.finite 0.0))].all (topHaving g.2)) =
      topAggregated db q := by
  apply List.filter_eq_self.2
  intro g hg
  simp [topHaving_default (topAggregated_gpa hg)]

/-- C7. In top-performing-students, for every database state and every departmentId value, a
minGpa string for which `parseFloat` gives `NaN` builds a query that the engine accepts, and the
rows returned are exactly those of the same request with minGpa omitted. -/
theorem non_numeric_min_gpa_same_rows (parseFloat : String → JsNumber) (db : Database)
    (departmentId : QueryValue) (minGpa : String) (hnan : parseFloat minGpa = JsNumber.nan) :
    (∃ rows,
        runTopPerforming db (buildTopPerforming parseFloat departmentId (some minGpa)) =
          some rows) ∧
      runTopPerforming db (buildTopPerforming parseFloat departmentId (some minGpa)) =
        runTopPerforming db (buildTopPerforming parseFloat departmentId none) := by
  by_cases hall : toLowerCase minGpa = "all"
  · rw [buildTop_all_minGpa parseFloat departmentId hall]
    refine ⟨?_, rfl⟩
    unfold runTopPerforming
    rcases pushFilter_cases departmentId "s.DepartmentID = ?" with ⟨-, hp⟩ | ⟨s, -, -, hp⟩ <;>
      simp [ReportQuery.accepted, ReportQuery.whereParams, ReportQuery.havingParams,
        buildTop_conditions, buildTop_omitted_having, buildTop_omitted_params, hp, Param.isText,
        Param.isFiniteNumber]
  · have hacc₁ : (buildTopPerforming parseFloat departmentId (some minGpa)).accepted
        ["s.DepartmentID = ?"] ["GPA >= ?"] = true := by
      rcases pushFilter_cases departmentId "s.DepartmentID = ?" with ⟨-, hp⟩ | ⟨s, -, -, hp⟩ <;>
        simp [ReportQuery.accepted, ReportQuery.whereParams, ReportQuery.havingParams,
          buildTop_conditions, buildTop_nan_having parseFloat departmentId hnan hall,
          buildTop_nan_params parseFloat departmentId hnan hall, hp, Param.isText]
    have hacc₂ : (buildTopPerforming parseFloat departmentId none).accepted
        ["s.DepartmentID = ?"] ["GPA >= ?"] = true := by
      rcases pushFilter_cases departmentId "s.DepartmentID = ?" with ⟨-, hp⟩ | ⟨s, -, -, hp⟩ <;>
        simp [ReportQuery.accepted, ReportQuery.whereParams, ReportQuery.havingParams,
          buildTop_conditions, buildTop_omitted_having, buildTop_omitted_params, hp,
          Param.isText, Param.isFiniteNumber]
    have hwhere : (buildTopPerforming parseFloat departmentId (some minGpa)).whereBound =
        (buildTopPerforming parseFloat departmentId none).whereBound := by
      rcases pushFilter_cases departmentId "s.DepartmentID = ?" with ⟨-, hp⟩ | ⟨s, -, -, hp⟩ <;>
        simp [ReportQuery.whereBound, ReportQuery.whereParams, buildTop_conditions,
          buildTop_omitted_params, buildTop_nan_params parseFloat departmentId hnan hall, hp]
    have hhaving₁ : (buildTopPerforming parseFloat departmentId (some minGpa)).havingBound =
        [] := by
      simp [ReportQuery.havingBound, buildTop_nan_having parseFloat departmentId hnan hall]
    have hhaving₂ : (buildTopPerforming parseFloat departmentId none).havingBound =
        [("GPA >= ?", Param.num (JsNumber.finite 0.0))] := by
      rcases pushFilter_cases departmentId "s.DepartmentID = ?" with ⟨-, hp⟩ | ⟨s, -, -, hp⟩ <;>
        simp [ReportQuery.havingBound, ReportQuery.havingParams, buildTop_conditions,
          buildTop_omitted_having, buildTop_omitted_params, hp]
    have hgroups : topGroups db (buildTopPerforming parseFloat departmentId (some minGpa)) =
        topGroups db (buildTopPerforming parseFloat departmentId none) := by
      simp only [topGroups, hhaving₁, hhaving₂, buildTop_limit, topAggregated_congr db hwhere,
        default_having_keeps_all]
      simp
    unfold runTopPerforming
    rw [if_pos hacc₁, if_pos hacc₂, hgroups]
    exact ⟨⟨_, rfl⟩, rfl⟩

theorem non_numeric_min_gpa_same_rows_witness :
    runTopPerforming calendarDb (buildTopPerforming jsParseFloat (some "1") (some "abc")) =
        runTopPerforming calendarDb (buildTopPerforming jsParseFloat (some "1") none) ∧
      runTopPerforming calendarDb (buildTopPerforming jsParseFloat none (some "")) =
        runTopPerforming calendarDb (buildTopPerforming jsParseFloat none none) :=
  ⟨(non_numeric_min_gpa_same_rows jsParseFloat calendarDb (some "1") "abc" (by decide)).2,
    (non_numeric_min_gpa_same_rows jsParseFloat calendarDb none "" (by decide)).2⟩

theorem applyLimit_sublist {α : Type} (limit : Option Nat) (rows : List α) :
    (applyLimit limit rows).Sublist rows := by
  rcases limit with _ | n
  · exact List.Sublist.refl rows
  · exact List.take_sublist n rows

theorem filterActive_false_iff (d : QueryValue) :
    filterActive d = false ↔
      d = none ∨ d = some "" ∨ ∃ s, d = some s ∧ toLowerCase s = "all" := by
  rcases d with _ | s
  · simp [filterActive]
  · by_cases he : s = "" <;> by_cases ha : toLowerCase s = "all" <;>
      simp [filterActive, truthy, he, ha]

theorem buildTop_query_tail (pf : String → JsNumber) (d m : QueryValue) :
    ∃ body, (buildTopPerforming pf d m).query =
      body ++ " ORDER BY GPA DESC" ++ (if noSpecificDepartment d then " LIMIT 10" else "") := by
  unfold buildTopPerforming
  by_cases h : noSpecificDepartment d = true
  · simp only [h, if_true]
    exact ⟨_, rfl⟩
  · simp only [h, if_false, Bool.false_eq_true, String.append_empty]
    exact ⟨_, rfl⟩

/-- C8. In top-performing-students with departmentId absent, empty or `All` in any letter case
(the cases in which the endpoint applies no department filter) and minGpa omitted, for every
database state the engine returns at most 10 rows, every returned GPA is a number that is at
least 0.0, and the rows are in non-increasing GPA order.  `LIMIT 10` is applied exactly when no
department filter is active: then the text ends in `ORDER BY GPA DESC LIMIT 10`; when a specific
departmentId is given there is no limit and the text ends in `ORDER BY GPA DESC`. -/
theorem top_default_at_most_ten (parseFloat : String → JsNumber) (db : Database)
    (departmentId : QueryValue) (hd : filterActive departmentId = false) :
    (∃ rows,
        runTopPerforming db (buildTopPerforming parseFloat departmentId none) = some rows ∧
          rows.length ≤ 10 ∧
          (∀ r ∈ rows, ∃ g, r.GPA = some g ∧ 0.0 ≤ g) ∧
          rows.Pairwise (fun a b => ∃ x y, a.GPA = some x ∧ b.GPA = some y ∧ y ≤ x)) ∧
      (∀ d m : QueryValue,
        ((buildTopPerforming parseFloat d m).limit = some 10 ↔ filterActive d = false) ∧
          (filterActive d = false →
            ∃ body, (buildTopPerforming parseFloat d m).query =
              body ++ " ORDER BY GPA DESC" ++ " LIMIT 10") ∧
          (filterActive d = true →
            (buildTopPerforming parseFloat d m).limit = none ∧
              ∃ body, (buildTopPerforming parseFloat d m).query =
                body ++ " ORDER BY GPA DESC")) ∧
      (∀ d : QueryValue, filterActive d = false ↔
        d = none ∨ d = some "" ∨ ∃ s, d = some s ∧ toLowerCase s = "all") := by
  refine ⟨?_, ?_, filterActive_false_iff⟩
  · have hno : noSpecificDepartment departmentId = true := by
      rw [noSpecificDepartment_eq, hd]; rfl
    have hp : pushFilter departmentId "s.DepartmentID = ?" ([], []) = ([], []) := by
      rcases pushFilter_cases departmentId "s.DepartmentID = ?" with ⟨-, hp⟩ | ⟨s, -, ha, -⟩
      · exact hp
      · rw [hd] at ha; exact absurd ha (by decide)
    have hacc : (buildTopPerforming parseFloat departmentId none).accepted
        ["s.DepartmentID = ?"] ["GPA >= ?"] = true := by
      simp [ReportQuery.accepted, ReportQuery.whereParams, ReportQuery.havingParams,
        buildTop_conditions, buildTop_omitted_having, buildTop_omitted_params, hp,
        Param.isFiniteNumber]
    have hlimit : (buildTopPerforming parseFloat departmentId none).limit = some 10 := by
      rw [buildTop_limit, hno]; rfl
    unfold runTopPerforming
    rw [if_pos hacc]
    refine ⟨_, rfl, ?_, ?_, ?_⟩
    · rw [List.length_map, topGroups, hlimit]
      exact List.length_take_le 10 _
    · intro r hr
      obtain ⟨g, hg, rfl⟩ := List.mem_map.1 hr
      have hg' := (applyLimit_sublist _ _).subset hg
      rw [mem_orderBy] at hg'
      obtain ⟨x, hx, hx0⟩ := topAggregated_gpa (List.mem_of_mem_filter hg')
      exact ⟨x, hx, by norm_num; exact hx0⟩
    · rw [List.pairwise_map]
      have hsorted := orderBy_sorted (fun a b : (Ident × String × String × String) × Option ℚ =>
          nullableLe b.2 a.2) (fun a b => nullableLe_total b.2 a.2)
        (fun _ _ _ hab hbc => nullableLe_trans hbc hab)
        ((topAggregated db (buildTopPerforming parseFloat departmentId none)).filter
          (fun g => (buildTopPerforming parseFloat departmentId none).havingBound.all
            (topHaving g.2)))
      have hsub : (topGroups db (buildTopPerforming parseFloat departmentId none)).Pairwise
          (fun a b => nullableLe b.2 a.2 = true) :=
        List.Pairwise.sublist (applyLimit_sublist _ _) hsorted
      refine List.Pairwise.imp_of_mem ?_ hsub
      intro a b ha hb hab
      have ha' := (applyLimit_sublist _ _).subset ha
      have hb' := (applyLimit_sublist _ _).subset hb
      rw [mem_orderBy] at ha' hb'
      obtain ⟨x, hx, -⟩ := topAggregated_gpa (List.mem_of_mem_filter ha')
      obtain ⟨y, hy, -⟩ := topAggregated_gpa (List.mem_of_mem_filter hb')
      refine ⟨x, y, hx, hy, ?_⟩
      rw [hx, hy] at hab
      simpa [nullableLe] using hab
  · intro d m
    have htail := buildTop_query_tail parseFloat d m
    rw [buildTop_limit, noSpecificDepartment_eq] at *
    refine ⟨?_, ?_, ?_⟩
    · cases h : filterActive d <;> simp
    · intro h
      rw [h] at htail
      simpa using htail
    · intro h
      rw [h] at htail
      refine ⟨by simp [h], ?_⟩
      simpa using htail

theorem top_default_at_most_ten_witness :
    ∃ rows,
      runTopPerforming calendarDb (buildTopPerforming jsParseFloat (some "ALL") none) =
          some rows ∧
        rows.length ≤ 10 ∧
        (∀ r ∈ rows, ∃ g, r.GPA = some g ∧ 0.0 ≤ g) ∧
        rows.Pairwise (fun a b => ∃ x y, a.GPA = some x ∧ b.GPA = some y ∧ y ≤ x) :=
  (top_default_at_most_ten jsParseFloat calendarDb (some "ALL") (by decide)).1

/-! ## students-on-probation -/

theorem probation_rows_of_other (E : List Enrollment) (s s' : Student)
    (hne : s'.StudentID ≠ s.StudentID) :
    ((E.filter (fun e => s'.StudentID = e.StudentID)).map (fun e => (s', e))).filter
        (fun r => probationKey r = (s.StudentID, s.FirstName, s.LastName)) = [] := by
  apply List.filter_eq_nil_iff.2
  intro r hr
  obtain ⟨e, -, rfl⟩ := List.mem_map.1 hr
  simp [probationKey, hne]

theorem probation_rows_of_self (E : List Enrollment) (s : Student) :
    ((E.filter (fun e => s.StudentID = e.StudentID)).map (fun e => (s, e))).filter
        (fun r => probationKey r = (s.StudentID, s.FirstName, s.LastName)) =
      (E.filter (fun e => s.StudentID = e.StudentID)).map (fun e => (s, e)) := by
  apply List.filter_eq_self.2
  intro r hr
  obtain ⟨e, -, rfl⟩ := List.mem_map.1 hr
  simp [probationKey]

theorem probation_rows_absent (E : List Enrollment) (s : Student) :
    ∀ (L : List Student), s.StudentID ∉ L.map (fun x => x.StudentID) →
      (L.flatMap (fun s' =>
        (E.filter (fun e => s'.StudentID = e.StudentID)).map (fun e => (s', e)))).filter
          (fun r => probationKey r = (s.StudentID, s.FirstName, s.LastName)) = []
  | [], _ => by simp
  | a :: L, h => by
    have ha : a.StudentID ≠ s.StudentID := by
      intro heq
      exact h (by simp [heq])
    have hL : s.StudentID ∉ L.map (fun x => x.StudentID) := by
      intro hmem
      exact h (by simp only [List.map_cons, List.mem_cons]; exact Or.inr hmem)
    rw [List.flatMap_cons, List.filter_append, probation_rows_of_other E s a ha,
      probation_rows_absent E s L hL]
    rfl

theorem probation_rows_of_student (E : List Enrollment) (s : Student) :
    ∀ (L : List Student), (L.map (fun x => x.StudentID)).Nodup → s ∈ L →
      (L.flatMap (fun s' =>
        (E.filter (fun e => s'.StudentID = e.StudentID)).map (fun e => (s', e)))).filter
          (fun r => probationKey r = (s.StudentID, s.FirstName, s.LastName)) =
        (E.filter (fun e => s.StudentID = e.StudentID)).map (fun e => (s, e))
  | [], _, hs => by simp at hs
  | a :: L, hnd, hs => by
    rw [List.map_cons, List.nodup_cons] at hnd
    rw [List.flatMap_cons, List.filter_append]
    rcases List.mem_cons.1 hs with rfl | hmem
    · rw [probation_rows_of_self, probation_rows_absent E s L hnd.1, List.append_nil]
    · have ha : a.StudentID ≠ s.StudentID := by
        intro heq
        apply hnd.1
        rw [heq]
        exact List.mem_map.2 ⟨s, hmem, rfl⟩
      rw [probation_rows_of_other E s a ha, probation_rows_of_student E s L hnd.2 hmem,
        List.nil_append]

theorem probation_group_of_student (db : Database)
    (hpk : (db.students.map (fun s => s.StudentID)).Nodup) {s : Student}
    (hs : s ∈ db.students) :
    (probationJoin db).filter
        (fun r => probationKey r = (s.StudentID, s.FirstName, s.LastName)) =
      (enrollmentsOf db s).map (fun e => (s, e)) :=
  probation_rows_of_student db.enrollments s db.students hpk hs

theorem groupGpa_of_enrollments (f : Option String → ℚ) (s : Student) {es : List Enrollment}
    (hne : es ≠ []) :
    groupGpa f ((es.map (fun e => (s, e))).map (fun r => r.2.Grade)) =
      some (meanGradePoint f es) := by
  rw [groupGpa_eq]
  have h : (es.map (fun e => (s, e))).map (fun r => r.2.Grade) ≠ [] := by simpa using hne
  rw [if_neg h]
  simp [meanGradePoint, List.map_map, Function.comp_def]

theorem mem_probationGroups {db : Database} {g : (Ident × String × String) × Option ℚ} :
    g ∈ probationGroups db ↔
      (∃ r ∈ probationJoin db, probationKey r = g.1) ∧
        g.2 = groupGpa gradePointProbation
          (((probationJoin db).filter (fun r => probationKey r = g.1)).map
            (fun r => r.2.Grade)) ∧
        ∃ x, g.2 = some x ∧ x < 2.0 := by
  simp only [probationGroups, mem_orderBy, List.mem_filter, List.mem_map]
  constructor
  · rintro ⟨⟨grp, hgrp, rfl⟩, hlt⟩
    obtain ⟨hex, h2⟩ := mem_groupBy.1 hgrp
    refine ⟨hex, by simp only [h2], ?_⟩
    revert hlt
    cases groupGpa gradePointProbation (grp.2.map (fun r => r.2.Grade)) with
    | none => simp
    | some x => intro hlt; exact ⟨x, rfl, by simpa using hlt⟩
  · rintro ⟨hex, h2, x, hx, hlt⟩
    refine ⟨⟨(g.1, (probationJoin db).filter (fun r => probationKey r = g.1)),
      mem_groupBy.2 ⟨hex, rfl⟩, ?_⟩, ?_⟩
    · rw [← h2]
    · rw [hx]; simpa using hlt

/-- C9. For every database state in which `StudentID` is the primary key of `Student`, the
students-on-probation report returns a student exactly when the student has at least one
enrollment and the mean of the mapped grade points over all of the student's enrollments is
strictly below 2.0; the GPA shown is that mean; every row belongs to a student, no student has
two rows, a student whose mean is exactly 2.0 has no row, and the rows are in non-decreasing GPA
order. -/
theorem probation_exactly_below_two (db : Database)
    (hpk : (db.students.map (fun s => s.StudentID)).Nodup) :
    (∀ s ∈ db.students, ∀ gpa : Option ℚ,
        ((s.StudentID, s.FirstName, s.LastName), gpa) ∈ probationGroups db ↔
          enrollmentsOf db s ≠ [] ∧
            gpa = some (meanGradePoint gradePointProbation (enrollmentsOf db s)) ∧
            meanGradePoint gradePointProbation (enrollmentsOf db s) < 2.0) ∧
      (∀ g ∈ probationGroups db,
        ∃ s ∈ db.students, g.1 = (s.StudentID, s.FirstName, s.LastName)) ∧
      ((probationGroups db).map (fun g => g.1)).Nodup ∧
      (probationGroups db).Pairwise (fun a b => ∃ x y, a.2 = some x ∧ b.2 = some y ∧ x ≤ y) ∧
      runProbation db =
        (probationGroups db).map
          (fun g => { FirstName := g.1.2.1, LastName := g.1.2.2, GPA := g.2 }) ∧
      (∀ s ∈ db.students, meanGradePoint gradePointProbation (enrollmentsOf db s) = 2.0 →
        ∀ gpa : Option ℚ, ((s.StudentID, s.FirstName, s.LastName), gpa) ∉ probationGroups db) := by
  have hmain : ∀ s ∈ db.students, ∀ gpa : Option ℚ,
      ((s.StudentID, s.FirstName, s.LastName), gpa) ∈ probationGroups db ↔
        enrollmentsOf db s ≠ [] ∧
          gpa = some (meanGradePoint gradePointProbation (enrollmentsOf db s)) ∧
          meanGradePoint gradePointProbation (enrollmentsOf db s) < 2.0 := by
    intro s hs gpa
    rw [mem_probationGroups]
    simp only [probation_group_of_student db hpk hs]
    constructor
    · rintro ⟨⟨r, hr, hk⟩, h2, x, hx, hlt⟩
      have hne : enrollmentsOf db s ≠ [] := by
        intro hnil
        have hmem : r ∈ (probationJoin db).filter
            (fun r => probationKey r = (s.StudentID, s.FirstName, s.LastName)) := by
          simp [List.mem_filter, hr, hk]
        rw [probation_group_of_student db hpk hs, hnil] at hmem
        simp at hmem
      rw [groupGpa_of_enrollments _ s hne] at h2
      refine ⟨hne, h2, ?_⟩
      rw [h2] at hx
      rw [Option.some.inj hx]
      exact hlt
    · rintro ⟨hne, hg, hlt⟩
      obtain ⟨e, he⟩ := List.exists_mem_of_ne_nil _ hne
      have hmem : (s, e) ∈ (probationJoin db).filter
          (fun r => probationKey r = (s.StudentID, s.FirstName, s.LastName)) := by
        rw [probation_group_of_student db hpk hs]
        exact List.mem_map.2 ⟨e, he, rfl⟩
      refine ⟨⟨(s, e), List.mem_of_mem_filter hmem, rfl⟩, ?_, _, hg, hlt⟩
      rw [groupGpa_of_enrollments _ s hne]
      exact hg
  refine ⟨hmain, ?_, ?_, ?_, rfl, ?_⟩
  · intro g hg
    obtain ⟨⟨r, hr, hk⟩, -⟩ := mem_probationGroups.1 hg
    simp only [probationJoin, List.mem_flatMap, List.mem_map] at hr
    obtain ⟨s, hs, e, -, rfl⟩ := hr
    exact ⟨s, hs, hk.symm⟩
  · have hperm := orderBy_perm
      (fun a b : (Ident × String × String) × Option ℚ => nullableLe a.2 b.2)
      (((groupBy probationKey (probationJoin db)).map (fun g =>
        (g.1, groupGpa gradePointProbation (g.2.map (fun r => r.2.Grade))))).filter (fun g =>
          match g.2 with
          | some gpa => decide (gpa < 2.0)
          | none => false))
    refine ((hperm.map (fun g => g.1)).nodup_iff).2 ?_
    refine List.Nodup.sublist (List.Sublist.map _ (List.filter_sublist _)) ?_
    rw [List.map_map]
    exact groupBy_keys_nodup probationKey (probationJoin db)
  · have hsorted := orderBy_sorted
      (fun a b : (Ident × String × String) × Option ℚ => nullableLe a.2 b.2)
      (fun a b => nullableLe_total a.2 b.2) (fun _ _ _ hab hbc => nullableLe_trans hab hbc)
      (((groupBy probationKey (probationJoin db)).map (fun g =>
        (g.1, groupGpa gradePointProbation (g.2.map (fun r => r.2.Grade))))).filter (fun g =>
          match g.2 with
          | some gpa => decide (gpa < 2.0)
          | none => false))
    have hsorted' : (probationGroups db).Pairwise (fun a b => nullableLe a.2 b.2 = true) :=
      hsorted
    refine List.Pairwise.imp_of_mem ?_ hsorted'
    intro a b ha hb hab
    obtain ⟨-, -, x, hx, -⟩ := mem_probationGroups.1 ha
    obtain ⟨-, -, y, hy, -⟩ := mem_probationGroups.1 hb
    refine ⟨x, y, hx, hy, ?_⟩
    rw [hx, hy] at hab
    simpa [nullableLe] using hab
  · intro s hs h2 gpa hmem
    have h := ((hmain s hs gpa).1 hmem).2.2
    rw [h2] at h
    exact lt_irrefl _ h

theorem probation_exactly_below_two_witness :
    (∀ gpa : Option ℚ, (("10", "Ann", "Lee"), gpa) ∉ probationGroups probationDb) ∧
      ((("11", "Bob", "Ray"), some 0.5) ∈ probationGroups probationDb) :=
  have h := probation_exactly_below_two probationDb (by decide)
  ⟨h.2.2.2.2.2 studentAnn (by decide) (by decide!),
    (h.1 studentBob (by decide) (some 0.5)).2 ⟨by decide, by decide!, by decide!⟩⟩

/-! ## average-gpa-per-department -/

theorem buildAverageGpa_both {gender semesterId : String}
    (hg : filterActive (some gender) = true) (hs : filterActive (some semesterId) = true) :
    buildAverageGpa (some gender) (some semesterId) =
      { query := averageGpaSelect ++ " WHERE " ++ "s.Gender = ? AND sem.SemesterID = ?" ++
          averageGpaGroupOrder,
        params := [Param.str gender, Param.str semesterId],
        conditions := ["s.Gender = ?", "sem.SemesterID = ?"] } := by
  have hjoin : String.intercalate " AND " ["s.Gender = ?", "sem.SemesterID = ?"] =
      "s.Gender = ? AND sem.SemesterID = ?" := by decide
  simp only [buildAverageGpa, pushFilter, hg, hs, if_true, List.nil_append, List.cons_append,
    appendWhere, List.length_cons, List.length_nil, gt_iff_lt, Nat.zero_lt_succ, hjoin]

theorem averageGpaSelected_both (db : Database) (gender semesterId : String) (query : String) :
    averageGpaSelected db
        { query := query, params := [Param.str gender, Param.str semesterId],
          conditions := ["s.Gender = ?", "sem.SemesterID = ?"] } =
      (averageGpaJoin db).filter (fun r =>
        decide (r.s.Gender = some gender) && decide (r.sem.SemesterID = semesterId)) := by
  unfold averageGpaSelected
  apply List.filter_congr
  intro r _
  rcases hgen : r.s.Gender with _ | x
  · simp [ReportQuery.whereBound, ReportQuery.whereParams, averageGpaWhere, sqlEqParam, hgen]
  · rw [Bool.eq_iff_iff]
    simp [ReportQuery.whereBound, ReportQuery.whereParams, averageGpaWhere, sqlEqParam, hgen]

theorem averageGpaGroup_eq (db : Database) (gender semesterId : String)
    (key : String × Int × String × Option String) :
    ((averageGpaJoin db).filter (fun r =>
        decide (r.s.Gender = some gender) && decide (r.sem.SemesterID = semesterId))).filter
        (fun r => averageGpaKey r = key) =
      averageGpaGroup db gender semesterId key := by
  rw [List.filter_filter, averageGpaGroup]
  apply List.filter_congr
  intro r _
  cases decide (r.s.Gender = some gender) <;> cases decide (r.sem.SemesterID = semesterId) <;>
    cases decide (averageGpaKey r = key) <;> rfl

/-- C10. For average-gpa-per-department called with a gender and a semester id that are both
non-empty and not `All`: the text is the fixed SELECT followed by `WHERE s.Gender = ? AND
sem.SemesterID = ?` and the fixed `GROUP BY d.DepartmentName, sem.Year, sem.Season, s.Gender`
and `ORDER BY`; the parameters are `[gender, semesterId]` in that order; the engine accepts the
statement; a row is returned exactly when the joined enrollment rows with that Gender, that
SemesterID and the row's `(DepartmentName, Year, Season, Gender)` are not empty and the row's
AverageGPA is the mean of the mapped grade points over exactly those rows; and no two rows share
a `(DepartmentName, Year, Season, Gender)`. -/
theorem average_gpa_by_gender_and_semester (db : Database) (gender semesterId : String)
    (hg : filterActive (some gender) = true) (hs : filterActive (some semesterId) = true) :
    (buildAverageGpa (some gender) (some semesterId)).query =
        averageGpaSelect ++ " WHERE " ++ "s.Gender = ? AND sem.SemesterID = ?" ++
          averageGpaGroupOrder ∧
      (∃ rest, averageGpaGroupOrder =
        "\n        GROUP BY d.DepartmentName, sem.Year, sem.Season, s.Gender\n" ++ rest) ∧
      (buildAverageGpa (some gender) (some semesterId)).params =
        [Param.str gender, Param.str semesterId] ∧
      ∃ rows,
        runAverageGpa db (buildAverageGpa (some gender) (some semesterId)) = some rows ∧
          (∀ row : AverageGpaRow, row ∈ rows ↔
            averageGpaGroup db gender semesterId
                (row.DepartmentName, row.Year, row.Season, row.Gender) ≠ [] ∧
              row.AverageGPA = some
                (((averageGpaGroup db gender semesterId
                    (row.DepartmentName, row.Year, row.Season, row.Gender)).map
                      (fun r => gradePointAverageGpa r.e.Grade)).sum /
                  ((averageGpaGroup db gender semesterId
                    (row.DepartmentName, row.Year, row.Season, row.Gender)).length : ℚ))) ∧
          (rows.map (fun row => (row.DepartmentName, row.Year, row.Season, row.Gender))).Nodup := by
  rw [buildAverageGpa_both hg hs]
  refine ⟨rfl, ⟨_, rfl⟩, rfl, ?_⟩
  have hacc : ReportQuery.accepted ["s.Gender = ?", "sem.SemesterID = ?"] []
      { query := averageGpaSelect ++ " WHERE " ++ "s.Gender = ? AND sem.SemesterID = ?" ++
          averageGpaGroupOrder,
        params := [Param.str gender, Param.str semesterId],
        conditions := ["s.Gender = ?", "sem.SemesterID = ?"] } = true := by
    simp [ReportQuery.accepted, ReportQuery.whereParams, ReportQuery.havingParams, Param.isText]
  unfold runAverageGpa
  rw [if_pos hacc, averageGpaSelected_both]
  refine ⟨_, rfl, ?_, ?_⟩
  · intro row
    rw [mem_orderBy, List.mem_map]
    constructor
    · rintro ⟨g, hgrp, rfl⟩
      obtain ⟨-, h2⟩ := mem_groupBy.1 hgrp
      have hne := groupBy_ne_nil hgrp
      rw [averageGpaGroup_eq] at h2
      simp only
      rw [← h2]
      refine ⟨hne, ?_⟩
      rw [groupGpa_eq]
      have hmap : g.2.map (fun r => r.e.Grade) ≠ [] := by simpa using hne
      rw [if_neg hmap]
      simp [List.map_map, Function.comp_def]
    · rintro ⟨hne, havg⟩
      obtain ⟨r, hr⟩ := List.exists_mem_of_ne_nil _ hne
      have hr' := hr
      rw [← averageGpaGroup_eq, List.mem_filter] at hr'
      refine ⟨((row.DepartmentName, row.Year, row.Season, row.Gender),
        averageGpaGroup db gender semesterId
          (row.DepartmentName, row.Year, row.Season, row.Gender)), ?_, ?_⟩
      · refine mem_groupBy.2 ⟨⟨r, hr'.1, by simpa using hr'.2⟩, ?_⟩
        rw [averageGpaGroup_eq]
      · rcases row with ⟨dn, y, se, ge, avg⟩
        simp only [AverageGpaRow.mk.injEq, true_and]
        simp only at havg hne
        rw [havg, groupGpa_eq]
        have hmap : (averageGpaGroup db gender semesterId (dn, y, se, ge)).map
            (fun r => r.e.Grade) ≠ [] := by simpa using hne
        rw [if_neg hmap]
        simp [List.map_map, Function.comp_def]
  · refine (((orderBy_perm averageGpaPrecedes _).map _).nodup_iff).2 ?_
    rw [List.map_map]
    exact groupBy_keys_nodup averageGpaKey _

theorem average_gpa_by_gender_and_semester_witness :
    (buildAverageGpa (some "Female") (some "4")).params = [Param.str "Female", Param.str "4"] ∧
      runAverageGpa calendarDb (buildAverageGpa (some "Female") (some "4")) =
        some [{ DepartmentName := "Computing", Year := 2024, Season := "Fall",
                Gender := some "Female", AverageGPA := some 4.0 }] :=
  ⟨(average_gpa_by_gender_and_semester calendarDb "Female" "4" (by decide) (by decide)).2.2.1,
    by decide!⟩

/-! ## Conditions, placeholders and parameters of the built queries -/

theorem pushFilter_eq (v : QueryValue) (cond : String) (arrays : List String × List Param) :
    pushFilter v cond arrays =
      if filterActive v then (arrays.1 ++ [cond], arrays.2 ++ [Param.str (v.getD "")])
      else arrays := by
  rcases v with _ | s
  · rfl
  · simp [pushFilter]

theorem activeConditions_cons (v : QueryValue) (cond : String)
    (rest : List (QueryValue × String)) :
    activeConditions ((v, cond) :: rest) =
      if filterActive v then cond :: activeConditions rest else activeConditions rest := by
  cases h : filterActive v <;> simp [activeConditions, List.filter_cons, h]

theorem activeValues_cons (v : QueryValue) (cond : String)
    (rest : List (QueryValue × String)) :
    activeValues ((v, cond) :: rest) =
      if filterActive v then Param.str (v.getD "") :: activeValues rest
      else activeValues rest := by
  rcases v with _ | s
  · simp [activeValues, List.filter_cons, filterActive]
  · cases h : filterActive (some s) <;> simp [activeValues, List.filter_cons, h]

theorem minGpa_having (pf : String → JsNumber) (d m : QueryValue) :
    (buildTopPerforming pf d m).havingConditions = minGpaConditions pf m ∧
      (buildTopPerforming pf d m).params =
        (pushFilter d "s.DepartmentID = ?" ([], [])).2 ++ minGpaParams pf m := by
  rcases m with _ | m
  · exact ⟨rfl, rfl⟩
  · by_cases hall : toLowerCase m = "all"
    · rw [buildTop_all_minGpa pf d hall]
      simp [minGpaConditions, minGpaParams, minGpaBound, hall, buildTop_omitted_having,
        buildTop_omitted_params]
    · by_cases hnan : pf m = JsNumber.nan
      · simp [minGpaConditions, minGpaParams, minGpaBound, hall, hnan,
          buildTop_nan_having pf d hnan hall, buildTop_nan_params pf d hnan hall]
      · simp [buildTopPerforming, minGpaConditions, minGpaParams, minGpaBound, hall, hnan]

theorem placeholderCount_append (a b : String) :
    placeholderCount (a ++ b) = placeholderCount a + placeholderCount b := by
  simp [placeholderCount, List.count_append]

theorem appendWhere_eq (query : String) (conditions : List String) :
    appendWhere query conditions = query ++ whereClause conditions := by
  rcases conditions with _ | ⟨c, cs⟩
  · simp [appendWhere, whereClause]
  · simp [appendWhere, whereClause, String.append_assoc]

theorem appendHaving_eq (query : String) (conditions : List String) :
    (if conditions.length > 0 then query ++ " HAVING " ++ String.intercalate " AND " conditions
      else query) = query ++ havingClause conditions := by
  rcases conditions with _ | ⟨c, cs⟩
  · simp [havingClause]
  · simp [havingClause, String.append_assoc]

theorem buildTop_query_eq (pf : String → JsNumber) (d m : QueryValue) :
    (buildTopPerforming pf d m).query =
      topPerformingSelect ++ whereClause (buildTopPerforming pf d m).conditions ++
        " GROUP BY s.StudentID, s.FirstName, s.LastName, d.DepartmentName" ++
        havingClause (buildTopPerforming pf d m).havingConditions ++
        " ORDER BY GPA DESC" ++ (if filterActive d then "" else " LIMIT 10") := by
  simp only [buildTopPerforming, appendWhere_eq, appendHaving_eq, noSpecificDepartment_eq]
  cases filterActive d <;> simp

theorem placeholderCount_texts :
    placeholderCount averageGpaSelect = 0 ∧ placeholderCount averageGpaGroupOrder = 0 ∧
      placeholderCount trendsSelect = 0 ∧ placeholderCount trendsGroupOrder = 0 ∧
      placeholderCount topPerformingSelect = 0 ∧ placeholderCount fillRateSelect = 0 ∧
      placeholderCount fillRateGroupOrder = 0 ∧ placeholderCount gradeDistributionSelect = 0 ∧
      placeholderCount gradeDistributionGroupOrder = 0 ∧ placeholderCount gpaAnalysisSelect = 0 :=
  ⟨by decide!, by decide!, by decide!, by decide!, by decide!, by decide!, by decide!,
    by decide!, by decide!, by decide!⟩

theorem averageGpa_shape (gender semesterId : QueryValue) :
    (buildAverageGpa gender semesterId).conditions =
        activeConditions [(gender, "s.Gender = ?"), (semesterId, "sem.SemesterID = ?")] ∧
      (buildAverageGpa gender semesterId).params =
        activeValues [(gender, "s.Gender = ?"), (semesterId, "sem.SemesterID = ?")] ∧
      (buildAverageGpa gender semesterId).query =
        averageGpaSelect ++ whereClause (buildAverageGpa gender semesterId).conditions ++
          averageGpaGroupOrder := by
  refine ⟨?_, ?_, ?_⟩
  · simp only [buildAverageGpa, pushFilter_eq, activeConditions_cons]
    cases filterActive gender <;> cases filterActive semesterId <;> rfl
  · simp only [buildAverageGpa, pushFilter_eq, activeValues_cons]
    cases filterActive gender <;> cases filterActive semesterId <;> rfl
  · simp only [buildAverageGpa, appendWhere_eq]

theorem trends_shape (courseCode : QueryValue) :
    (buildTrends courseCode).conditions = activeConditions [(courseCode, "c.CourseCode = ?")] ∧
      (buildTrends courseCode).params = activeValues [(courseCode, "c.CourseCode = ?")] ∧
      (buildTrends courseCode).query =
        trendsSelect ++ whereClause (buildTrends courseCode).conditions ++ trendsGroupOrder := by
  refine ⟨?_, ?_, ?_⟩
  · simp only [buildTrends, pushFilter_eq, activeConditions_cons]
    cases filterActive courseCode <;> rfl
  · simp only [buildTrends, pushFilter_eq, activeValues_cons]
    cases filterActive courseCode <;> rfl
  · simp only [buildTrends, appendWhere_eq]

theorem fillRate_shape (sectionId : QueryValue) :
    (buildFillRate sectionId).conditions = activeConditions [(sectionId, "sec.SectionID = ?")] ∧
      (buildFillRate sectionId).params = activeValues [(sectionId, "sec.SectionID = ?")] ∧
      (buildFillRate sectionId).query =
        fillRateSelect ++ whereClause (buildFillRate sectionId).conditions ++
          fillRateGroupOrder := by
  refine ⟨?_, ?_, ?_⟩
  · simp only [buildFillRate, pushFilter_eq, activeConditions_cons]
    cases filterActive sectionId <;> rfl
  · simp only [buildFillRate, pushFilter_eq, activeValues_cons]
    cases filterActive sectionId <;> rfl
  · simp only [buildFillRate, pushFilter_eq]
    cases filterActive sectionId
    · simp [whereClause]
    · have hw : whereClause ([] ++ ["sec.SectionID = ?"]) = " WHERE sec.SectionID = ?" := by
        decide
      simp only [if_true, hw]

theorem gradeDistribution_shape (courseCode semesterId facultyId : QueryValue) :
    (buildGradeDistribution courseCode semesterId facultyId).conditions =
        activeConditions [(courseCode, "c.CourseCode = ?"), (semesterId, "sem.SemesterID = ?"),
          (facultyId, "f.FacultyID = ?")] ∧
      (buildGradeDistribution courseCode semesterId facultyId).params =
        activeValues [(courseCode, "c.CourseCode = ?"), (semesterId, "sem.SemesterID = ?"),
          (facultyId, "f.FacultyID = ?")] ∧
      (buildGradeDistribution courseCode semesterId facultyId).query =
        gradeDistributionSelect ++
          whereClause (buildGradeDistribution courseCode semesterId facultyId).conditions ++
          gradeDistributionGroupOrder := by
  refine ⟨?_, ?_, ?_⟩
  · simp only [buildGradeDistribution, pushFilter_eq, activeConditions_cons]
    cases filterActive courseCode <;> cases filterActive semesterId <;>
      cases filterActive facultyId <;> rfl
  · simp only [buildGradeDistribution, pushFilter_eq, activeValues_cons]
    cases filterActive courseCode <;> cases filterActive semesterId <;>
      cases filterActive facultyId <;> rfl
  · simp only [buildGradeDistribution, appendWhere_eq]

theorem gpaAnalysis_shape (semesterId gender : QueryValue) :
    (buildGpaAnalysis semesterId gender).conditions =
        activeConditions [(semesterId, "SEM.SemesterID = ?"), (gender, "S.Gender = ?")] ∧
      (buildGpaAnalysis semesterId gender).params =
        activeValues [(semesterId, "SEM.SemesterID = ?"), (gender, "S.Gender = ?")] ∧
      (buildGpaAnalysis semesterId gender).query =
        gpaAnalysisSelect ++ andClauses (buildGpaAnalysis semesterId gender).conditions := by
  refine ⟨?_, ?_, ?_⟩
  · simp only [buildGpaAnalysis, pushFilter_eq, activeConditions_cons]
    cases filterActive semesterId <;> cases filterActive gender <;> rfl
  · simp only [buildGpaAnalysis, pushFilter_eq, activeValues_cons]
    cases filterActive semesterId <;> cases filterActive gender <;> rfl
  · simp only [buildGpaAnalysis, pushFilter_eq]
    cases filterActive semesterId <;> cases filterActive gender <;>
      simp [andClauses, String.join, String.append_assoc]

theorem topPerforming_shape (parseFloat : String → JsNumber) (departmentId minGpa : QueryValue) :
    (buildTopPerforming parseFloat departmentId minGpa).conditions =
        activeConditions [(departmentId, "s.DepartmentID = ?")] ∧
      (buildTopPerforming parseFloat departmentId minGpa).havingConditions =
        minGpaConditions parseFloat minGpa ∧
      (buildTopPerforming parseFloat departmentId minGpa).params =
        activeValues [(departmentId, "s.DepartmentID = ?")] ++ minGpaParams parseFloat minGpa ∧
      (buildTopPerforming parseFloat departmentId minGpa).query =
        topPerformingSelect ++
          whereClause (buildTopPerforming parseFloat departmentId minGpa).conditions ++
          " GROUP BY s.StudentID, s.FirstName, s.LastName, d.DepartmentName" ++
          havingClause (buildTopPerforming parseFloat departmentId minGpa).havingConditions ++
          " ORDER BY GPA DESC" ++ (if filterActive departmentId then "" else " LIMIT 10") := by
  obtain ⟨hh, hp⟩ := minGpa_having parseFloat departmentId minGpa
  have hc : (buildTopPerforming parseFloat departmentId minGpa).conditions =
      activeConditions [(departmentId, "s.DepartmentID = ?")] := by
    rw [buildTop_conditions, pushFilter_eq, activeConditions_cons]
    cases filterActive departmentId <;> rfl
  have hv : (pushFilter departmentId "s.DepartmentID = ?" ([], [])).2 =
      activeValues [(departmentId, "s.DepartmentID = ?")] := by
    rw [pushFilter_eq, activeValues_cons]
    cases filterActive departmentId <;> rfl
  exact ⟨hc, hh, by rw [hp, hv], buildTop_query_eq parseFloat departmentId minGpa⟩

/-- C11 (as stated it fails). In top-performing-students a minGpa of `abc` is present and not
`All`, yet the built query has no condition and no placeholder for it; and with no filter at all
the query still carries the condition `GPA >= ?`, bound to the default 0.0 and not to the value
of a filter. -/
theorem min_gpa_breaks_one_condition_per_filter :
    filterActive (some "abc") = true ∧
      (buildTopPerforming jsParseFloat none (some "abc")).conditions ++
          (buildTopPerforming jsParseFloat none (some "abc")).havingConditions = [] ∧
      placeholderCount (buildTopPerforming jsParseFloat none (some "abc")).query = 0 ∧
      filterActive none = false ∧
      (buildTopPerforming jsParseFloat none none).havingConditions = ["GPA >= ?"] ∧
      (buildTopPerforming jsParseFloat none none).params = [Param.num (JsNumber.finite 0.0)] :=
  ⟨by decide, by decide!, by decide!, by decide, by decide!, by decide!⟩

/-- C11 (amended). For every combination of filter values: in average-gpa-per-department,
course-performance-trends, section-fill-rate, grade-distribution and gpa-analysis-grades the
conditions are those of the active filters (non-empty and not `All`) in the order the handler
tests them, the parameters are the values of the same filters in the same order, and the text is
the fixed SELECT, the conditions joined by ` AND ` behind ` WHERE ` (behind `WHERE 1=1 AND` in
gpa-analysis-grades), and the fixed tail; in top-performing-students the `WHERE` clause is built
the same way from departmentId, the `HAVING` clause is `GPA >= ?` bound to the parsed minGpa
when minGpa is given, not `All` and numeric, bound to the default 0.0 when minGpa is absent or
`All`, and is missing when minGpa does not parse, with the `WHERE` parameter before the `HAVING`
parameter; and in all six the number of `?` in the text is the length of the parameter list. -/
theorem conditions_match_parameters (parseFloat : String → JsNumber)
    (gender semesterId courseCode departmentId facultyId sectionId minGpa : QueryValue) :
    ((buildAverageGpa gender semesterId).conditions =
          activeConditions [(gender, "s.Gender = ?"), (semesterId, "sem.SemesterID = ?")] ∧
        (buildAverageGpa gender semesterId).params =
          activeValues [(gender, "s.Gender = ?"), (semesterId, "sem.SemesterID = ?")] ∧
        (buildAverageGpa gender semesterId).query =
          averageGpaSelect ++ whereClause (buildAverageGpa gender semesterId).conditions ++
            averageGpaGroupOrder ∧
        placeholderCount (buildAverageGpa gender semesterId).query =
          (buildAverageGpa gender semesterId).params.length) ∧
      ((buildTrends courseCode).conditions = activeConditions [(courseCode, "c.CourseCode = ?")] ∧
        (buildTrends courseCode).params = activeValues [(courseCode, "c.CourseCode = ?")] ∧
        (buildTrends courseCode).query =
          trendsSelect ++ whereClause (buildTrends courseCode).conditions ++ trendsGroupOrder ∧
        placeholderCount (buildTrends courseCode).query =
          (buildTrends courseCode).params.length) ∧
      ((buildFillRate sectionId).conditions =
          activeConditions [(sectionId, "sec.SectionID = ?")] ∧
        (buildFillRate sectionId).params = activeValues [(sectionId, "sec.SectionID = ?")] ∧
        (buildFillRate sectionId).query =
          fillRateSelect ++ whereClause (buildFillRate sectionId).conditions ++
            fillRateGroupOrder ∧
        placeholderCount (buildFillRate sectionId).query =
          (buildFillRate sectionId).params.length) ∧
      ((buildGradeDistribution courseCode semesterId facultyId).conditions =
          activeConditions [(courseCode, "c.CourseCode = ?"), (semesterId, "sem.SemesterID = ?"),
            (facultyId, "f.FacultyID = ?")] ∧
        (buildGradeDistribution courseCode semesterId facultyId).params =
          activeValues [(courseCode, "c.CourseCode = ?"), (semesterId, "sem.SemesterID = ?"),
            (facultyId, "f.FacultyID = ?")] ∧
        (buildGradeDistribution courseCode semesterId facultyId).query =
          gradeDistributionSelect ++
            whereClause (buildGradeDistribution courseCode semesterId facultyId).conditions ++
            gradeDistributionGroupOrder ∧
        placeholderCount (buildGradeDistribution courseCode semesterId facultyId).query =
          (buildGradeDistribution courseCode semesterId facultyId).params.length) ∧
      ((buildGpaAnalysis semesterId gender).conditions =
          activeConditions [(semesterId, "SEM.SemesterID = ?"), (gender, "S.Gender = ?")] ∧
        (buildGpaAnalysis semesterId gender).params =
          activeValues [(semesterId, "SEM.SemesterID = ?"), (gender, "S.Gender = ?")] ∧
        (buildGpaAnalysis semesterId gender).query =
          gpaAnalysisSelect ++ andClauses (buildGpaAnalysis semesterId gender).conditions ∧
        placeholderCount (buildGpaAnalysis semesterId gender).query =
          (buildGpaAnalysis semesterId gender).params.length) ∧
      ((buildTopPerforming parseFloat departmentId minGpa).conditions =
          activeConditions [(departmentId, "s.DepartmentID = ?")] ∧
        (buildTopPerforming parseFloat departmentId minGpa).havingConditions =
          minGpaConditions parseFloat minGpa ∧
        (buildTopPerforming parseFloat departmentId minGpa).params =
          activeValues [(departmentId, "s.DepartmentID = ?")] ++
            minGpaParams parseFloat minGpa ∧
        (buildTopPerforming parseFloat departmentId minGpa).query =
          topPerformingSelect ++
            whereClause (buildTopPerforming parseFloat departmentId minGpa).conditions ++
            " GROUP BY s.StudentID, s.FirstName, s.LastName, d.DepartmentName" ++
            havingClause (buildTopPerforming parseFloat departmentId minGpa).havingConditions ++
            " ORDER BY GPA DESC" ++
            (if filterActive departmentId then "" else " LIMIT 10") ∧
        placeholderCount (buildTopPerforming parseFloat departmentId minGpa).query =
          (buildTopPerforming parseFloat departmentId minGpa).params.length) := by
  obtain ⟨h1, h2, h3, h4, h5, h6, h7, h8, h9, h10⟩ := placeholderCount_texts
  refine ⟨?_, ?_, ?_, ?_, ?_, ?_⟩
  · obtain ⟨hc, hp, hq⟩ := averageGpa_shape gender semesterId
    refine ⟨hc, hp, hq, ?_⟩
    rw [hq, hc, hp, placeholderCount_append, placeholderCount_append, h1, h2]
    simp only [activeConditions_cons, activeValues_cons]
    cases filterActive gender <;> cases filterActive semesterId <;>
      (simp only [Bool.false_eq_true, if_false, if_true, List.length_cons]; decide)
  · obtain ⟨hc, hp, hq⟩ := trends_shape courseCode
    refine ⟨hc, hp, hq, ?_⟩
    rw [hq, hc, hp, placeholderCount_append, placeholderCount_append, h3, h4]
    simp only [activeConditions_cons, activeValues_cons]
    cases filterActive courseCode <;>
      (simp only [Bool.false_eq_true, if_false, if_true, List.length_cons]; decide)
  · obtain ⟨hc, hp, hq⟩ := fillRate_shape sectionId
    refine ⟨hc, hp, hq, ?_⟩
    rw [hq, hc, hp, placeholderCount_append, placeholderCount_append, h6, h7]
    simp only [activeConditions_cons, activeValues_cons]
    cases filterActive sectionId <;>
      (simp only [Bool.false_eq_true, if_false, if_true, List.length_cons]; decide)
  · obtain ⟨hc, hp, hq⟩ := gradeDistribution_shape courseCode semesterId facultyId
    refine ⟨hc, hp, hq, ?_⟩
    rw [hq, hc, hp, placeholderCount_append, placeholderCount_append, h8, h9]
    simp only [activeConditions_cons, activeValues_cons]
    cases filterActive courseCode <;> cases filterActive semesterId <;>
      cases filterActive facultyId <;>
      (simp only [Bool.false_eq_true, if_false, if_true, List.length_cons]; decide)
  · obtain ⟨hc, hp, hq⟩ := gpaAnalysis_shape semesterId gender
    refine ⟨hc, hp, hq, ?_⟩
    rw [hq, hc, hp, placeholderCount_append, h10]
    simp only [activeConditions_cons, activeValues_cons]
    cases filterActive semesterId <;> cases filterActive gender <;>
      (simp only [Bool.false_eq_true, if_false, if_true, List.length_cons]; decide)
  · obtain ⟨hc, hh, hp, hq⟩ := topPerforming_shape parseFloat departmentId minGpa
    refine ⟨hc, hh, hp, hq, ?_⟩
    rw [hq, hp, hh, hc]
    simp only [placeholderCount_append, h5, activeConditions_cons, activeValues_cons,
      minGpaConditions, minGpaParams]
    cases filterActive departmentId <;> cases minGpaBound parseFloat minGpa <;>
      (simp only [Bool.false_eq_true, if_false, if_true, List.length_cons, List.length_append];
       decide)

/-- C12 (as stated it fails). Two requests to top-performing-students that carry only minGpa,
one with `abc` and one with `3.5`, agree on which declared filters are present and not `All`,
and yet their SQL texts differ: the first has no `HAVING` clause, the second has `HAVING GPA >=
?`. -/
theorem min_gpa_value_changes_text :
    filterActive (singleKeyQuery "minGpa" "abc" "departmentId") =
        filterActive (singleKeyQuery "minGpa" "3.5" "departmentId") ∧
      filterActive (singleKeyQuery "minGpa" "abc" "minGpa") = true ∧
      filterActive (singleKeyQuery "minGpa" "3.5" "minGpa") = true ∧
      (handleTopPerforming jsParseFloat (singleKeyQuery "minGpa" "abc")).query ≠
        (handleTopPerforming jsParseFloat (singleKeyQuery "minGpa" "3.5")).query :=
  ⟨by decide, by decide, by decide, by decide!⟩

/-- C12 (amended). The SQL text built by each report endpoint depends only on which of the
filters the endpoint reads are active (non-empty and not `All`) and, in
top-performing-students, on whether minGpa yields a `HAVING` condition (it does unless minGpa is
given, is not `All` and does not parse as a number): two requests that agree on this produce the
same text, whatever the filter values and whatever other keys the requests carry. -/
theorem text_depends_on_active_filters (parseFloat : String → JsNumber) (r₁ r₂ : Query) :
    (filterActive (r₁ "gender") = filterActive (r₂ "gender") →
        filterActive (r₁ "semesterId") = filterActive (r₂ "semesterId") →
        (handleAverageGpa r₁).query = (handleAverageGpa r₂).query ∧
          (handleGpaAnalysis r₁).query = (handleGpaAnalysis r₂).query) ∧
      (filterActive (r₁ "courseCode") = filterActive (r₂ "courseCode") →
        (handleTrends r₁).query = (handleTrends r₂).query) ∧
      (filterActive (r₁ "sectionId") = filterActive (r₂ "sectionId") →
        (handleFillRate r₁).query = (handleFillRate r₂).query) ∧
      (filterActive (r₁ "courseCode") = filterActive (r₂ "courseCode") →
        filterActive (r₁ "semesterId") = filterActive (r₂ "semesterId") →
        filterActive (r₁ "facultyId") = filterActive (r₂ "facultyId") →
        (handleGradeDistribution r₁).query = (handleGradeDistribution r₂).query) ∧
      (filterActive (r₁ "departmentId") = filterActive (r₂ "departmentId") →
        (minGpaBound parseFloat (r₁ "minGpa")).isSome =
          (minGpaBound parseFloat (r₂ "minGpa")).isSome →
        (handleTopPerforming parseFloat r₁).query =
          (handleTopPerforming parseFloat r₂).query) := by
  refine ⟨?_, ?_, ?_, ?_, ?_⟩
  · intro hg hs
    constructor
    · simp only [handleAverageGpa]
      rw [(averageGpa_shape _ _).2.2, (averageGpa_shape _ _).2.2, (averageGpa_shape _ _).1,
        (averageGpa_shape _ _).1]
      simp only [activeConditions_cons, hg, hs]
    · simp only [handleGpaAnalysis]
      rw [(gpaAnalysis_shape _ _).2.2, (gpaAnalysis_shape _ _).2.2, (gpaAnalysis_shape _ _).1,
        (gpaAnalysis_shape _ _).1]
      simp only [activeConditions_cons, hg, hs]
  · intro hc
    simp only [handleTrends]
    rw [(trends_shape _).2.2, (trends_shape _).2.2, (trends_shape _).1, (trends_shape _).1]
    simp only [activeConditions_cons, hc]
  · intro hc
    simp only [handleFillRate]
    rw [(fillRate_shape _).2.2, (fillRate_shape _).2.2, (fillRate_shape _).1,
      (fillRate_shape _).1]
    simp only [activeConditions_cons, hc]
  · intro hc hs hf
    simp only [handleGradeDistribution]
    rw [(gradeDistribution_shape _ _ _).2.2, (gradeDistribution_shape _ _ _).2.2,
      (gradeDistribution_shape _ _ _).1, (gradeDistribution_shape _ _ _).1]
    simp only [activeConditions_cons, hc, hs, hf]
  · intro hd hm
    simp only [handleTopPerforming]
    rw [(topPerforming_shape _ _ _).2.2.2, (topPerforming_shape _ _ _).2.2.2,
      (topPerforming_shape _ _ _).1, (topPerforming_shape _ _ _).1,
      (topPerforming_shape _ _ _).2.1, (topPerforming_shape _ _ _).2.1]
    have hcond : minGpaConditions parseFloat (r₁ "minGpa") =
        minGpaConditions parseFloat (r₂ "minGpa") := by
      unfold minGpaConditions
      revert hm
      cases minGpaBound parseFloat (r₁ "minGpa") <;>
        cases minGpaBound parseFloat (r₂ "minGpa") <;> simp
    simp only [activeConditions_cons, hd, hcond]

theorem text_depends_on_active_filters_witness :
    (handleTrends (singleKeyQuery "courseCode" "CSC302")).query =
        (handleTrends (singleKeyQuery "courseCode" "MTH101")).query ∧
      (handleTopPerforming jsParseFloat (singleKeyQuery "minGpa" "3.5")).query =
        (handleTopPerforming jsParseFloat emptyQuery).query :=
  have h := text_depends_on_active_filters jsParseFloat (singleKeyQuery "courseCode" "CSC302")
    (singleKeyQuery "courseCode" "MTH101")
  have h' := text_depends_on_active_filters jsParseFloat (singleKeyQuery "minGpa" "3.5")
    emptyQuery
  ⟨h.2.1 (by decide), h'.2.2.2.2 (by decide) (by decide!)⟩

/-! ## Every group of a GPA report holds an enrollment -/

theorem mem_topJoin {db : Database} {r : TopJoinRow} :
    r ∈ topJoin db ↔
      r.s ∈ db.students ∧ r.e ∈ db.enrollments ∧ r.s.StudentID = r.e.StudentID ∧
        r.d ∈ db.departments ∧ r.s.DepartmentID = some r.d.DepartmentID := by
  simp only [topJoin, List.mem_flatMap, List.mem_map, List.mem_filter, decide_eq_true_eq]
  constructor
  · rintro ⟨s, hs, e, ⟨he, hse⟩, d, ⟨hd, hsd⟩, rfl⟩
    exact ⟨hs, he, hse, hd, hsd⟩
  · rintro ⟨hs, he, hse, hd, hsd⟩
    exact ⟨r.s, hs, r.e, ⟨he, hse⟩, r.d, ⟨hd, hsd⟩, rfl⟩

theorem mem_probationJoin {db : Database} {r : Student × Enrollment} :
    r ∈ probationJoin db ↔
      r.1 ∈ db.students ∧ r.2 ∈ db.enrollments ∧ r.1.StudentID = r.2.StudentID := by
  simp only [probationJoin, List.mem_flatMap, List.mem_map, List.mem_filter, decide_eq_true_eq]
  constructor
  · rintro ⟨s, hs, e, ⟨he, hse⟩, rfl⟩
    exact ⟨hs, he, hse⟩
  · rintro ⟨hs, he, hse⟩
    exact ⟨r.1, hs, r.2, ⟨he, hse⟩, rfl⟩

theorem mem_averageGpaJoin {db : Database} {r : GpaJoinRow} :
    r ∈ averageGpaJoin db ↔
      r.e ∈ db.enrollments ∧ r.s ∈ db.students ∧ r.e.StudentID = r.s.StudentID ∧
        r.sec ∈ db.sections ∧ r.e.SectionID = r.sec.SectionID ∧
        r.sem ∈ db.semesters ∧ r.sec.SemesterID = r.sem.SemesterID ∧
        r.d ∈ db.departments ∧ r.s.DepartmentID = some r.d.DepartmentID := by
  simp only [averageGpaJoin, List.mem_flatMap, List.mem_map, List.mem_filter,
    decide_eq_true_eq]
  constructor
  · rintro ⟨e, he, s, ⟨hs, hes⟩, sec, ⟨hsec, hesec⟩, sem, ⟨hsem, hss⟩, d, ⟨hd, hsd⟩, rfl⟩
    exact ⟨he, hs, hes, hsec, hesec, hsem, hss, hd, hsd⟩
  · rintro ⟨he, hs, hes, hsec, hesec, hsem, hss, hd, hsd⟩
    exact ⟨r.e, he, r.s, ⟨hs, hes⟩, r.sec, ⟨hsec, hesec⟩, r.sem, ⟨hsem, hss⟩, r.d, ⟨hd, hsd⟩,
      rfl⟩

theorem mem_trendsJoin {db : Database} {r : TrendJoinRow} :
    r ∈ trendsJoin db ↔
      r.e ∈ db.enrollments ∧ r.sec ∈ db.sections ∧ r.e.SectionID = r.sec.SectionID ∧
        r.sem ∈ db.semesters ∧ r.sec.SemesterID = r.sem.SemesterID ∧
        r.c ∈ db.courses ∧ r.sec.CourseCode = r.c.CourseCode := by
  simp only [trendsJoin, List.mem_flatMap, List.mem_map, List.mem_filter, decide_eq_true_eq]
  constructor
  · rintro ⟨e, he, sec, ⟨hsec, hesec⟩, sem, ⟨hsem, hss⟩, c, ⟨hc, hsc⟩, rfl⟩
    exact ⟨he, hsec, hesec, hsem, hss, hc, hsc⟩
  · rintro ⟨he, hsec, hesec, hsem, hss, hc, hsc⟩
    exact ⟨r.e, he, r.sec, ⟨hsec, hesec⟩, r.sem, ⟨hsem, hss⟩, r.c, ⟨hc, hsc⟩, rfl⟩

theorem groupGpa_some_of_ne_nil (f : Option String → ℚ) {grades : List (Option String)}
    (h : grades ≠ []) : ∃ x, groupGpa f grades = some x := by
  rw [groupGpa_eq, if_neg h]
  exact ⟨_, rfl⟩

theorem topGroups_origin {db : Database} {q : ReportQuery}
    {g : (Ident × String × String × String) × Option ℚ} (hg : g ∈ topGroups db q) :
    (∃ x, g.2 = some x) ∧ ∃ r ∈ topJoin db, topKey r = g.1 := by
  have h1 := (applyLimit_sublist _ _).subset hg
  rw [mem_orderBy] at h1
  have h2 := List.mem_of_mem_filter h1
  obtain ⟨x, hx, -⟩ := topAggregated_gpa h2
  refine ⟨⟨x, hx⟩, ?_⟩
  simp only [topAggregated, List.mem_map] at h2
  obtain ⟨grp, hgrp, rfl⟩ := h2
  obtain ⟨⟨r, hr, hk⟩, -⟩ := mem_groupBy.1 hgrp
  exact ⟨r, List.mem_of_mem_filter hr, hk⟩

theorem probationGroups_origin {db : Database} {g : (Ident × String × String) × Option ℚ}
    (hg : g ∈ probationGroups db) :
    (∃ x, g.2 = some x) ∧ ∃ r ∈ probationJoin db, probationKey r = g.1 := by
  obtain ⟨hex, -, x, hx, -⟩ := mem_probationGroups.1 hg
  exact ⟨⟨x, hx⟩, hex⟩

/-- C14. Every row of a GPA report comes from a group that holds at least one enrollment row,
and its mean is a number (never `NULL`, no division by zero): in top-performing-students and
students-on-probation the group's key is that of a student joined with one of the student's
enrollments; in average-gpa-per-department the row's key is that of an enrollment joined with
its student and the student's department; in course-performance-trends it is that of an
enrollment joined with its section and the section's course. A student without enrollments has
no row in top-performing-students nor in students-on-probation. -/
theorem gpa_rows_have_enrollments (db : Database) (q : ReportQuery) :
    (∀ g ∈ topGroups db q,
        (∃ x, g.2 = some x) ∧
          ∃ r ∈ topJoin db, topKey r = g.1 ∧ r.s ∈ db.students ∧ r.e ∈ db.enrollments ∧
            r.s.StudentID = r.e.StudentID) ∧
      (∀ g ∈ probationGroups db,
        (∃ x, g.2 = some x) ∧
          ∃ r ∈ probationJoin db, probationKey r = g.1 ∧ r.1 ∈ db.students ∧
            r.2 ∈ db.enrollments ∧ r.1.StudentID = r.2.StudentID) ∧
      (∀ rows, runAverageGpa db q = some rows → ∀ row ∈ rows,
        (∃ x, row.AverageGPA = some x) ∧
          ∃ r ∈ averageGpaJoin db,
            averageGpaKey r = (row.DepartmentName, row.Year, row.Season, row.Gender) ∧
              r.e ∈ db.enrollments ∧ r.s ∈ db.students ∧ r.e.StudentID = r.s.StudentID ∧
              r.d ∈ db.departments ∧ r.s.DepartmentID = some r.d.DepartmentID) ∧
      (∀ rows, runTrends db q = some rows → ∀ row ∈ rows,
        (∃ x, row.AverageGrade = some x) ∧
          ∃ r ∈ trendsJoin db,
            trendsKey r = (row.Year, row.Season, row.Title) ∧
              r.e ∈ db.enrollments ∧ r.sec ∈ db.sections ∧ r.e.SectionID = r.sec.SectionID ∧
              r.c ∈ db.courses ∧ r.sec.CourseCode = r.c.CourseCode) ∧
      (∀ s : Student, enrollmentsOf db s = [] →
        (∀ g ∈ topGroups db q, g.1.1 ≠ s.StudentID) ∧
          (∀ g ∈ probationGroups db, g.1.1 ≠ s.StudentID)) := by
  refine ⟨?_, ?_, ?_, ?_, ?_⟩
  · intro g hg
    obtain ⟨hx, r, hr, hk⟩ := topGroups_origin hg
    obtain ⟨hs, he, hse, -, -⟩ := mem_topJoin.1 hr
    exact ⟨hx, r, hr, hk, hs, he, hse⟩
  · intro g hg
    obtain ⟨hx, r, hr, hk⟩ := probationGroups_origin hg
    obtain ⟨hs, he, hse⟩ := mem_probationJoin.1 hr
    exact ⟨hx, r, hr, hk, hs, he, hse⟩
  · intro rows hrows row hrow
    unfold runAverageGpa at hrows
    split at hrows
    · rw [← Option.some.inj hrows, mem_orderBy, List.mem_map] at hrow
      obtain ⟨grp, hgrp, rfl⟩ := hrow
      obtain ⟨⟨r, hr, hk⟩, -⟩ := mem_groupBy.1 hgrp
      have hne : grp.2.map (fun r => r.e.Grade) ≠ [] := by
        simpa using groupBy_ne_nil hgrp
      have hr' : r ∈ averageGpaJoin db := List.mem_of_mem_filter hr
      obtain ⟨he, hs, hes, -, -, -, -, hd, hsd⟩ := mem_averageGpaJoin.1 hr'
      exact ⟨groupGpa_some_of_ne_nil _ hne, r, hr', hk, he, hs, hes, hd, hsd⟩
    · exact absurd hrows (by simp)
  · intro rows hrows row hrow
    unfold runTrends at hrows
    split at hrows
    · rw [← Option.some.inj hrows, mem_orderBy, List.mem_map] at hrow
      obtain ⟨grp, hgrp, rfl⟩ := hrow
      obtain ⟨⟨r, hr, hk⟩, -⟩ := mem_groupBy.1 hgrp
      have hne : grp.2.map (fun r => r.e.Grade) ≠ [] := by
        simpa using groupBy_ne_nil hgrp
      have hr' : r ∈ trendsJoin db := List.mem_of_mem_filter hr
      obtain ⟨he, hsec, hesec, -, -, hc, hsc⟩ := mem_trendsJoin.1 hr'
      exact ⟨groupGpa_some_of_ne_nil _ hne, r, hr', hk, he, hsec, hesec, hc, hsc⟩
    · exact absurd hrows (by simp)
  · intro s hnone
    have hno : ∀ e ∈ db.enrollments, s.StudentID ≠ e.StudentID := by
      intro e he heq
      have : e ∈ enrollmentsOf db s := by
        simp [enrollmentsOf, List.mem_filter, he, heq]
      rw [hnone] at this
      simp at this
    constructor
    · intro g hg heq
      obtain ⟨-, r, hr, hk⟩ := topGroups_origin hg
      obtain ⟨-, he, hse, -, -⟩ := mem_topJoin.1 hr
      apply hno r.e he
      rw [← hse, ← heq, ← hk]
      rfl
    · intro g hg heq
      obtain ⟨-, r, hr, hk⟩ := probationGroups_origin hg
      obtain ⟨-, he, hse⟩ := mem_probationJoin.1 hr
      apply hno r.2 he
      rw [← hse, ← heq, ← hk]
      rfl

theorem gpa_rows_have_enrollments_witness :
    (∀ g ∈ topGroups probationDb (buildTopPerforming jsParseFloat none none), g.1.1 ≠ "13") ∧
      (∀ g ∈ probationGroups probationDb, g.1.1 ≠ "13") :=
  (gpa_rows_have_enrollments probationDb (buildTopPerforming jsParseFloat none none)).2.2.2.2
    { StudentID := "13", FirstName := "Dee", LastName := "Orr", Gender := some "Female",
      DepartmentID := some "1" } (by decide)

/-! ## The reports dashboard -/

theorem rowObject_foldl {α : Type} :
    ∀ (columns : List String) (values : List α) (obj : List (String × α)),
      columns.Nodup → (∀ c ∈ columns, ∀ kv ∈ obj, kv.1 ≠ c) →
        (columns.zip values).foldl (fun obj kv => setProperty obj kv.1 kv.2) obj =
          obj ++ columns.zip values
  | [], _, obj, _, _ => by simp
  | _ :: _, [], obj, _, _ => by simp
  | c :: cs, v :: vs, obj, hnd, hfresh => by
    rw [List.nodup_cons] at hnd
    have hnew : setProperty obj c v = obj ++ [(c, v)] := by
      unfold setProperty
      rw [if_neg]
      simp only [List.any_eq_true, decide_eq_true_eq, not_exists, not_and]
      intro kv hkv
      exact hfresh c (List.mem_cons_self c cs) kv hkv
    rw [List.zip_cons_cons, List.foldl_cons, hnew,
      rowObject_foldl cs vs (obj ++ [(c, v)]) hnd.2]
    · simp
    · intro c' hc' kv hkv
      rcases List.mem_append.1 hkv with h | h
      · exact hfresh c' (List.mem_cons_of_mem c hc') kv h
      · simp only [List.mem_singleton] at h
        rw [h]
        intro heq
        have heq' : c = c' := heq
        exact hnd.1 (heq' ▸ hc')

theorem objectValues_rowObject {α : Type} (columns : List String) (values : List α)
    (hnd : columns.Nodup) (hlen : values.length = columns.length) :
    objectValues (rowObject columns values) = values := by
  unfold rowObject objectValues
  rw [rowObject_foldl columns values [] hnd (by simp), List.nil_append]
  exact List.map_snd_zip _ _ (le_of_eq hlen)

/-- C13. For each report of `reportsMetadata`, the header list is as long as the SELECT list of
the endpoint named in `func`, the selected columns have distinct names, so that the row object
holds one value per column in the order of the SELECT list and `Object.values(row)` returns
them in that order; the table therefore puts the value of the i-th column under the i-th header,
and the pairs of header and column are those listed. -/
theorem headers_match_select_columns {α : Type} (r : ReportInfo) (values : List α)
    (hr : r ∈ reportsMetadata) (hlen : values.length = (selectColumns r.func).length) :
    r.headers.length = (selectColumns r.func).length ∧
      (selectColumns r.func).Nodup ∧
      objectValues (rowObject (selectColumns r.func) values) = values ∧
      showReportTable [rowObject (selectColumns r.func) values] r.headers =
        (r.headers, [values]) ∧
      (r.headers.zip (objectValues (rowObject (selectColumns r.func) values))).length =
        r.headers.length ∧
      reportsMetadata.map (fun r => r.headers.zip (selectColumns r.func)) =
        [[("Department", "DepartmentName"), ("Student Count", "EnrollmentCount")],
         [("Department", "DepartmentName"), ("Year", "Year"), ("Season", "Season"),
          ("Gender", "Gender"), ("Average GPA", "AverageGPA")],
         [("Faculty Name", "FullName"), ("Course Count", "CourseCount")],
         [("Course Title", "Title"), ("Enrollment Count", "EnrollmentCount")],
         [("Classroom", "RoomNumber"), ("Capacity", "Capacity"),
          ("Total Enrollment", "TotalEnrollment"), ("Over Capacity", "OverCapacity")],
         [("First Name", "FirstName"), ("Last Name", "LastName"), ("GPA", "GPA")],
         [("Year", "Year"), ("Season", "Season"), ("Course Title", "Title"),
          ("Average Grade", "AverageGrade")],
         [("Student First Name", "FirstName"), ("Student Last Name", "LastName"),
          ("Section 1 ID", "Section1ID"), ("Section 2 ID", "Section2ID")],
         [("First Name", "FirstName"), ("Last Name", "LastName"), ("GPA", "GPA"),
          ("Department", "DepartmentName")],
         [("First Name", "FirstName"), ("Last Name", "LastName"), ("Student ID", "StudentID")],
         [("Section ID", "SectionID"), ("Course Title", "CourseTitle"),
          ("Enrolled Students", "EnrolledStudents"), ("Capacity", "Capacity"),
          ("Fill Rate (%)", "FillRate")],
         [("Semester Year", "Year"), ("Semester Season", "Season"),
          ("Instructor", "InstructorName"), ("Grade", "Grade"), ("Count", "GradeCount")]] := by
  have hall : ∀ r ∈ reportsMetadata,
      r.headers.length = (selectColumns r.func).length ∧ (selectColumns r.func).Nodup := by
    decide
  obtain ⟨h1, h2⟩ := hall r hr
  have h3 := objectValues_rowObject (selectColumns r.func) values h2 hlen
  refine ⟨h1, h2, h3, ?_, ?_, by decide⟩
  · simp only [showReportTable, List.map_cons, List.map_nil, h3]
  · rw [h3, List.length_zip, hlen, h1, min_self]

theorem headers_match_select_columns_witness :
    showReportTable
        [rowObject (selectColumns "/reports/students-on-probation") ["Bob", "Ray", "0.5"]]
        ["First Name", "Last Name", "GPA"] =
      (["First Name", "Last Name", "GPA"], [["Bob", "Ray", "0.5"]]) :=
  (headers_match_select_columns
    { name := "Academic Probation List", func := "/reports/students-on-probation",
      headers := ["First Name", "Last Name", "GPA"], graphType := some "bar",
      plotIndices := some ([0, 1], 2), filters := [] }
    ["Bob", "Ray", "0.5"] (by decide) (by decide)).2.2.2.1

/-- C18 (the code departs from the claim). Of the filters declared in `reportsMetadata` only
`gender` is a key its endpoint reads: `semester_id`, `course_code`, `department_id`, `min_gpa`,
`section_id` and `faculty_id` are sent under these names while the endpoints read `semesterId`,
`courseCode`, `departmentId`, `minGpa`, `sectionId` and `facultyId`. With the course `CSC302`
selected in Course Performance Trend the dashboard sends `course_code=CSC302`, and the endpoint
builds the query of a request without filter: no condition, no parameter. -/
theorem dashboard_filter_keys_not_read :
    reportsMetadata.flatMap (fun r =>
        (r.filters.filter (fun f => decide (f ∉ endpointKeys r.func))).map
          (fun f => (r.func, f))) =
      [("/reports/average-gpa-per-department", "semester_id"),
       ("/reports/course-performance-trends", "course_code"),
       ("/reports/top-performing-students", "department_id"),
       ("/reports/top-performing-students", "min_gpa"),
       ("/reports/section-fill-rate", "section_id"),
       ("/reports/grade-distribution", "course_code"),
       ("/reports/grade-distribution", "semester_id"),
       ("/reports/grade-distribution", "faculty_id")] ∧
      displayReportParams (fun _ => none) [("course_code", "CSC302")] =
        [("course_code", "CSC302")] ∧
      handleTrends (queryOf [("course_code", "CSC302")]) = handleTrends emptyQuery ∧
      (handleTrends (queryOf [("course_code", "CSC302")])).conditions = [] ∧
      (handleTrends (queryOf [("course_code", "CSC302")])).params = [] ∧
      (handleTrends (queryOf [("courseCode", "CSC302")])).params = [Param.str "CSC302"] :=
  ⟨by decide, by decide, by rfl, by rfl, by rfl, by rfl⟩

/-! ## The grade chart of the student dashboard -/

theorem gradeStep_foldl (grades : List (Option String)) (totals : ℚ × Nat) :
    grades.foldl gradeStep totals =
      (totals.1 + (grades.filterMap clientGradePoint).sum,
        totals.2 + (grades.filterMap clientGradePoint).length) := by
  induction grades generalizing totals with
  | nil => simp
  | cons g gs ih =>
    rw [List.foldl_cons, ih]
    unfold gradeStep
    rcases h : clientGradePoint g with _ | p
    · simp [List.filterMap_cons, h]
    · simp only [List.filterMap_cons, h, List.sum_cons, List.length_cons]
      ext
      · simp only; ring
      · simp only; omega

theorem overallGpa_eq (grades : List (Option String)) :
    overallGpa grades =
      if grades.filterMap clientGradePoint = [] then none
      else some ((grades.filterMap clientGradePoint).sum /
        ((grades.filterMap clientGradePoint).length : ℚ)) := by
  unfold overallGpa
  simp only [gradeStep_foldl, zero_add]
  by_cases h : grades.filterMap clientGradePoint = []
  · simp [h]
  · have hl : 0 < (grades.filterMap clientGradePoint).length := List.length_pos.2 h
    simp [h, hl]

theorem clientGradePoint_of_letter {g : String}
    (hg : g ∈ clientGradePointMap.map (fun p => p.1)) :
    clientGradePoint (some g) = some (gradePointProbation (some g)) := by
  simp only [clientGradePointMap, List.map_cons, List.map_nil, List.mem_cons,
    List.mem_singleton, List.not_mem_nil, or_false] at hg
  rcases hg with rfl | rfl | rfl | rfl | rfl | rfl | rfl | rfl | rfl | rfl | rfl | rfl <;>
    decide!

/-- C19 (as stated it fails). For the grades `A` and `Ungraded` the student dashboard computes
an Overall GPA of 4.0, the server's reports 2.0: the dashboard leaves the ungraded enrollment out
of the count. For the single grade `a` the dashboard computes 4.0, the server 0.0; for a single
`Ungraded` the dashboard shows `N/A`, the server 0.0. -/
theorem client_gpa_skips_ungraded :
    overallGpa [some "A", some "Ungraded"] = some 4.0 ∧
      groupGpa gradePointProbation [some "A", some "Ungraded"] = some 2.0 ∧
      overallGpa [some "a"] = some 4.0 ∧
      groupGpa gradePointProbation [some "a"] = some 0.0 ∧
      overallGpa [some "Ungraded"] = none ∧
      groupGpa gradePointProbation [some "Ungraded"] = some 0.0 :=
  ⟨by decide!, by decide!, by decide!, by decide!, by decide!, by decide!⟩

/-- C19 (amended). For every list of a student's enrollment grades, the Overall GPA of the
student dashboard, before it is formatted to two decimals, is the mean of the grade points of
`gradePointMap` over the enrollments whose grade, trimmed and put in upper case, is one of its
twelve letters; enrollments that are ungraded, empty, missing or unrecognized are left out of the
sum and of the count, and the result is `N/A` when none is left. When the list is not empty and
every grade is one of the twelve letters, it is the value the server's GPA reports compute. -/
theorem client_gpa_is_mean_of_graded (grades : List (Option String)) :
    overallGpa grades =
        (if grades.filterMap clientGradePoint = [] then none
          else some ((grades.filterMap clientGradePoint).sum /
            ((grades.filterMap clientGradePoint).length : ℚ))) ∧
      (∀ g : Option String, clientGradePoint g =
        if gradeLetterOf g ≠ "" ∧ gradeLetterOf g ≠ "UNGRADED" then
          clientGradePointMap.lookup (gradeLetterOf g)
        else none) ∧
      (grades ≠ [] →
        (∀ g ∈ grades, ∃ letter ∈ clientGradePointMap.map (fun p => p.1), g = some letter) →
          overallGpa grades = groupGpa gradePointProbation grades ∧
            ∀ f ∈ reportGradePoints, overallGpa grades = groupGpa f grades) := by
  refine ⟨overallGpa_eq grades, fun g => rfl, ?_⟩
  intro hne hall
  have hmap : grades.filterMap clientGradePoint = grades.map gradePointProbation := by
    clear hne
    induction grades with
    | nil => rfl
    | cons g gs ih =>
      obtain ⟨letter, hl, rfl⟩ := hall g (List.mem_cons_self _ _)
      rw [List.filterMap_cons, clientGradePoint_of_letter hl, List.map_cons,
        ih (fun x hx => hall x (List.mem_cons_of_mem _ hx))]
  have hmain : overallGpa grades = groupGpa gradePointProbation grades := by
    rw [overallGpa_eq, groupGpa_eq, hmap]
    have h1 : grades.map gradePointProbation ≠ [] := by simpa using hne
    simp [h1, hne]
  refine ⟨hmain, ?_⟩
  intro f hf
  rw [hmain, mem_reportGradePoints hf]
  rfl

theorem client_gpa_is_mean_of_graded_witness :
    overallGpa [some "B+", some "F", some "A"] =
      groupGpa gradePointProbation [some "B+", some "F", some "A"] :=
  ((client_gpa_is_mean_of_graded [some "B+", some "F", some "A"]).2.2 (by decide)
    (by decide)).1

/-! ## The grade scale under a collation -/

theorem gradePointUnder_same (eq : String → String → Bool) :
    gradePointAverageGpaUnder eq = gradePointTopUnder eq ∧
      gradePointProbationUnder eq = gradePointTopUnder eq ∧
      gradePointTrendsUnder eq = gradePointTopUnder eq :=
  ⟨rfl, rfl, rfl⟩

theorem gradePointTopUnder_exact : gradePointTopUnder exactEq = gradePointTop := by
  funext grade
  rcases grade with _ | g <;> rfl

theorem ite_mem_values {c : Prop} [Decidable c] {a b : ℚ} {l : List ℚ} (ha : a ∈ l)
    (hb : b ∈ l) : (if c then a else b) ∈ l := by
  split <;> assumption

theorem gradePointTopUnder_mem (eq : String → String → Bool) (grade : Option String) :
    gradePointTopUnder eq grade ∈ gradePointValues := by
  unfold gradePointTopUnder gradePointValues
  repeat (apply ite_mem_values (by simp))
  simp

theorem gradePointTopUnder_within (eq : String → String → Bool) (grade : Option String) :
    0 ≤ gradePointTopUnder eq grade ∧ gradePointTopUnder eq grade ≤ 4 := by
  unfold gradePointTopUnder
  repeat (apply ite_within (by norm_num))
  norm_num

theorem gradePointTopUnder_eq_four_iff (eq : String → String → Bool) (grade : Option String) :
    gradePointTopUnder eq grade = 4 ↔ sqlEqUnder eq grade "A" = true := by
  constructor
  · intro h
    by_contra hne
    have hlt : gradePointTopUnder eq grade < 4 := by
      unfold gradePointTopUnder
      rw [if_neg hne]
      have hw : ∀ {c : Prop} [Decidable c] {a b : ℚ}, a < 4 → b < 4 →
          (if c then a else b) < 4 := by
        intro c _ a b ha hb
        split <;> assumption
      repeat (apply hw (by norm_num))
      norm_num
    linarith
  · intro h
    unfold gradePointTopUnder
    rw [if_pos h]
    norm_num

theorem gradePointTopUnder_first (eq : String → String → Bool) (g : String) :
    gradePointTopUnder eq (some g) =
      ((specGradeScale.find? (fun p => eq g p.1)).map (fun p => p.2)).getD 0.0 := by
  unfold gradePointTopUnder specGradeScale
  simp only [sqlEqUnder, List.find?_cons, List.find?_nil]
  by_cases h0 : eq g "A" = true
  · simp only [h0, if_true, if_false, Bool.false_eq_true, Option.map_some', Option.getD_some]
  have n0 : eq g "A" = false := by simpa using h0
  by_cases h1 : eq g "A-" = true
  · simp only [n0, h1, if_true, if_false, Bool.false_eq_true, Option.map_some', Option.getD_some]
  have n1 : eq g "A-" = false := by simpa using h1
  by_cases h2 : eq g "B+" = true
  · simp only [n0, n1, h2, if_true, if_false, Bool.false_eq_true, Option.map_some', Option.getD_some]
  have n2 : eq g "B+" = false := by simpa using h2
  by_cases h3 : eq g "B" = true
  · simp only [n0, n1, n2, h3, if_true, if_false, Bool.false_eq_true, Option.map_some', Option.getD_some]
  have n3 : eq g "B" = false := by simpa using h3
  by_cases h4 : eq g "B-" = true
  · simp only [n0, n1, n2, n3, h4, if_true, if_false, Bool.false_eq_true, Option.map_some', Option.getD_some]
  have n4 : eq g "B-" = false := by simpa using h4
  by_cases h5 : eq g "C+" = true
  · simp only [n0, n1, n2, n3, n4, h5, if_true, if_false, Bool.false_eq_true, Option.map_some', Option.getD_some]
  have n5 : eq g "C+" = false := by simpa using h5
  by_cases h6 : eq g "C" = true
  · simp only [n0, n1, n2, n3, n4, n5, h6, if_true, if_false, Bool.false_eq_true, Option.map_some', Option.getD_some]
  have n6 : eq g "C" = false := by simpa using h6
  by_cases h7 : eq g "C-" = true
  · simp only [n0, n1, n2, n3, n4, n5, n6, h7, if_true, if_false, Bool.false_eq_true, Option.map_some', Option.getD_some]
  have n7 : eq g "C-" = false := by simpa using h7
  by_cases h8 : eq g "D+" = true
  · simp only [n0, n1, n2, n3, n4, n5, n6, n7, h8, if_true, if_false, Bool.false_eq_true, Option.map_some', Option.getD_some]
  have n8 : eq g "D+" = false := by simpa using h8
  by_cases h9 : eq g "D" = true
  · simp only [n0, n1, n2, n3, n4, n5, n6, n7, n8, h9, if_true, if_false, Bool.false_eq_true, Option.map_some', Option.getD_some]
  have n9 : eq g "D" = false := by simpa using h9
  by_cases h10 : eq g "D-" = true
  · simp only [n0, n1, n2, n3, n4, n5, n6, n7, n8, n9, h10, if_true, if_false, Bool.false_eq_true, Option.map_some', Option.getD_some]
  have n10 : eq g "D-" = false := by simpa using h10
  simp only [n0, n1, n2, n3, n4, n5, n6, n7, n8, n9, n10, if_false, Bool.false_eq_true, Option.map_none', Option.getD_none]

theorem gradePointTopUnder_unmatched (eq : String → String → Bool) (g : String)
    (h : ∀ l ∈ gradeLetters, eq g l = false) : gradePointTopUnder eq (some g) = 0.0 := by
  simp only [gradePointTopUnder, sqlEqUnder, h "A" (by decide), h "A-" (by decide), h "B+" (by decide), h "B" (by decide), h "B-" (by decide), h "C+" (by decide), h "C" (by decide), h "C-" (by decide), h "D+" (by decide), h "D" (by decide), h "D-" (by decide),
    Bool.false_eq_true, if_false]

theorem gradePointTopUnder_letters (eq : String → String → Bool) (h : tellsLettersApart eq) :
    ∀ p ∈ specGradeScale, gradePointTopUnder eq (some p.1) = p.2 := by
  intro p hp
  simp only [specGradeScale, List.mem_cons, List.mem_singleton, List.not_mem_nil, or_false] at hp
  rcases hp with rfl | rfl | rfl | rfl | rfl | rfl | rfl | rfl | rfl | rfl | rfl
  · simp only [gradePointTopUnder, sqlEqUnder, h "A" (by decide) "A" (by decide), h "A" (by decide) "A-" (by decide), h "A" (by decide) "B+" (by decide), h "A" (by decide) "B" (by decide), h "A" (by decide) "B-" (by decide), h "A" (by decide) "C+" (by decide), h "A" (by decide) "C" (by decide), h "A" (by decide) "C-" (by decide), h "A" (by decide) "D+" (by decide), h "A" (by decide) "D" (by decide), h "A" (by decide) "D-" (by decide)]
    decide!
  · simp only [gradePointTopUnder, sqlEqUnder, h "A-" (by decide) "A" (by decide), h "A-" (by decide) "A-" (by decide), h "A-" (by decide) "B+" (by decide), h "A-" (by decide) "B" (by decide), h "A-" (by decide) "B-" (by decide), h "A-" (by decide) "C+" (by decide), h "A-" (by decide) "C" (by decide), h "A-" (by decide) "C-" (by decide), h "A-" (by decide) "D+" (by decide), h "A-" (by decide) "D" (by decide), h "A-" (by decide) "D-" (by decide)]
    decide!
  · simp only [gradePointTopUnder, sqlEqUnder, h "B+" (by decide) "A" (by decide), h "B+" (by decide) "A-" (by decide), h "B+" (by decide) "B+" (by decide), h "B+" (by decide) "B" (by decide), h "B+" (by decide) "B-" (by decide), h "B+" (by decide) "C+" (by decide), h "B+" (by decide) "C" (by decide), h "B+" (by decide) "C-" (by decide), h "B+" (by decide) "D+" (by decide), h "B+" (by decide) "D" (by decide), h "B+" (by decide) "D-" (by decide)]
    decide!
  · simp only [gradePointTopUnder, sqlEqUnder, h "B" (by decide) "A" (by decide), h "B" (by decide) "A-" (by decide), h "B" (by decide) "B+" (by decide), h "B" (by decide) "B" (by decide), h "B" (by decide) "B-" (by decide), h "B" (by decide) "C+" (by decide), h "B" (by decide) "C" (by decide), h "B" (by decide) "C-" (by decide), h "B" (by decide) "D+" (by decide), h "B" (by decide) "D" (by decide), h "B" (by decide) "D-" (by decide)]
    decide!
  · simp only [gradePointTopUnder, sqlEqUnder, h "B-" (by decide) "A" (by decide), h "B-" (by decide) "A-" (by decide), h "B-" (by decide) "B+" (by decide), h "B-" (by decide) "B" (by decide), h "B-" (by decide) "B-" (by decide), h "B-" (by decide) "C+" (by decide), h "B-" (by decide) "C" (by decide), h "B-" (by decide) "C-" (by decide), h "B-" (by decide) "D+" (by decide), h "B-" (by decide) "D" (by decide), h "B-" (by decide) "D-" (by decide)]
    decide!
  · simp only [gradePointTopUnder, sqlEqUnder, h "C+" (by decide) "A" (by decide), h "C+" (by decide) "A-" (by decide), h "C+" (by decide) "B+" (by decide), h "C+" (by decide) "B" (by decide), h "C+" (by decide) "B-" (by decide), h "C+" (by decide) "C+" (by decide), h "C+" (by decide) "C" (by decide), h "C+" (by decide) "C-" (by decide), h "C+" (by decide) "D+" (by decide), h "C+" (by decide) "D" (by decide), h "C+" (by decide) "D-" (by decide)]
    decide!
  · simp only [gradePointTopUnder, sqlEqUnder, h "C" (by decide) "A" (by decide), h "C" (by decide) "A-" (by decide), h "C" (by decide) "B+" (by decide), h "C" (by decide) "B" (by decide), h "C" (by decide) "B-" (by decide), h "C" (by decide) "C+" (by decide), h "C" (by decide) "C" (by decide), h "C" (by decide) "C-" (by decide), h "C" (by decide) "D+" (by decide), h "C" (by decide) "D" (by decide), h "C" (by decide) "D-" (by decide)]
    decide!
  · simp only [gradePointTopUnder, sqlEqUnder, h "C-" (by decide) "A" (by decide), h "C-" (by decide) "A-" (by decide), h "C-" (by decide) "B+" (by decide), h "C-" (by decide) "B" (by decide), h "C-" (by decide) "B-" (by decide), h "C-" (by decide) "C+" (by decide), h "C-" (by decide) "C" (by decide), h "C-" (by decide) "C-" (by decide), h "C-" (by decide) "D+" (by decide), h "C-" (by decide) "D" (by decide), h "C-" (by decide) "D-" (by decide)]
    decide!
  · simp only [gradePointTopUnder, sqlEqUnder, h "D+" (by decide) "A" (by decide), h "D+" (by decide) "A-" (by decide), h "D+" (by decide) "B+" (by decide), h "D+" (by decide) "B" (by decide), h "D+" (by decide) "B-" (by decide), h "D+" (by decide) "C+" (by decide), h "D+" (by decide) "C" (by decide), h "D+" (by decide) "C-" (by decide), h "D+" (by decide) "D+" (by decide), h "D+" (by decide) "D" (by decide), h "D+" (by decide) "D-" (by decide)]
    decide!
  · simp only [gradePointTopUnder, sqlEqUnder, h "D" (by decide) "A" (by decide), h "D" (by decide) "A-" (by decide), h "D" (by decide) "B+" (by decide), h "D" (by decide) "B" (by decide), h "D" (by decide) "B-" (by decide), h "D" (by decide) "C+" (by decide), h "D" (by decide) "C" (by decide), h "D" (by decide) "C-" (by decide), h "D" (by decide) "D+" (by decide), h "D" (by decide) "D" (by decide), h "D" (by decide) "D-" (by decide)]
    decide!
  · simp only [gradePointTopUnder, sqlEqUnder, h "D-" (by decide) "A" (by decide), h "D-" (by decide) "A-" (by decide), h "D-" (by decide) "B+" (by decide), h "D-" (by decide) "B" (by decide), h "D-" (by decide) "B-" (by decide), h "D-" (by decide) "C+" (by decide), h "D-" (by decide) "C" (by decide), h "D-" (by decide) "C-" (by decide), h "D-" (by decide) "D+" (by decide), h "D-" (by decide) "D" (by decide), h "D-" (by decide) "D-" (by decide)]
    decide!

theorem sum_le_of_le_four (f : Option String → ℚ) (hf : ∀ g, f g ≤ 4)
    (vals : List (Option String)) : (vals.map f).sum ≤ 4 * (vals.length : ℚ) := by
  induction vals with
  | nil => simp
  | cons g gs ih =>
    have := hf g
    simp only [List.map_cons, List.sum_cons, List.length_cons, Nat.cast_add, Nat.cast_one]
    linarith

theorem sum_eq_four_iff (f : Option String → ℚ) (hf : ∀ g, f g ≤ 4)
    (vals : List (Option String)) :
    (vals.map f).sum = 4 * (vals.length : ℚ) ↔ ∀ g ∈ vals, f g = 4 := by
  induction vals with
  | nil => simp
  | cons g gs ih =>
    simp only [List.map_cons, List.sum_cons, List.length_cons, Nat.cast_add, Nat.cast_one,
      List.mem_cons, forall_eq_or_imp]
    have h1 := hf g
    have h2 := sum_le_of_le_four f hf gs
    constructor
    · intro h
      have hg : f g = 4 := by linarith
      have hs : (gs.map f).sum = 4 * (gs.length : ℚ) := by linarith
      exact ⟨hg, ih.1 hs⟩
    · rintro ⟨hg, hs⟩
      have := ih.2 hs
      linarith

theorem groupGpa_within (f : Option String → ℚ) (hf : ∀ g, 0 ≤ f g ∧ f g ≤ 4)
    (grades : List (Option String)) (hne : grades ≠ []) :
    groupGpa f grades = some ((grades.map f).sum / (grades.length : ℚ)) ∧
      0 ≤ (grades.map f).sum / (grades.length : ℚ) ∧
      (grades.map f).sum / (grades.length : ℚ) ≤ 4 ∧
      ((grades.map f).sum / (grades.length : ℚ) = 4 ↔ ∀ g ∈ grades, f g = 4) := by
  have hlen : (0 : ℚ) < (grades.length : ℚ) := by
    have := List.length_pos.2 hne
    exact_mod_cast this
  refine ⟨by rw [groupGpa_eq, if_neg hne], ?_, ?_, ?_⟩
  · apply div_nonneg
    · apply List.sum_nonneg
      intro x hx
      obtain ⟨y, -, rfl⟩ := List.mem_map.1 hx
      exact (hf y).1
    · exact le_of_lt hlen
  · rw [div_le_iff₀ hlen]
    exact sum_le_of_le_four f (fun g => (hf g).2) grades
  · rw [← sum_eq_four_iff f (fun g => (hf g).2), div_eq_iff (ne_of_gt hlen)]

/-- C1 (as stated it fails under a case-insensitive collation). The grade `a` is none of the
eleven letters of the scale, yet under a comparison that ignores letter case, as the default
collations of the engine do, the `CASE` gives it 4.0 and not 0.0; under exact comparison it
gets 0.0. -/
theorem lower_case_grade_gets_letter_value :
    "a" ∉ gradeLetters ∧
      gradePointTopUnder caseInsensitiveEq (some "a") = 4.0 ∧
      gradePointAverageGpaUnder caseInsensitiveEq (some "b+") = 3.3 ∧
      gradePointTopUnder exactEq (some "a") = 0.0 :=
  ⟨by decide, by decide!, by decide!, by decide!⟩

/-- C1 (amended). For every comparison of texts that the collation of the Grade column may make,
each of the four `CASE` expressions is the same total function: it gives every grade, a `NULL`
one included, one of the values 4.0, 3.7, 3.3, 3.0, 2.7, 2.3, 2.0, 1.7, 1.3, 1.0, 0.7, 0.0;
`NULL` gets 0.0; a grade gets the value of the first letter of the scale that it equals under
the collation, and 0.0 when it equals none of the eleven letters (as `F`, `Ungraded`, the empty
string and an unlisted string do when the collation matches them with no letter); and when the
collation tells the eleven letters apart, each letter gets its own value.  With exact equality
the four functions are those of the reports as embedded here. -/
theorem grade_point_mapping_total (eq : String → String → Bool) :
    (gradePointAverageGpaUnder eq = gradePointTopUnder eq ∧
      gradePointProbationUnder eq = gradePointTopUnder eq ∧
      gradePointTrendsUnder eq = gradePointTopUnder eq) ∧
    (∀ grade : Option String, gradePointTopUnder eq grade ∈ gradePointValues) ∧
    gradePointTopUnder eq none = 0.0 ∧
    (∀ g : String, gradePointTopUnder eq (some g) =
      ((specGradeScale.find? (fun p => eq g p.1)).map (fun p => p.2)).getD 0.0) ∧
    (∀ g : String, (∀ l ∈ gradeLetters, eq g l = false) →
      gradePointTopUnder eq (some g) = 0.0) ∧
    (tellsLettersApart eq → ∀ p ∈ specGradeScale, gradePointTopUnder eq (some p.1) = p.2) ∧
    (gradePointAverageGpaUnder exactEq = gradePointAverageGpa ∧
      gradePointProbationUnder exactEq = gradePointProbation ∧
      gradePointTrendsUnder exactEq = gradePointTrends ∧
      gradePointTopUnder exactEq = gradePointTop) :=
  ⟨gradePointUnder_same eq, gradePointTopUnder_mem eq, rfl, gradePointTopUnder_first eq,
    gradePointTopUnder_unmatched eq, gradePointTopUnder_letters eq,
    gradePointTopUnder_exact, gradePointTopUnder_exact, gradePointTopUnder_exact,
    gradePointTopUnder_exact⟩

theorem grade_point_mapping_total_witness :
    gradePointTopUnder caseInsensitiveEq (some "F") = 0.0 ∧
      gradePointTopUnder caseInsensitiveEq (some "B+") = (("B+", 3.3) : String × ℚ).2 :=
  ⟨(grade_point_mapping_total caseInsensitiveEq).2.2.2.2.1 "F" (by decide),
    (grade_point_mapping_total caseInsensitiveEq).2.2.2.2.2.1 (by decide) ("B+", 3.3)
      (by simp [specGradeScale])⟩

/-- C30 (as stated it fails under a case-insensitive collation). Under a comparison that
ignores letter case, as the default collations of the engine do, the group of the grades `A`
and `a` reaches 4.0, and so does the group of the single grade `a`, although not every grade of
these groups is `A`. -/
theorem lower_case_group_reaches_four :
    groupGpa (gradePointTopUnder caseInsensitiveEq) [some "A", some "a"] = some 4.0 ∧
      groupGpa (gradePointTopUnder caseInsensitiveEq) [some "a"] = some 4.0 ∧
      ¬ (∀ g ∈ [some "A", some "a"], g = some "A") :=
  ⟨by decide!, by decide!, by decide⟩

/-- C30 (amended). For every comparison of texts that the collation of the Grade column may make
and every non-empty group of enrollment grades, the GPA computed with the server's grade scale
is a number between 0.0 and 4.0, and it is 4.0 exactly when every grade of the group equals `A`
under the collation; the four `CASE` expressions as embedded give a number between 0.0 and 4.0;
and the default condition `GPA >= 0.0` of top-performing-students keeps every group, for every
database state and every query. -/
theorem gpa_between_zero_and_four (eq : String → String → Bool)
    (grades : List (Option String)) (hne : grades ≠ []) :
    (∃ gpa, groupGpa (gradePointTopUnder eq) grades = some gpa ∧ 0.0 ≤ gpa ∧ gpa ≤ 4.0 ∧
        (gpa = 4.0 ↔ ∀ g ∈ grades, sqlEqUnder eq g "A" = true)) ∧
      (∀ f ∈ reportGradePoints, ∃ gpa, groupGpa f grades = some gpa ∧ 0.0 ≤ gpa ∧ gpa ≤ 4.0) ∧
      (∀ (db : Database) (q : ReportQuery),
        (topAggregated db q).filter
            (fun g => [("GPA >= ?", Param.num (JsNumber.finite 0.0))].all (topHaving g.2)) =
          topAggregated db q) := by
  refine ⟨?_, ?_, fun db q => default_having_keeps_all db q⟩
  · obtain ⟨h1, h2, h3, h4⟩ :=
      groupGpa_within (gradePointTopUnder eq) (gradePointTopUnder_within eq) grades hne
    refine ⟨_, h1, by norm_num; exact h2, by norm_num; exact h3, ?_⟩
    have h5 : (∀ g ∈ grades, gradePointTopUnder eq g = 4) ↔
        ∀ g ∈ grades, sqlEqUnder eq g "A" = true :=
      forall₂_congr (fun g _ => gradePointTopUnder_eq_four_iff eq g)
    rw [← h5, ← h4]
    norm_num
  · intro f hf
    rw [mem_reportGradePoints hf]
    obtain ⟨h1, h2, h3, -⟩ := groupGpa_within gradePointTop gradePointTop_within grades hne
    exact ⟨_, h1, by norm_num; exact h2, by norm_num; exact h3⟩

theorem gpa_between_zero_and_four_witness :
    ∃ gpa, groupGpa (gradePointTopUnder caseInsensitiveEq) [some "A", some "b"] = some gpa ∧
      0.0 ≤ gpa ∧ gpa ≤ 4.0 ∧
      (gpa = 4.0 ↔ ∀ g ∈ [some "A", some "b"], sqlEqUnder caseInsensitiveEq g "A" = true) :=
  (gpa_between_zero_and_four caseInsensitiveEq [some "A", some "b"] (by decide)).1

/-! ## Numbers, the decimal text of integers and `parseInt` -/

theorem roundToDouble_le {n : Int} (h1 : -9007199254740992 ≤ n) (h2 : n ≤ 9007199254740992) :
    roundToDouble n = n := by
  by_cases hm : n.natAbs < 9007199254740992
  · unfold roundToDouble
    simp only [hm, if_true]
  · have hn : n = 9007199254740992 ∨ n = -9007199254740992 := by omega
    rcases hn with rfl | rfl <;> decide!

theorem roundToDouble_tie : roundToDouble (9007199254740992 + 1) = 9007199254740992 := by
  decide!

theorem digitChar_isDigit {k : Nat} (hk : k < 10) : (Nat.digitChar k).isDigit = true := by
  interval_cases k <;> decide

theorem digitChar_value {k : Nat} (hk : k < 10) : (Nat.digitChar k).toNat - 48 = k := by
  interval_cases k <;> decide

theorem toDigitsCore_value (fuel : Nat) : ∀ (n : Nat) (ds : List Char), n < fuel →
    (Nat.toDigitsCore 10 fuel n ds).foldl (fun n d => 10 * n + (d.toNat - 48)) 0 =
      ds.foldl (fun n d => 10 * n + (d.toNat - 48)) n := by
  induction fuel with
  | zero => intro n ds h; omega
  | succ fuel ih =>
    intro n ds h
    unfold Nat.toDigitsCore
    have hd : (Nat.digitChar (n % 10)).toNat - 48 = n % 10 := digitChar_value (Nat.mod_lt _ (by omega))
    by_cases h0 : n / 10 = 0
    · simp only [h0, if_true, List.foldl_cons, hd]
      congr 1
      omega
    · simp only [h0, if_false]
      rw [ih (n / 10) _ (by omega), List.foldl_cons, hd]
      congr 1
      omega

theorem toDigitsCore_digits (fuel : Nat) : ∀ (n : Nat) (ds : List Char),
    (∀ c ∈ ds, c.isDigit = true) → ∀ c ∈ Nat.toDigitsCore 10 fuel n ds, c.isDigit = true := by
  induction fuel with
  | zero => intro n ds h; simpa [Nat.toDigitsCore] using h
  | succ fuel ih =>
    intro n ds h
    unfold Nat.toDigitsCore
    have hd : (Nat.digitChar (n % 10)).isDigit = true := digitChar_isDigit (Nat.mod_lt _ (by omega))
    have hcons : ∀ c ∈ Nat.digitChar (n % 10) :: ds, c.isDigit = true := by
      intro c hc
      rcases List.mem_cons.1 hc with rfl | hc
      · exact hd
      · exact h c hc
    by_cases h0 : n / 10 = 0
    · simpa only [h0, if_true] using hcons
    · simp only [h0, if_false]
      exact ih _ _ hcons

theorem toDigitsCore_ne_nil (fuel n : Nat) (ds : List Char) (h : 0 < fuel) :
    Nat.toDigitsCore 10 fuel n ds ≠ [] := by
  induction fuel generalizing n ds with
  | zero => omega
  | succ fuel ih =>
    unfold Nat.toDigitsCore
    by_cases h0 : n / 10 = 0
    · simp [h0]
    · simp only [h0, if_false]
      rcases fuel with _ | fuel
      · simp [Nat.toDigitsCore]
      · exact ih _ _ (by omega)

theorem natText_data (n : Nat) : (toString n).data = Nat.toDigits 10 n := rfl

theorem natText_digits (n : Nat) : ∀ c ∈ (toString n).data, c.isDigit = true :=
  toDigitsCore_digits _ _ _ (by simp)

theorem natText_value (n : Nat) : digitsValue (toString n).data = n := by
  rw [natText_data]
  unfold digitsValue Nat.toDigits
  rw [toDigitsCore_value _ _ _ (by omega)]
  rfl

theorem natText_ne_nil (n : Nat) : (toString n).data ≠ [] :=
  toDigitsCore_ne_nil _ _ _ (by omega)

theorem isDigit_not_white {c : Char} (h : c.isDigit = true) : isJsWhiteSpace c = false := by
  have h1 : 48 ≤ c.toNat ∧ c.toNat ≤ 57 := by
    simp only [Char.isDigit, Bool.and_eq_true, decide_eq_true_eq] at h
    exact ⟨h.1, h.2⟩
  simp only [isJsWhiteSpace, List.mem_cons, List.mem_singleton, decide_eq_false_iff_not,
    List.not_mem_nil, or_false]
  omega

theorem parseIntMagnitude_digits {ds : List Char} (hne : ds ≠ [])
    (hd : ∀ c ∈ ds, c.isDigit = true) : parseIntMagnitude ds = some (digitsValue ds) := by
  unfold parseIntMagnitude
  have hx : ∀ x : Char, x.isDigit = false → ¬ ['0', x].isPrefixOf ds = true := by
    intro x hx hp
    rw [List.isPrefixOf_iff_prefix] at hp
    obtain ⟨t, rfl⟩ := hp
    have := hd x (by simp)
    rw [hx] at this
    exact Bool.noConfusion this
  have h1 : ¬ ("0x".data.isPrefixOf ds = true ∨ "0X".data.isPrefixOf ds = true) := by
    rintro (h | h)
    · exact hx 'x' (by decide) h
    · exact hx 'X' (by decide) h
  have htake : ds.takeWhile Char.isDigit = ds := by
    rw [List.takeWhile_eq_self_iff]
    exact hd
  simp only [h1, if_false, htake, hne]

theorem splitSign_digit {c : Char} (cs : List Char) (hc : c.isDigit = true) :
    splitSign (c :: cs) = (false, c :: cs) := by
  have hminus : c ≠ '-' := by rintro rfl; exact absurd hc (by decide)
  have hplus : c ≠ '+' := by rintro rfl; exact absurd hc (by decide)
  unfold splitSign
  split
  · rename_i heq
    exact absurd (List.cons.inj heq).1 hminus
  · rename_i heq
    exact absurd (List.cons.inj heq).1 hplus
  · rfl

theorem jsParseInt_natText (n : Nat) (hn : (n : Int) ≤ 9007199254740992) :
    jsParseInt (toString n) = some (n : Int) := by
  have hne := natText_ne_nil n
  have hd := natText_digits n
  have hround : roundToDouble (n : Int) = n := roundToDouble_le (by omega) hn
  unfold jsParseInt
  obtain ⟨c, cs, hcs⟩ : ∃ c cs, (toString n).data = c :: cs := by
    rcases h : (toString n).data with _ | ⟨c, cs⟩
    · exact absurd h hne
    · exact ⟨c, cs, rfl⟩
  have hc : c.isDigit = true := hd c (by rw [hcs]; simp)
  have hw : (toString n).data.dropWhile isJsWhiteSpace = (toString n).data := by
    rw [hcs, List.dropWhile_cons, isDigit_not_white hc]
    rfl
  have hsigned : splitSign ((toString n).data.dropWhile isJsWhiteSpace) =
      (false, (toString n).data) := by
    rw [hw, hcs, splitSign_digit cs hc]
  simp only [hsigned, parseIntMagnitude_digits hne hd, natText_value, Bool.false_eq_true,
    if_false, hround]

theorem intText_negSucc (m : Nat) :
    toString (Int.negSucc m) = "-" ++ toString (m + 1) := rfl

theorem intText_ofNat (m : Nat) : toString (m : Int) = toString m := rfl

theorem jsParseInt_intText (y : Int) (h1 : -9007199254740992 ≤ y)
    (h2 : y ≤ 9007199254740992) : jsParseInt (toString y) = some y := by
  rcases y with m | m
  · exact jsParseInt_natText m h2
  · rw [intText_negSucc]
    have hne := natText_ne_nil (m + 1)
    have hd := natText_digits (m + 1)
    unfold jsParseInt
    have hdata : ("-" ++ toString (m + 1)).data = '-' :: (toString (m + 1)).data := by
      rw [String.data_append]
      rfl
    have hw : ('-' :: (toString (m + 1)).data).dropWhile isJsWhiteSpace =
        '-' :: (toString (m + 1)).data := by
      rw [List.dropWhile_cons]
      rfl
    have hround : roundToDouble (-((m + 1 : Nat) : Int)) = -((m + 1 : Nat) : Int) :=
      roundToDouble_le (by have := Int.negSucc_eq m; omega) (by omega)
    have hsigned : splitSign ('-' :: (toString (m + 1)).data) =
        (true, (toString (m + 1)).data) := rfl
    simp only [hdata, hw, hsigned, parseIntMagnitude_digits hne hd, natText_value, if_true,
      hround]
    rfl

/-! ## The loop of `generateSemestersInRange` -/

theorem semesterAfter_eq (numberText : Int → String) (year : Int) (seasonIdx steps : Nat) :
    semesterAfter numberText year seasonIdx steps =
      semesterLabel numberText (semesterPairAfter year seasonIdx steps).1
        (semesterPairAfter year seasonIdx steps).2 := rfl

theorem semesterAfter_zero (numberText : Int → String) (year : Int) (seasonIdx : Nat)
    (h : seasonIdx < 3) :
    semesterAfter numberText year seasonIdx 0 = semesterLabel numberText year seasonIdx := by
  unfold semesterAfter
  have h1 : (seasonIdx + 0) / 3 = 0 := by omega
  have h2 : (seasonIdx + 0) % 3 = seasonIdx := by omega
  rw [h1, h2]
  simp

theorem semesterAfter_succ_same (numberText : Int → String) (year : Int)
    (seasonIdx steps : Nat) :
    semesterAfter numberText year seasonIdx (steps + 1) =
      semesterAfter numberText year (seasonIdx + 1) steps := by
  unfold semesterAfter
  have h : seasonIdx + (steps + 1) = seasonIdx + 1 + steps := by omega
  rw [h]

theorem semesterAfter_succ_wrap (numberText : Int → String) (year : Int) (steps : Nat) :
    semesterAfter numberText year 2 (steps + 1) = semesterAfter numberText (year + 1) 0 steps := by
  unfold semesterAfter
  have h1 : (2 + (steps + 1)) / 3 = 1 + (0 + steps) / 3 := by omega
  have h2 : (2 + (steps + 1)) % 3 = (0 + steps) % 3 := by omega
  rw [h1, h2]
  congr 1
  push_cast
  ring

theorem range_succ_map {β : Type} (f : Nat → β) (n : Nat) :
    (List.range (n + 1)).map f = f 0 :: (List.range n).map (fun k => f (k + 1)) := by
  rw [List.range_succ_eq_map, List.map_cons, List.map_map]
  rfl

theorem range_one_map {β : Type} (f : Nat → β) : (List.range 1).map f = [f 0] := rfl

theorem semestersLoop_run (numberText : Int → String) (fuel : Nat) :
    ∀ (currentYear : Int) (currentSeasonIdx : Nat) (endYear : Int) (endSeasonIdx : Nat)
      (semesters : List String),
    currentSeasonIdx < 3 → endSeasonIdx < 3 →
    -9007199254740992 ≤ currentYear → currentYear ≤ 9007199254740992 →
    endYear < 9007199254740992 →
    loopIterations currentYear currentSeasonIdx endYear endSeasonIdx ≤ fuel →
    semestersLoop numberText fuel currentYear currentSeasonIdx endYear endSeasonIdx semesters =
      some (semesters ++
        (List.range (loopIterations currentYear currentSeasonIdx endYear endSeasonIdx)).map
          (semesterAfter numberText currentYear currentSeasonIdx)) := by
  induction fuel with
  | zero =>
    intro y i ey j acc hi hj hlo hhi hey hfuel
    exfalso
    unfold loopIterations at hfuel
    split_ifs at hfuel <;> omega
  | succ fuel ih =>
    intro y i ey j acc hi hj hlo hhi hey hfuel
    unfold semestersLoop
    simp only []
    by_cases hend : y = ey ∧ i = j
    · have hn : loopIterations y i ey j = 1 := by
        unfold loopIterations
        obtain ⟨rfl, rfl⟩ := hend
        simp
      rw [if_pos hend, hn, range_one_map, semesterAfter_zero numberText y i hi]
    · rw [if_neg hend]
      by_cases hpast : y > ey
      · have hn : loopIterations y i ey j = 1 := by
          unfold loopIterations
          rw [if_pos hpast]
        rw [if_pos hpast, hn, range_one_map, semesterAfter_zero numberText y i hi]
      · rw [if_neg hpast]
        by_cases hwrap : i + 1 ≥ semesterOrder.length
        · have hi2 : i = 2 := by
            have : semesterOrder.length = 3 := rfl
            omega
          subst hi2
          have hn : loopIterations y 2 ey j = loopIterations (y + 1) 0 ey j + 1 := by
            unfold loopIterations
            split_ifs <;> omega
          have hround : roundToDouble (y + 1) = y + 1 := roundToDouble_le (by omega) (by omega)
          rw [if_pos hwrap, hround,
            ih (y + 1) 0 ey j _ (by omega) hj (by omega) (by omega) hey (by omega), hn,
            range_succ_map, semesterAfter_zero numberText y 2 (by omega)]
          simp only [semesterAfter_succ_wrap, List.append_assoc, List.singleton_append]
        · have hn : loopIterations y i ey j = loopIterations y (i + 1) ey j + 1 := by
            unfold loopIterations
            split_ifs <;> omega
          have hlen : semesterOrder.length = 3 := rfl
          rw [if_neg hwrap, ih y (i + 1) ey j _ (by omega) hj hlo hhi hey (by omega), hn,
            range_succ_map, semesterAfter_zero numberText y i hi]
          simp only [semesterAfter_succ_same, List.append_assoc, List.singleton_append]

theorem semestersLoop_stuck (numberText : Int → String) (endSeasonIdx : Nat) (fuel : Nat) :
    ∀ (currentSeasonIdx : Nat) (semesters : List String),
      semestersLoop numberText fuel 9007199254740992 currentSeasonIdx (9007199254740992 + 2)
        endSeasonIdx semesters = none := by
  induction fuel with
  | zero => intro i acc; rfl
  | succ fuel ih =>
    intro i acc
    unfold semestersLoop
    simp only []
    rw [if_neg (by omega), if_neg (by omega), roundToDouble_tie]
    split
    · exact ih 0 _
    · exact ih (i + 1) _

theorem seasonIndex_lt {season : String} {idx : Nat} (h : seasonIndex season = some idx) :
    idx < 3 ∧ semesterOrder.getD idx "undefined" = season := by
  unfold seasonIndex at h
  split at h
  · rename_i hmem
    simp only [semesterOrder, List.mem_cons, List.mem_singleton, List.not_mem_nil,
      or_false] at hmem
    rcases hmem with rfl | rfl | rfl <;>
      · cases h
        decide
  · cases h

theorem seasonIndex_none {season : String} (h : season ∉ semesterOrder) :
    seasonIndex season = none := by
  unfold seasonIndex
  rw [if_neg h]

theorem seasonIndex_of_mem {season : String} (h : season ∈ semesterOrder) :
    seasonIndex season = some (semesterOrder.indexOf season) := by
  unfold seasonIndex
  rw [if_pos h]

theorem generate_run (numberText : Int → String) (fuel : Nat) (startYear : Int)
    (startSeason : String) (endYear : Int) (endSeason : String) (i j : Nat)
    (hi : seasonIndex startSeason = some i) (hj : seasonIndex endSeason = some j)
    (hstart : safeYear startYear) (hend : safeYear endYear)
    (hfuel : loopIterations startYear i endYear j ≤ fuel) :
    generateSemestersInRange numberText fuel startYear startSeason endYear endSeason =
      some ((List.range (loopIterations startYear i endYear j)).map
        (semesterAfter numberText startYear i)) := by
  unfold safeYear at hstart hend
  unfold generateSemestersInRange
  rw [hi, hj]
  simp only []
  rw [semestersLoop_run numberText fuel startYear i endYear j [] (seasonIndex_lt hi).1
    (seasonIndex_lt hj).1 (by omega) (by omega) (by omega) hfuel]
  rfl

theorem loopIterations_le (y : Int) (i : Nat) (ey : Int) (j : Nat) (hj : j < 3) :
    loopIterations y i ey j ≤ 3 * (max 0 (ey - y)).toNat + 4 := by
  unfold loopIterations
  split_ifs <;> omega

theorem loopIterations_pos (y : Int) (i : Nat) (ey : Int) (j : Nat) (hi : i < 3) :
    0 < loopIterations y i ey j := by
  unfold loopIterations
  split_ifs <;> omega

theorem pairAfter_earlier (year : Int) (seasonIdx : Nat) {a b : Nat} (h : a < b) :
    earlier (semesterPairAfter year seasonIdx a) (semesterPairAfter year seasonIdx b) := by
  unfold earlier semesterPairAfter
  simp only
  omega

theorem pairAfter_notLater_start (year : Int) (seasonIdx : Nat) (h : seasonIdx < 3) (a : Nat) :
    notLater (year, seasonIdx) (semesterPairAfter year seasonIdx a) := by
  unfold notLater semesterPairAfter
  simp only
  omega

theorem pairAfter_succ (year : Int) (seasonIdx steps : Nat) :
    semesterPairAfter year seasonIdx (steps + 1) =
      if (semesterPairAfter year seasonIdx steps).2 = 2 then
        ((semesterPairAfter year seasonIdx steps).1 + 1, 0)
      else ((semesterPairAfter year seasonIdx steps).1,
        (semesterPairAfter year seasonIdx steps).2 + 1) := by
  unfold semesterPairAfter
  simp only
  split
  · ext
    · simp only; omega
    · simp only; omega
  · ext
    · simp only; omega
    · simp only; omega

theorem pairAfter_lt (year : Int) (seasonIdx steps : Nat) :
    (semesterPairAfter year seasonIdx steps).2 < 3 := by
  unfold semesterPairAfter
  simp only
  omega

theorem iterations_ordered {sy ey : Int} {i j : Nat} (hi : i < 3)
    (hle : notLater (sy, i) (ey, j)) :
    (loopIterations sy i ey j : Int) = 3 * (ey - sy) + ((j : Int) - i) + 1 := by
  unfold notLater at hle
  simp only at hle
  unfold loopIterations
  split_ifs <;> omega

theorem pairAfter_notLater_end {sy ey : Int} {i j : Nat} (hi : i < 3) (hj : j < 3)
    (hle : notLater (sy, i) (ey, j)) {k : Nat} (hk : k < loopIterations sy i ey j) :
    notLater (semesterPairAfter sy i k) (ey, j) := by
  have hn := iterations_ordered hi hle
  unfold notLater at hle ⊢
  unfold semesterPairAfter
  simp only at hle ⊢
  omega

theorem pairAfter_last {sy ey : Int} {i j : Nat} (hi : i < 3) (hj : j < 3)
    (hle : notLater (sy, i) (ey, j)) {n : Nat} (hn : loopIterations sy i ey j = n + 1) :
    semesterPairAfter sy i n = (ey, j) := by
  have h := iterations_ordered hi hle
  unfold notLater at hle
  unfold semesterPairAfter
  simp only at hle
  ext
  · simp only; omega
  · simp only; omega

theorem getElem?_range_map {β : Type} (f : Nat → β) {n k : Nat} (hk : k < n) :
    ((List.range n).map f)[k]? = some (f k) := by
  rw [List.getElem?_map, List.getElem?_range hk]
  rfl

/-- C20 (as stated it fails). The years 2 ^ 53 and 2 ^ 53 + 2 are numbers, and Spring of the
first is not later than Spring of the second; yet for these arguments the loop never reaches a
`break`, whatever the number of iterations it is given: `currentYear++` leaves 2 ^ 53 unchanged,
since 2 ^ 53 + 1 is not a number and rounds back to 2 ^ 53. -/
theorem unsafe_year_range_never_returns :
    roundToDouble 9007199254740992 = 9007199254740992 ∧
      roundToDouble (9007199254740992 + 2) = 9007199254740992 + 2 ∧
      roundToDouble (9007199254740992 + 1) = 9007199254740992 ∧
      notLater (9007199254740992, semesterOrder.indexOf "Spring")
        (9007199254740992 + 2, semesterOrder.indexOf "Spring") ∧
      ∀ (numberText : Int → String) (fuel : Nat),
        generateSemestersInRange numberText fuel 9007199254740992 "Spring"
          (9007199254740992 + 2) "Spring" = none :=
  ⟨by decide!, by decide!, by decide!, by decide,
    fun numberText fuel => semestersLoop_stuck numberText 0 fuel 0 []⟩

/-- C20 (amended). For seasons in `semesterOrder` and years that are safe integers (of magnitude
at most 2 ^ 53 - 1), with the start semester not later than the end semester,
`generateSemestersInRange` returns, as soon as the loop is given as many iterations as the
length below, the list whose length is `3 * (endYear - startYear) + (index of endSeason - index
of startSeason) + 1`, whose first element is the start semester, whose last element is the end
semester, whose element `k` is the semester `k` steps after the start, and in which each element
is followed by the next semester (Spring, Summer, Fall, then Spring of the next year).  When a
season name is not in `semesterOrder`, the result is the empty list. -/
theorem generate_contiguous_range (numberText : Int → String) :
    (∀ (fuel : Nat) (startYear endYear : Int) (startSeason endSeason : String),
      startSeason ∈ semesterOrder → endSeason ∈ semesterOrder →
      safeYear startYear → safeYear endYear →
      notLater (startYear, semesterOrder.indexOf startSeason)
        (endYear, semesterOrder.indexOf endSeason) →
      3 * (endYear - startYear) + ((semesterOrder.indexOf endSeason : Int) -
        semesterOrder.indexOf startSeason) + 1 ≤ fuel →
      ∃ out, generateSemestersInRange numberText fuel startYear startSeason endYear endSeason =
          some out ∧
        (out.length : Int) = 3 * (endYear - startYear) + ((semesterOrder.indexOf endSeason : Int) -
          semesterOrder.indexOf startSeason) + 1 ∧
        out.head? = some (startSeason ++ numberText startYear) ∧
        out.getLast? = some (endSeason ++ numberText endYear) ∧
        (∀ k, k < out.length →
          out[k]? = some (semesterAfter numberText startYear
            (semesterOrder.indexOf startSeason) k)) ∧
        (∀ k, k + 1 < out.length → ∃ (y : Int) (s : Nat), s < 3 ∧
          out[k]? = some (semesterLabel numberText y s) ∧
          out[k + 1]? = some (if s = 2 then semesterLabel numberText (y + 1) 0
            else semesterLabel numberText y (s + 1)))) ∧
      (∀ (fuel : Nat) (startYear endYear : Int) (startSeason endSeason : String),
        startSeason ∉ semesterOrder ∨ endSeason ∉ semesterOrder →
        generateSemestersInRange numberText fuel startYear startSeason endYear endSeason =
          some []) := by
  constructor
  · intro fuel sy ey ss es hs he hsy hey hle hfuel
    have hi := seasonIndex_of_mem hs
    have hj := seasonIndex_of_mem he
    have hi3 := seasonIndex_lt hi
    have hj3 := seasonIndex_lt hj
    generalize semesterOrder.indexOf ss = i at *
    generalize semesterOrder.indexOf es = j at *
    have hn := iterations_ordered hi3.1 hle
    have hrun := generate_run numberText fuel sy ss ey es i j hi hj hsy hey (by omega)
    obtain ⟨n, hn1⟩ : ∃ n, loopIterations sy i ey j = n + 1 :=
      ⟨loopIterations sy i ey j - 1, by have := loopIterations_pos sy i ey j hi3.1; omega⟩
    refine ⟨_, hrun, ?_, ?_, ?_, ?_, ?_⟩
    · rw [List.length_map, List.length_range]
      exact hn
    · rw [hn1, range_succ_map, List.head?_cons, semesterAfter_zero numberText sy i hi3.1]
      unfold semesterLabel
      rw [hi3.2]
    · rw [hn1, List.range_succ, List.map_append, List.map_singleton, List.getLast?_append,
        List.getLast?_singleton]
      change some (semesterAfter numberText sy i n) = _
      rw [semesterAfter_eq, pairAfter_last hi3.1 hj3.1 hle hn1]
      unfold semesterLabel
      simp only [hj3.2]
    · intro k hk
      rw [List.length_map, List.length_range] at hk
      exact getElem?_range_map _ hk
    · intro k hk
      rw [List.length_map, List.length_range] at hk
      refine ⟨(semesterPairAfter sy i k).1, (semesterPairAfter sy i k).2, pairAfter_lt sy i k,
        ?_, ?_⟩
      · rw [getElem?_range_map _ (by omega), semesterAfter_eq]
      · rw [getElem?_range_map _ hk, semesterAfter_eq, pairAfter_succ]
        split <;> rfl
  · intro fuel sy ey ss es h
    unfold generateSemestersInRange
    rcases h with h | h
    · rw [seasonIndex_none h]
    · rw [seasonIndex_none h]
      split
      · rename_i heq
        cases heq
      · rfl

theorem generate_contiguous_range_witness :
    ∃ out, generateSemestersInRange (fun y => toString y) 5 2020 "Fall" 2022 "Spring" =
        some out ∧
      (out.length : Int) = 3 * (2022 - 2020) + ((semesterOrder.indexOf "Spring" : Int) -
        semesterOrder.indexOf "Fall") + 1 :=
  ((generate_contiguous_range (fun y => toString y)).1 5 2020 2022 "Fall" "Spring" (by decide)
    (by decide) (by decide) (by decide) (by decide) (by decide)).imp (fun _ h => ⟨h.1, h.2.1⟩)

/-- C21 (the code does otherwise). With the end before the start the list is not empty and holds
semesters outside the range: from Fall 2022 to Spring 2020 the result is `Fall2022`, and from
Fall 2020 to Spring 2020 it is `Fall2020, Spring2021`; none of these semesters is not later than
the end.  The loop pushes the current semester before it tests the two `break` conditions. -/
theorem reversed_range_leaves_range (numberText : Int → String)
    (hprint : printsDecimal numberText) :
    generateSemestersInRange numberText 4 2022 "Fall" 2020 "Spring" = some ["Fall2022"] ∧
      ¬ notLater (2022, 2) (2020, 0) ∧
      generateSemestersInRange numberText 4 2020 "Fall" 2020 "Spring" =
        some ["Fall2020", "Spring2021"] ∧
      ¬ notLater (2020, 2) (2020, 0) ∧ ¬ notLater (2021, 0) (2020, 0) := by
  have h0 : numberText 2020 = "2020" := hprint 2020 (by decide) (by decide)
  have h1 : numberText 2021 = "2021" := hprint 2021 (by decide) (by decide)
  have h2 : numberText 2022 = "2022" := hprint 2022 (by decide) (by decide)
  have e1 : generateSemestersInRange numberText 4 2022 "Fall" 2020 "Spring" =
      some ["Fall" ++ numberText 2022] := by
    rw [generate_run numberText 4 2022 "Fall" 2020 "Spring" 2 0 (by decide) (by decide)
      (by decide) (by decide) (by decide)]
    rfl
  have e2 : generateSemestersInRange numberText 4 2020 "Fall" 2020 "Spring" =
      some ["Fall" ++ numberText 2020, "Spring" ++ numberText 2021] := by
    rw [generate_run numberText 4 2020 "Fall" 2020 "Spring" 2 0 (by decide) (by decide)
      (by decide) (by decide) (by decide)]
    rfl
  rw [e1, e2, h0, h1, h2]
  exact ⟨by decide, by decide, by decide, by decide, by decide⟩

theorem reversed_range_leaves_range_witness :
    generateSemestersInRange (fun y => toString y) 4 2022 "Fall" 2020 "Spring" =
      some ["Fall2022"] :=
  (reversed_range_leaves_range (fun y => toString y) (fun _ _ _ => rfl)).1

/-- C22 (as stated it fails). From Summer of the year 2 ^ 53 to Fall of the year 2 ^ 53 + 2, both
of them numbers, the loop reaches no `break` within the 10 iterations of the bound, nor within
any other number of iterations: `currentYear++` leaves 2 ^ 53 unchanged. -/
theorem unsafe_year_loop_never_breaks :
    3 * (max 0 ((9007199254740992 + 2 : Int) - 9007199254740992)).toNat + 4 = 10 ∧
      roundToDouble (9007199254740992 + 1) = 9007199254740992 ∧
      ∀ (numberText : Int → String) (fuel : Nat),
        generateSemestersInRange numberText fuel 9007199254740992 "Summer"
          (9007199254740992 + 2) "Fall" = none :=
  ⟨by decide, by decide!, fun numberText fuel => semestersLoop_stuck numberText 2 fuel 1 []⟩

/-- C22 (amended). For all years that are safe integers (of magnitude at most 2 ^ 53 - 1) and
all season arguments, ranges whose end precedes their start included, the loop of
`generateSemestersInRange` leaves by a `break` within `3 * max(0, endYear - startYear) + 4`
iterations: given that many iterations or more, the function returns a list, and the list,
which gets one element per iteration, is not longer than that bound. -/
theorem generate_terminates (numberText : Int → String) (fuel : Nat) (startYear endYear : Int)
    (startSeason endSeason : String) (hstart : safeYear startYear) (hend : safeYear endYear)
    (hfuel : 3 * (max 0 (endYear - startYear)).toNat + 4 ≤ fuel) :
    ∃ out, generateSemestersInRange numberText fuel startYear startSeason endYear endSeason =
        some out ∧
      out.length ≤ 3 * (max 0 (endYear - startYear)).toNat + 4 := by
  rcases hi : seasonIndex startSeason with _ | i
  · exact ⟨[], by unfold generateSemestersInRange; rw [hi], by simp⟩
  · rcases hj : seasonIndex endSeason with _ | j
    · exact ⟨[], by unfold generateSemestersInRange; rw [hi, hj], by simp⟩
    · have hbound := loopIterations_le startYear i endYear j (seasonIndex_lt hj).1
      refine ⟨_, generate_run numberText fuel startYear startSeason endYear endSeason i j hi hj
        hstart hend (by omega), ?_⟩
      rw [List.length_map, List.length_range]
      exact hbound

theorem generate_terminates_witness :
    ∃ out, generateSemestersInRange (fun y => toString y) 4 2022 "Fall" 2020 "Spring" =
        some out ∧
      out.length ≤ 3 * (max 0 ((2020 : Int) - 2022)).toNat + 4 :=
  generate_terminates (fun y => toString y) 4 2022 2020 "Fall" "Spring" (by decide) (by decide)
    (by decide)

/-! ## `parseSemesterForSort` and the decoding by `slice` -/

theorem seasonParts_label (season : String) (hs : season ∈ semesterOrder) (t : String) :
    seasonParts (season ++ t) ["Spring", "Summer", "Fall"] = (season, t) := by
  simp only [semesterOrder, List.mem_cons, List.mem_singleton, List.not_mem_nil,
    or_false] at hs
  have hdata : ∀ a : String, (a ++ t).data = a.data ++ t.data := fun a => String.data_append _ _
  rcases hs with rfl | rfl | rfl
  · have h1 : startsWith ("Spring" ++ t) "Spring" = true := by
      unfold startsWith
      rw [hdata]
      rw [List.isPrefixOf_iff_prefix]
      exact List.prefix_append _ _
    have h2 : substring ("Spring" ++ t) "Spring".length = t := by
      unfold substring
      rw [hdata]
      rfl
    simp only [seasonParts, h1, if_true, h2]
  · have h0 : startsWith ("Summer" ++ t) "Spring" = false := by
      unfold startsWith
      rw [hdata]
      rfl
    have h1 : startsWith ("Summer" ++ t) "Summer" = true := by
      unfold startsWith
      rw [hdata]
      rw [List.isPrefixOf_iff_prefix]
      exact List.prefix_append _ _
    have h2 : substring ("Summer" ++ t) "Summer".length = t := by
      unfold substring
      rw [hdata]
      rfl
    simp only [seasonParts, h0, h1, if_true, h2, Bool.false_eq_true, if_false]
  · have h0 : startsWith ("Fall" ++ t) "Spring" = false := by
      unfold startsWith
      rw [hdata]
      rfl
    have h0' : startsWith ("Fall" ++ t) "Summer" = false := by
      unfold startsWith
      rw [hdata]
      rfl
    have h1 : startsWith ("Fall" ++ t) "Fall" = true := by
      unfold startsWith
      rw [hdata]
      rw [List.isPrefixOf_iff_prefix]
      exact List.prefix_append _ _
    have h2 : substring ("Fall" ++ t) "Fall".length = t := by
      unfold substring
      rw [hdata]
      rfl
    simp only [seasonParts, h0, h0', h1, if_true, h2, Bool.false_eq_true, if_false]

theorem seasonMap_lookup (season : String) (hs : season ∈ semesterOrder) :
    seasonMap.lookup season = some (semesterOrder.indexOf season : Int) := by
  simp only [semesterOrder, List.mem_cons, List.mem_singleton, List.not_mem_nil,
    or_false] at hs
  rcases hs with rfl | rfl | rfl <;> decide

theorem parse_label (season : String) (hs : season ∈ semesterOrder) (y : Int)
    (h1 : -9007199254740992 ≤ y) (h2 : y ≤ 9007199254740992) :
    parseSemesterForSort (season ++ toString y) =
      (some y, (semesterOrder.indexOf season : Int)) := by
  unfold parseSemesterForSort parseSemesterTry
  simp only [seasonParts_label season hs, jsParseInt_intText y h1 h2,
    seasonMap_lookup season hs]

theorem semesterLabel_mem {s : Nat} (hs : s < 3) :
    semesterOrder.getD s "undefined" ∈ semesterOrder ∧
      semesterOrder.indexOf (semesterOrder.getD s "undefined") = s := by
  interval_cases s <;> decide

theorem parse_semesterLabel (numberText : Int → String) (hprint : printsDecimal numberText)
    (year : Int) (seasonIdx : Nat) (hs : seasonIdx < 3) (h1 : -9007199254740992 ≤ year)
    (h2 : year ≤ 9007199254740992) :
    parseSemesterForSort (semesterLabel numberText year seasonIdx) =
      (some year, (seasonIdx : Int)) := by
  have h := semesterLabel_mem hs
  unfold semesterLabel
  rw [hprint year h1 h2, parse_label _ h.1 year h1 h2, h.2]

theorem pairAfter_year_bounds {sy ey : Int} {i j k : Nat} (hi : i < 3) (hj : j < 3)
    (hk : k < loopIterations sy i ey j) :
    sy ≤ (semesterPairAfter sy i k).1 ∧
      ((semesterPairAfter sy i k).1 ≤ ey ∨ (semesterPairAfter sy i k).1 ≤ sy + 1) := by
  unfold loopIterations at hk
  unfold semesterPairAfter
  simp only
  split_ifs at hk <;> omega

/-- C23 (as stated it fails). The year 10 ^ 21 is a number, and the template literal prints it
as `1e+21`: the key of `Fall1e+21` has the year 1, not 10 ^ 21.  And the key of
`Fall9007199254740993` has the year 9007199254740992, since `parseInt` returns a number. -/
theorem exponent_year_parses_to_one :
    roundToDouble (10 ^ 21) = 10 ^ 21 ∧
      parseSemesterForSort ("Fall" ++ "1e+21") = (some 1, 2) ∧
      ((some 1, 2) : Option Int × Int) ≠ (some (10 ^ 21), 2) ∧
      parseSemesterForSort "Fall9007199254740993" = (some 9007199254740992, 2) :=
  ⟨by decide!, by decide!, by decide, by decide!⟩

/-- C23 (amended). When numbers of magnitude at most 2 ^ 53 are printed in decimal,
`parseSemesterForSort` inverts the semester string format on them: for every season of
`semesterOrder` and every integer year of magnitude at most 2 ^ 53, the key of the season
followed by the year is the year and the index of the season.  Hence one such string is
chronologically earlier than another exactly when its key is lexicographically smaller, and for
years that are safe integers the list that `generateSemestersInRange` returns is strictly
increasing under the key. -/
theorem parse_inverts_and_orders (numberText : Int → String)
    (hprint : printsDecimal numberText) :
    (∀ season ∈ semesterOrder, ∀ y : Int, -9007199254740992 ≤ y → y ≤ 9007199254740992 →
      parseSemesterForSort (season ++ numberText y) =
        (some y, (semesterOrder.indexOf season : Int))) ∧
    (∀ s₁ ∈ semesterOrder, ∀ s₂ ∈ semesterOrder, ∀ y₁ y₂ : Int,
      -9007199254740992 ≤ y₁ → y₁ ≤ 9007199254740992 →
      -9007199254740992 ≤ y₂ → y₂ ≤ 9007199254740992 →
      (earlier (y₁, semesterOrder.indexOf s₁) (y₂, semesterOrder.indexOf s₂) ↔
        keyLess (parseSemesterForSort (s₁ ++ numberText y₁))
          (parseSemesterForSort (s₂ ++ numberText y₂)))) ∧
    (∀ (fuel : Nat) (startYear endYear : Int) (startSeason endSeason : String),
      safeYear startYear → safeYear endYear →
      3 * (max 0 (endYear - startYear)).toNat + 4 ≤ fuel →
      ∃ out, generateSemestersInRange numberText fuel startYear startSeason endYear endSeason =
          some out ∧
        out.Pairwise (fun a b =>
          keyLess (parseSemesterForSort a) (parseSemesterForSort b))) := by
  have hlabel : ∀ season ∈ semesterOrder, ∀ y : Int, -9007199254740992 ≤ y →
      y ≤ 9007199254740992 →
      parseSemesterForSort (season ++ numberText y) =
        (some y, (semesterOrder.indexOf season : Int)) := by
    intro season hs y h1 h2
    rw [hprint y h1 h2]
    exact parse_label season hs y h1 h2
  refine ⟨hlabel, ?_, ?_⟩
  · intro s₁ hs₁ s₂ hs₂ y₁ y₂ a₁ b₁ a₂ b₂
    rw [hlabel s₁ hs₁ y₁ a₁ b₁, hlabel s₂ hs₂ y₂ a₂ b₂]
    unfold earlier keyLess
    simp only [Nat.cast_lt]
  · intro fuel sy ey ss es hsy hey hfuel
    rcases hi : seasonIndex ss with _ | i
    · exact ⟨[], by unfold generateSemestersInRange; rw [hi], List.Pairwise.nil⟩
    · rcases hj : seasonIndex es with _ | j
      · exact ⟨[], by unfold generateSemestersInRange; rw [hi, hj], List.Pairwise.nil⟩
      · have hi3 := (seasonIndex_lt hi).1
        have hj3 := (seasonIndex_lt hj).1
        have hbound := loopIterations_le sy i ey j hj3
        refine ⟨_, generate_run numberText fuel sy ss ey es i j hi hj hsy hey (by omega), ?_⟩
        rw [List.pairwise_map, List.pairwise_iff_forall_sublist]
        intro a b hab
        have hlt : a < b := by
          have := (List.pairwise_lt_range _).sublist hab
          simpa using this
        have hmem : ∀ x ∈ [a, b], x < loopIterations sy i ey j := by
          intro x hx
          exact List.mem_range.1 (hab.subset hx)
        have ha := pairAfter_year_bounds hi3 hj3 (hmem a (by simp))
        have hb := pairAfter_year_bounds hi3 hj3 (hmem b (by simp))
        unfold safeYear at hsy hey
        rw [semesterAfter_eq, semesterAfter_eq,
          parse_semesterLabel numberText hprint _ _ (pairAfter_lt sy i a) (by omega) (by omega),
          parse_semesterLabel numberText hprint _ _ (pairAfter_lt sy i b) (by omega) (by omega)]
        have h := pairAfter_earlier sy i hlt
        unfold earlier at h
        unfold keyLess
        simp only [Nat.cast_lt]
        exact h

theorem parse_inverts_and_orders_witness :
    parseSemesterForSort ("Fall" ++ (fun y : Int => toString y) 2023) =
      (some 2023, (semesterOrder.indexOf "Fall" : Int)) :=
  (parse_inverts_and_orders (fun y => toString y) (fun _ _ _ => rfl)).1 "Fall" (by decide) 2023
    (by decide) (by decide)

/-- C24 (the code does otherwise). The `try` block of `parseSemesterForSort` always completes,
so the `catch` branch with the key `[9999, 99]` is never taken: for every string the function
returns what the block computes, and its second component is -1, 0, 1 or 2, never 99.  The
malformed strings `Winter2024` and the empty string get the key `[NaN, -1]`, and `Fall` and
`Fallabc`, whose remainder is not a number, get `[NaN, 2]`; such a key is not greater than the
key of `Fall2024`. -/
theorem fallback_key_unreachable :
    (∀ sStr : String,
      parseSemesterTry (seasonParts sStr ["Spring", "Summer", "Fall"]).2
          (seasonParts sStr ["Spring", "Summer", "Fall"]).1 =
        Except.ok (parseSemesterForSort sStr) ∧
      (parseSemesterForSort sStr).2 ∈ [-1, 0, 1, 2] ∧
      parseSemesterForSort sStr ≠ (some 9999, 99)) ∧
    parseSemesterForSort "Winter2024" = (none, -1) ∧
    parseSemesterForSort "" = (none, -1) ∧
    parseSemesterForSort "Fall" = (none, 2) ∧
    parseSemesterForSort "Fallabc" = (none, 2) ∧
    parseSemesterForSort "Fall2024" = (some 2024, 2) ∧
    ¬ keyLess (parseSemesterForSort "Fall2024") (parseSemesterForSort "Winter2024") := by
  refine ⟨?_, by decide, by decide, by decide, by decide, by decide, by decide⟩
  intro sStr
  have hparts : (seasonParts sStr ["Spring", "Summer", "Fall"]).1 ∈
      ["", "Spring", "Summer", "Fall"] := by
    simp only [seasonParts]
    split_ifs <;> simp
  have hsecond : (parseSemesterForSort sStr).2 ∈ [-1, 0, 1, 2] := by
    unfold parseSemesterForSort parseSemesterTry
    simp only
    generalize (seasonParts sStr ["Spring", "Summer", "Fall"]).1 = part at hparts
    simp only [List.mem_cons, List.mem_singleton, List.not_mem_nil, or_false] at hparts
    rcases hparts with rfl | rfl | rfl | rfl <;> decide
  refine ⟨rfl, hsecond, ?_⟩
  intro h
  rw [h] at hsecond
  exact absurd hsecond (by decide)

/-! ### Four-digit years -/

theorem natText_length_four {n : Nat} (h1 : 1000 ≤ n) (h2 : n ≤ 9999) :
    (toString n).data.length = 4 := by
  rw [natText_data]
  obtain ⟨m, hm⟩ : ∃ m, n + 1 = m + 4 := ⟨n - 3, by omega⟩
  unfold Nat.toDigits
  rw [hm]
  have c1 : ¬ n / 10 = 0 := by omega
  have c2 : ¬ n / 10 / 10 = 0 := by omega
  have c3 : ¬ n / 10 / 10 / 10 = 0 := by omega
  have c4 : n / 10 / 10 / 10 / 10 = 0 := by omega
  simp only [Nat.toDigitsCore, c1, c2, c3, c4, if_false, if_true, List.length_cons,
    List.length_nil]

/-- C29. Splitting a semester string at its last four characters inverts its construction for
four-digit years: for every season string and every integer year from 1000 to 9999,
`slice(0, -4)` of the season followed by the year is the season, `slice(-4)` is the decimal text
of the year, and `parseInt` of it is the year. -/
theorem decode_inverts_four_digit_year (season : String) (year : Int) (h1 : 1000 ≤ year)
    (h2 : year ≤ 9999) :
    decodeSemester (semesterString season year) = (season, some year) ∧
      sliceInit (semesterString season year) 4 = season ∧
      sliceLast (semesterString season year) 4 = toString year ∧
      jsParseInt (sliceLast (semesterString season year) 4) = some year := by
  obtain ⟨n, rfl⟩ := Int.eq_ofNat_of_zero_le (by omega : 0 ≤ year)
  have hlen : (toString (n : Int)).data.length = 4 :=
    natText_length_four (by omega) (by omega)
  have hdata : (semesterString season n).data = season.data ++ (toString (n : Int)).data :=
    String.data_append _ _
  have hinit : sliceInit (semesterString season n) 4 = season := by
    unfold sliceInit
    rw [hdata, List.length_append, hlen, Nat.add_sub_cancel, List.take_left]
  have hlast : sliceLast (semesterString season n) 4 = toString (n : Int) := by
    unfold sliceLast
    rw [hdata, List.length_append, hlen, Nat.add_sub_cancel, List.drop_left]
  refine ⟨?_, hinit, hlast, ?_⟩
  · unfold decodeSemester
    rw [hinit, hlast, jsParseInt_intText _ (by omega) (by omega)]
  · rw [hlast, jsParseInt_intText _ (by omega) (by omega)]

theorem decode_inverts_four_digit_year_witness :
    decodeSemester (semesterString "Fall" 2024) = ("Fall", some 2024) :=
  (decode_inverts_four_digit_year "Fall" 2024 (by decide) (by decide)).1

/-! ## The default semester of the faculty dashboard -/

theorem defaultSemester_eq (allSemesters : List String) :
    defaultSemester allSemesters = allSemesters.getLast? := by
  unfold defaultSemester
  rcases allSemesters with _ | ⟨a, l⟩
  · rfl
  · rw [if_pos (by simp), List.getLast?_eq_getElem?]

theorem last_of_pairwise {α : Type} {r : α → α → Prop} {l : List α} {x : α}
    (hl : l.Pairwise r) (hx : l.getLast? = some x) : ∀ a ∈ l, a = x ∨ r a x := by
  obtain ⟨ys, rfl⟩ := List.getLast?_eq_some_iff.1 hx
  intro a ha
  rw [List.pairwise_append] at hl
  rcases List.mem_append.1 ha with h | h
  · exact Or.inr (hl.2.2 a h x (List.mem_singleton_self x))
  · exact Or.inl (List.mem_singleton.1 h)

/-- C25 (the code does otherwise). The list of GET /api/faculty-semesters is ordered by Year
descending, and the faculty dashboard takes its last element as default: in every state that is
a semester of the least Year of the list.  With sections in Fall 2023 and in the three semesters
of 2024, the list is Spring2024, Summer2024, Fall2024, Fall2023 and the default is Fall2023,
although Fall 2024 is later. -/
theorem faculty_default_is_oldest_year :
    facultySemesters calendarDb "7" = ["Spring2024", "Summer2024", "Fall2024", "Fall2023"] ∧
      defaultSemester (facultySemesters calendarDb "7") = some "Fall2023" ∧
      specLater 2024 "Fall" 2023 "Fall" ∧
      (∀ (db : Database) (facultyId : Ident),
        defaultSemester (facultySemesters db facultyId) =
          (facultySemesterRows db facultyId).getLast?.map
            (fun row => semesterString row.1 row.2)) ∧
      (∀ (db : Database) (facultyId : Ident) (last : String × Int),
        (facultySemesterRows db facultyId).getLast? = some last →
          ∀ row ∈ facultySemesterRows db facultyId, last.2 ≤ row.2) := by
  refine ⟨by decide, by decide, Or.inl (by decide), ?_, ?_⟩
  · intro db facultyId
    rw [defaultSemester_eq]
    unfold facultySemesters
    rw [List.getLast?_map]
  · intro db facultyId last hlast row hrow
    have hsorted : (facultySemesterRows db facultyId).Pairwise
        (fun a b => yearDescFieldDesc seasonField3 a.2 a.1 b.2 b.1 = true) :=
      orderBy_sorted (fun (a b : String × Int) => yearDescFieldDesc seasonField3 a.2 a.1 b.2 b.1)
        (fun a b => yearDescFieldDesc_total seasonField3 a.2 a.1 b.2 b.1)
        (fun _ _ _ hab hbc => yearDescFieldDesc_trans seasonField3 hab hbc) _
    rcases last_of_pairwise hsorted hlast row hrow with h | h
    · rw [h]
    · rw [yearDescFieldDesc_iff] at h
      omega

/-! ## The inactive-students report -/

theorem mem_inactiveStudentsIn (ids : List Ident) (db : Database) (row : InactiveRow) :
    row ∈ inactiveStudentsIn ids db ↔
      ∃ s ∈ db.students,
        row = { FirstName := s.FirstName, LastName := s.LastName, StudentID := s.StudentID } ∧
        ∀ e ∈ db.enrollments, e.StudentID = s.StudentID →
          ∀ sec ∈ db.sections, e.SectionID = sec.SectionID → sec.SemesterID ∉ ids := by
  have henrolled : ∀ x : Ident,
      x ∈ distinct (((db.enrollments.flatMap (fun e_sub =>
          (db.sections.filter (fun sec_sub => e_sub.SectionID = sec_sub.SectionID)).map
            (fun sec_sub => (e_sub, sec_sub)))).filter
              (fun r => r.2.SemesterID ∈ ids)).map (fun r => r.1.StudentID)) ↔
        ∃ e ∈ db.enrollments, ∃ sec ∈ db.sections, e.SectionID = sec.SectionID ∧
          sec.SemesterID ∈ ids ∧ e.StudentID = x := by
    intro x
    rw [mem_distinct, List.mem_map]
    constructor
    · rintro ⟨⟨e, sec⟩, hr, rfl⟩
      rw [List.mem_filter, List.mem_flatMap] at hr
      obtain ⟨⟨e', he', hmem⟩, hids⟩ := hr
      rw [List.mem_map] at hmem
      obtain ⟨sec', hsec', heq⟩ := hmem
      rw [List.mem_filter] at hsec'
      cases heq
      exact ⟨e, he', sec, hsec'.1, of_decide_eq_true hsec'.2, of_decide_eq_true hids, rfl⟩
    · rintro ⟨e, he, sec, hsec, hid, hids, rfl⟩
      refine ⟨(e, sec), ?_, rfl⟩
      rw [List.mem_filter, List.mem_flatMap]
      refine ⟨⟨e, he, ?_⟩, decide_eq_true hids⟩
      rw [List.mem_map]
      exact ⟨sec, List.mem_filter.2 ⟨hsec, decide_eq_true hid⟩, rfl⟩
  unfold inactiveStudentsIn
  simp only [List.mem_map, List.mem_filter]
  constructor
  · rintro ⟨s, ⟨hs, hno⟩, rfl⟩
    refine ⟨s, hs, rfl, ?_⟩
    intro e he hes sec hsec hsecid hmem
    have hno' := of_decide_eq_true hno
    exact hno' ((henrolled s.StudentID).2 ⟨e, he, sec, hsec, hsecid, hmem, hes⟩)
  · rintro ⟨s, hs, rfl, hno⟩
    refine ⟨s, ⟨hs, decide_eq_true ?_⟩, rfl⟩
    intro hmem
    obtain ⟨e, he, sec, hsec, hsecid, hids, hes⟩ := (henrolled s.StudentID).1 hmem
    exact hno e he hes sec hsec hsecid hids

/-- C26 (the code does otherwise). The report returns the students without an enrollment in the
semesters that the code selects, and the empty list when the Semester table is empty; but the
code selects by `FIELD(Season, 'Fall', 'Summer', 'Spring', 'Winter') DESC`, which within a Year
puts Spring first.  With the semesters Fall 2023, Spring 2024, Summer 2024 and Fall 2024, it
selects Spring and Summer 2024 where the descending order by season rank selects Fall and Summer
2024: Ada, enrolled in Fall 2024 only, is reported inactive, and Bob, enrolled in Spring 2024
only, is not. -/
theorem inactive_report_skips_latest_fall :
    recentSemesterIds 2 activityDb = ["2", "3"] ∧
      specRecentSemesterIds 2 activityDb = ["4", "3"] ∧
      inactiveStudents activityDb =
        [{ FirstName := "Ada", LastName := "Byron", StudentID := "10" }] ∧
      specInactiveStudents activityDb =
        [{ FirstName := "Bob", LastName := "Cole", StudentID := "11" }] ∧
      (∀ db : Database, db.semesters = [] → inactiveStudents db = []) ∧
      (∀ (db : Database) (row : InactiveRow),
        row ∈ inactiveStudents db ↔
          recentSemesterIds 2 db ≠ [] ∧
          ∃ s ∈ db.students,
            row = { FirstName := s.FirstName, LastName := s.LastName,
                    StudentID := s.StudentID } ∧
            ∀ e ∈ db.enrollments, e.StudentID = s.StudentID →
              ∀ sec ∈ db.sections, e.SectionID = sec.SectionID →
                sec.SemesterID ∉ recentSemesterIds 2 db) := by
  refine ⟨by decide, by decide, by decide, by decide, ?_, ?_⟩
  · intro db h
    unfold inactiveStudents recentSemesterIds orderBy
    rw [h]
    rfl
  · intro db row
    unfold inactiveStudents
    simp only
    by_cases hids : recentSemesterIds 2 db = []
    · simp [hids]
    · have hlen : ¬ (recentSemesterIds 2 db).length = 0 := by
        rw [List.length_eq_zero]
        exact hids
      rw [if_neg hlen, mem_inactiveStudentsIn]
      simp [hids]

/-! ## The chart of the reports dashboard -/

theorem showReportGraph_line (numberText : ℚ → String) (parseFloat : String → JsNumber)
        (random : Nat → Nat × Nat × Nat) (data : List (List (String × Json)))
        (reportInfo : ReportInfo) (indices : List Nat × Nat)
      (hdata : data ≠ []) (hline : reportInfo.graphType = some "line")
      (hind : reportInfo.plotIndices = some indices) :
        showReportGraph numberText parseFloat random data reportInfo =
          GraphOutcome.typeError "Cannot read properties of undefined (reading '0')" := by
  have hlen : ¬ data.length = 0 := by
    rw [List.length_eq_zero]
    exact hdata
  unfold showReportGraph
  rw [if_neg hlen, hline, hind]
  have h1 : ¬ ("line" = "") := by decide
  have h2 : ¬ ("line" = "pie") := by decide
  simp only [h1, h2, if_false, if_true]

theorem showReportGraph_chart (numberText : ℚ → String) (parseFloat : String → JsNumber)
        (random : Nat → Nat × Nat × Nat) (data : List (List (String × Json)))
        (reportInfo : ReportInfo) (indices : List Nat × Nat) (graphType : String)
      (hdata : data ≠ []) (hkind : graphType = "bar" ∨ graphType = "pie")
      (hgraph : reportInfo.graphType = some graphType)
      (hind : reportInfo.plotIndices = some indices) :
      ∃ config : ChartConfig,
        showReportGraph numberText parseFloat random data reportInfo =
          GraphOutcome.chart config ∧
        config.type = some graphType ∧
        config.dataLabels = data.map (fun item =>
          " ".intercalate (indices.1.map (labelPart numberText item))) ∧
        config.dataDatasets.map (fun d => d.data) =
          [data.map (fun item => plotValue parseFloat item indices.2)] := by
  have hlen : ¬ data.length = 0 := by
    rw [List.length_eq_zero]
    exact hdata
  unfold showReportGraph
  rw [if_neg hlen, hgraph, hind]
  rcases hkind with rfl | rfl
  · have h1 : ¬ ("bar" = "") := by decide
    have h2 : ¬ ("bar" = "pie") := by decide
    have h3 : ¬ ("bar" = "line") := by decide
    simp only [h1, h2, h3, if_false]
    exact ⟨_, rfl, rfl, rfl, rfl⟩
  · have h1 : ¬ ("pie" = "") := by decide
    simp only [h1, if_false, if_true]
    exact ⟨_, rfl, rfl, rfl, rfl⟩

/-- C27 (the code does otherwise). For a report whose chart kind is `line` and every non-empty
result set, `showReportGraph` raises a TypeError before chart creation: it reads
`chartConfig.datasets[0]`, and `chartConfig` has no property `datasets` (the datasets are under
`chartConfig.data`).  Course Performance Trend is such a report.  For the reports of
`reportsMetadata` whose chart kind is `bar` or `pie`, chart creation is reached, with one label
per row, made of the values at the categorical indices, and one value per row, taken at the
numeric index. -/
theorem line_chart_never_created :
    (∀ (numberText : ℚ → String) (parseFloat : String → JsNumber)
        (random : Nat → Nat × Nat × Nat) (data : List (List (String × Json)))
        (reportInfo : ReportInfo),
      data ≠ [] → reportInfo.graphType = some "line" → reportInfo.plotIndices ≠ none →
        showReportGraph numberText parseFloat random data reportInfo =
          GraphOutcome.typeError "Cannot read properties of undefined (reading '0')") ∧
      (∃ info ∈ reportsMetadata, info.name = "Course Performance Trend" ∧
        info.func = "/reports/course-performance-trends" ∧
        showReportGraph integerText jsParseFloat (fun _ => (0, 0, 0)) trendData info =
          GraphOutcome.typeError "Cannot read properties of undefined (reading '0')") ∧
      (∀ (numberText : ℚ → String) (parseFloat : String → JsNumber)
        (random : Nat → Nat × Nat × Nat) (data : List (List (String × Json))),
        data ≠ [] → ∀ info ∈ reportsMetadata,
          info.graphType = some "bar" ∨ info.graphType = some "pie" →
          ∃ (config : ChartConfig) (indices : List Nat × Nat),
            info.plotIndices = some indices ∧
            showReportGraph numberText parseFloat random data info =
              GraphOutcome.chart config ∧
            config.type = info.graphType ∧
            config.dataLabels = data.map (fun item =>
              " ".intercalate (indices.1.map (labelPart numberText item))) ∧
            config.dataDatasets.map (fun d => d.data) =
              [data.map (fun item => plotValue parseFloat item indices.2)]) := by
  refine ⟨?_, ?_, ?_⟩
  · intro numberText parseFloat random data reportInfo hdata hline hplot
    obtain ⟨indices, hind⟩ : ∃ indices, reportInfo.plotIndices = some indices := by
      rcases h : reportInfo.plotIndices with _ | indices
      · exact absurd h hplot
      · exact ⟨indices, rfl⟩
    exact showReportGraph_line numberText parseFloat random data reportInfo indices hdata hline
      hind
  · refine ⟨{ name := "Course Performance Trend", func := "/reports/course-performance-trends",
                headers := ["Year", "Season", "Course Title", "Average Grade"],
                graphType := some "line", plotIndices := some ([0, 1, 2], 3),
                filters := ["course_code"] }, by decide, rfl, rfl, ?_⟩
    exact showReportGraph_line _ _ _ _ _ ([0, 1, 2], 3) (by decide) rfl rfl
  · intro numberText parseFloat random data hdata info hinfo hkind
    have hall : ∀ i ∈ reportsMetadata, i.graphType ≠ none → i.plotIndices ≠ none := by decide
    have hplot : info.plotIndices ≠ none := by
      apply hall info hinfo
      rcases hkind with h | h <;> rw [h] <;> exact Option.some_ne_none _
    obtain ⟨indices, hind⟩ : ∃ indices, info.plotIndices = some indices := by
      rcases h : info.plotIndices with _ | indices
      · exact absurd h hplot
      · exact ⟨indices, rfl⟩
    rcases hkind with h | h
    · obtain ⟨config, h1, h2, h3, h4⟩ := showReportGraph_chart numberText parseFloat random data
        info indices "bar" hdata (Or.inl rfl) h hind
      exact ⟨config, indices, hind, h1, h2.trans h.symm, h3, h4⟩
    · obtain ⟨config, h1, h2, h3, h4⟩ := showReportGraph_chart numberText parseFloat random data
        info indices "pie" hdata (Or.inr rfl) h hind
      exact ⟨config, indices, hind, h1, h2.trans h.symm, h3, h4⟩

theorem faculty_default_is_oldest_year_witness :
    (("Fall", 2023) : String × Int).2 ≤ (("Fall", 2024) : String × Int).2 :=
  faculty_default_is_oldest_year.2.2.2.2 calendarDb "7" ("Fall", 2023) (by decide)
    ("Fall", 2024) (by decide)

theorem inactive_report_skips_latest_fall_witness :
    inactiveStudents { semesters := [] } = [] :=
  inactive_report_skips_latest_fall.2.2.2.2.1 { semesters := [] } rfl

theorem line_chart_never_created_witness :
    showReportGraph integerText jsParseFloat (fun _ => (0, 0, 0)) trendData
        { name := "Course Performance Trend", func := "/reports/course-performance-trends",
          headers := ["Year", "Season", "Course Title", "Average Grade"],
          graphType := some "line", plotIndices := some ([0, 1, 2], 3),
          filters := ["course_code"] } =
      GraphOutcome.typeError "Cannot read properties of undefined (reading '0')" :=
  line_chart_never_created.1 integerText jsParseFloat (fun _ => (0, 0, 0)) trendData _
    (by decide) rfl (by decide)

/-! ## The timetable-conflicts report -/

theorem overlapSecond_eq (a b : Schedule) : overlapSecond a b = overlapFirst a b := by
  unfold overlapSecond overlapFirst
  rw [Bool.eq_iff_iff]
  simp only [Bool.and_eq_true, decide_eq_true_eq, gt_iff_lt]
  exact and_comm

theorem mem_conflictJoin (t : Tables) (r : ConflictJoinRow) :
    r ∈ conflictJoin t ↔
      (r.e1 ∈ t.enrollments ∧ r.e2 ∈ t.enrollments ∧ r.sec1 ∈ t.sections ∧
        r.sec2 ∈ t.sections ∧ r.sch1 ∈ t.schedules ∧ r.sch2 ∈ t.schedules ∧
        r.s ∈ t.students) ∧ conflictOn r = true := by
  unfold conflictJoin
  rw [List.mem_filter, List.mem_map]
  constructor
  · rintro ⟨⟨⟨p1, p2, p3, p4, p5, p6, p7⟩, hp, rfl⟩, hon⟩
    simp only [List.pair_mem_product] at hp
    exact ⟨⟨hp.1, hp.2.1, hp.2.2.1, hp.2.2.2.1, hp.2.2.2.2.1, hp.2.2.2.2.2.1, hp.2.2.2.2.2.2⟩,
      hon⟩
  · rintro ⟨⟨h1, h2, h3, h4, h5, h6, h7⟩, hon⟩
    refine ⟨⟨(r.e1, r.e2, r.sec1, r.sec2, r.sch1, r.sch2, r.s), ?_, rfl⟩, hon⟩
    simp only [List.pair_mem_product]
    exact ⟨h1, h2, h3, h4, h5, h6, h7⟩

theorem conflictOn_iff (r : ConflictJoinRow) :
    conflictOn r = true ↔
      r.e1.StudentID = r.e2.StudentID ∧ r.e1.SectionID ≠ r.e2.SectionID ∧
        r.e1.SectionID = r.sec1.SectionID ∧ r.e2.SectionID = r.sec2.SectionID ∧
        r.sec1.ScheduleID = r.sch1.ScheduleID ∧ r.sec2.ScheduleID = r.sch2.ScheduleID ∧
        r.e1.StudentID = r.s.StudentID := by
  unfold conflictOn
  simp only [Bool.and_eq_true, decide_eq_true_eq]
  tauto

theorem conflictWhere_iff (r : ConflictJoinRow) :
    conflictWhere r = true ↔
      r.sec1.SemesterID = r.sec2.SemesterID ∧ r.sch1.DayOfWeek = r.sch2.DayOfWeek ∧
        r.sch1.StartTime < r.sch2.EndTime ∧ r.sch2.StartTime < r.sch1.EndTime := by
  unfold conflictWhere
  rw [overlapSecond_eq, Bool.or_self]
  unfold overlapFirst
  simp only [Bool.and_eq_true, decide_eq_true_eq, gt_iff_lt]
  tauto

theorem mem_conflictSelected (t : Tables) (r : ConflictJoinRow) :
    r ∈ conflictSelected t ↔
      ((r.e1 ∈ t.enrollments ∧ r.e2 ∈ t.enrollments ∧ r.sec1 ∈ t.sections ∧
        r.sec2 ∈ t.sections ∧ r.sch1 ∈ t.schedules ∧ r.sch2 ∈ t.schedules ∧
        r.s ∈ t.students) ∧ conflictOn r = true) ∧ conflictWhere r = true := by
  unfold conflictSelected
  rw [mem_orderBy, List.mem_filter, mem_conflictJoin]

theorem conflictTriple_injective (t : Tables) (hkeys : conflictKeys t)
    {a b : ConflictJoinRow} (ha : a ∈ conflictSelected t) (hb : b ∈ conflictSelected t)
    (h : conflictTriple a = conflictTriple b) : a = b := by
  obtain ⟨hstudents, hsections, hschedules, henrollments⟩ := hkeys
  rw [mem_conflictSelected] at ha hb
  obtain ⟨⟨⟨a1, a2, a3, a4, a5, a6, a7⟩, aon⟩, -⟩ := ha
  obtain ⟨⟨⟨b1, b2, b3, b4, b5, b6, b7⟩, bon⟩, -⟩ := hb
  rw [conflictOn_iff] at aon bon
  unfold conflictTriple at h
  simp only [Conflict.mk.injEq] at h
  obtain ⟨hs, h1, h2⟩ := h
  have es : a.s = b.s := List.inj_on_of_nodup_map hstudents a7 b7 hs
  have e1 : a.e1 = b.e1 := by
    apply List.inj_on_of_nodup_map henrollments a1 b1
    simp only [Prod.mk.injEq]
    exact ⟨by rw [aon.2.2.2.2.2.2, bon.2.2.2.2.2.2, hs], h1⟩
  have e2 : a.e2 = b.e2 := by
    apply List.inj_on_of_nodup_map henrollments a2 b2
    simp only [Prod.mk.injEq]
    exact ⟨by rw [← aon.1, ← bon.1, aon.2.2.2.2.2.2, bon.2.2.2.2.2.2, hs], h2⟩
  have s1 : a.sec1 = b.sec1 := by
    apply List.inj_on_of_nodup_map hsections a3 b3
    rw [← aon.2.2.1, ← bon.2.2.1, h1]
  have s2 : a.sec2 = b.sec2 := by
    apply List.inj_on_of_nodup_map hsections a4 b4
    rw [← aon.2.2.2.1, ← bon.2.2.2.1, h2]
  have c1 : a.sch1 = b.sch1 := by
    apply List.inj_on_of_nodup_map hschedules a5 b5
    rw [← aon.2.2.2.2.1, ← bon.2.2.2.2.1, s1]
  have c2 : a.sch2 = b.sch2 := by
    apply List.inj_on_of_nodup_map hschedules a6 b6
    rw [← aon.2.2.2.2.2.1, ← bon.2.2.2.2.2.1, s2]
  rcases a with ⟨_, _, _, _, _, _, _⟩
  rcases b with ⟨_, _, _, _, _, _, _⟩
  simp only at es e1 e2 s1 s2 c1 c2
  subst es e1 e2 s1 s2 c1 c2
  rfl

theorem nodup_conflictSelected (t : Tables) (hkeys : conflictKeys t) :
    (conflictSelected t).Nodup := by
  obtain ⟨hstudents, hsections, hschedules, henrollments⟩ := hkeys
  have n1 := hstudents.of_map
  have n2 := hsections.of_map
  have n3 := hschedules.of_map
  have n4 := henrollments.of_map
  unfold conflictSelected
  refine (orderBy_perm _ _).nodup_iff.2 ?_
  unfold conflictJoin
  refine List.Nodup.filter _ (List.Nodup.filter _ ?_)
  refine List.Nodup.map ?_
    (n4.product (n4.product (n2.product (n2.product (n3.product (n3.product n1))))))
  intro p q hpq
  simp only [ConflictJoinRow.mk.injEq] at hpq
  obtain ⟨h1, h2, h3, h4, h5, h6, h7⟩ := hpq
  ext : 1
  · exact h1
  · ext : 1
    · exact h2
    · ext : 1
      · exact h3
      · ext : 1
        · exact h4
        · ext : 1
          · exact h5
          · ext : 1
            · exact h6
            · exact h7

/-- C28. In every state that respects the primary keys, timetable-conflicts lists a student
with the sections A and B exactly when the student is enrolled in both, A and B are different
sections of the same semester on the same DayOfWeek, and their intervals overlap strictly (the
start of each is before the end of the other, so back-to-back sections are not listed).  The
second disjunct of the overlap test equals the first; the listing is symmetric; and each
conflict is listed exactly once as (A, B) and once as (B, A). -/
theorem timetable_conflicts_symmetric (t : Tables) (hkeys : conflictKeys t) :
    (∀ r : ConflictJoinRow, r ∈ conflictSelected t ↔
      (r.e1 ∈ t.enrollments ∧ r.e2 ∈ t.enrollments ∧ r.sec1 ∈ t.sections ∧
        r.sec2 ∈ t.sections ∧ r.sch1 ∈ t.schedules ∧ r.sch2 ∈ t.schedules ∧
        r.s ∈ t.students) ∧
      (r.e1.StudentID = r.s.StudentID ∧ r.e2.StudentID = r.s.StudentID ∧
        r.e1.SectionID = r.sec1.SectionID ∧ r.e2.SectionID = r.sec2.SectionID ∧
        r.sec1.ScheduleID = r.sch1.ScheduleID ∧ r.sec2.ScheduleID = r.sch2.ScheduleID) ∧
      r.sec1.SectionID ≠ r.sec2.SectionID ∧ r.sec1.SemesterID = r.sec2.SemesterID ∧
      r.sch1.DayOfWeek = r.sch2.DayOfWeek ∧
      r.sch1.StartTime < r.sch2.EndTime ∧ r.sch2.StartTime < r.sch1.EndTime) ∧
    (∀ a b : Schedule, overlapSecond a b = overlapFirst a b) ∧
    (∀ r ∈ conflictSelected t, r.swap ∈ conflictSelected t ∧
      conflictTriple r.swap ≠ conflictTriple r ∧
      ((conflictSelected t).map conflictTriple).count (conflictTriple r) = 1 ∧
      ((conflictSelected t).map conflictTriple).count (conflictTriple r.swap) = 1) ∧
    timetableConflicts t = (conflictSelected t).map (fun r =>
      { FirstName := r.s.FirstName, LastName := r.s.LastName, Section1ID := r.e1.SectionID,
        Section2ID := r.e2.SectionID }) := by
  have hswap : ∀ r ∈ conflictSelected t, r.swap ∈ conflictSelected t := by
    intro r hr
    rw [mem_conflictSelected, conflictOn_iff, conflictWhere_iff] at hr ⊢
    obtain ⟨⟨⟨h1, h2, h3, h4, h5, h6, h7⟩, o1, o2, o3, o4, o5, o6, o7⟩, w1, w2, w3, w4⟩ := hr
    unfold ConflictJoinRow.swap
    simp only
    exact ⟨⟨⟨h2, h1, h4, h3, h6, h5, h7⟩, o1.symm, fun h => o2 h.symm, o4, o3, o6, o5,
      o1 ▸ o7⟩, w1.symm, w2.symm, w4, w3⟩
  have hnodup : ((conflictSelected t).map conflictTriple).Nodup :=
    (nodup_conflictSelected t hkeys).map_on
      (fun a ha b hb h => conflictTriple_injective t hkeys ha hb h)
  refine ⟨?_, overlapSecond_eq, ?_, rfl⟩
  · intro r
    rw [mem_conflictSelected, conflictOn_iff, conflictWhere_iff]
    constructor
    · rintro ⟨⟨hmem, o1, o2, o3, o4, o5, o6, o7⟩, w1, w2, w3, w4⟩
      exact ⟨hmem, ⟨o7, o1 ▸ o7, o3, o4, o5, o6⟩, fun h => o2 (by rw [o3, o4, h]), w1, w2, w3,
        w4⟩
    · rintro ⟨hmem, ⟨k1, k2, k3, k4, k5, k6⟩, hne, w1, w2, w3, w4⟩
      exact ⟨⟨hmem, k1.trans k2.symm, fun h => hne (by rw [← k3, ← k4, h]), k3, k4, k5, k6,
        k1⟩, w1, w2, w3, w4⟩
  · intro r hr
    have hr' := hswap r hr
    refine ⟨hr', ?_, ?_, ?_⟩
    · intro h
      rw [mem_conflictSelected, conflictOn_iff] at hr
      unfold conflictTriple ConflictJoinRow.swap at h
      simp only [Conflict.mk.injEq] at h
      exact hr.1.2.2.1 h.2.2
    · exact List.count_eq_one_of_mem hnodup (List.mem_map_of_mem _ hr)
    · exact List.count_eq_one_of_mem hnodup (List.mem_map_of_mem _ hr')

theorem timetable_conflicts_symmetric_witness :
    timetableConflicts timetableDb = (conflictSelected timetableDb).map (fun r =>
      { FirstName := r.s.FirstName, LastName := r.s.LastName, Section1ID := r.e1.SectionID,
        Section2ID := r.e2.SectionID }) :=
  (timetable_conflicts_symmetric timetableDb (by decide)).2.2.2

theorem timetable_back_to_back :
    timetableConflicts timetableDb =
      [{ FirstName := "Ada", LastName := "Byron", Section1ID := "1", Section2ID := "3" },
       { FirstName := "Ada", LastName := "Byron", Section1ID := "2", Section2ID := "3" },
       { FirstName := "Ada", LastName := "Byron", Section1ID := "3", Section2ID := "1" },
       { FirstName := "Ada", LastName := "Byron", Section1ID := "3", Section2ID := "2" }] := by
  decide!

/-! ## Transactions -/

theorem runSteps_none (script : List Statement) : ∀ (k : Nat) (committed view : Tables),
    runSteps none k script committed view = script.foldl (fun t st => st.run t) view := by
  induction script with
  | nil => intro k c v; simp [runSteps]
  | cons st rest ih =>
    intro k c v
    unfold runSteps
    rw [if_neg (by simp)]
    cases st.channel <;> simp only [ih, List.foldl_cons]

theorem runSteps_fail (script : List Statement)
    (hall : ∀ st ∈ script, st.channel = Channel.connection) :
    ∀ (k j : Nat) (committed view : Tables), k ≤ j → j ≤ k + script.length →
      runSteps (some j) k script committed view = committed := by
  induction script with
  | nil =>
    intro k j c v h1 h2
    have : j = k := by simp at h2; omega
    simp [runSteps, this]
  | cons st rest ih =>
    intro k j c v h1 h2
    unfold runSteps
    by_cases hk : j = k
    · rw [if_pos (by rw [hk])]
    · rw [if_neg (by simpa using hk)]
      rw [hall st (List.mem_cons_self _ _)]
      simp only
      apply ih (fun x hx => hall x (List.mem_cons_of_mem _ hx))
      · omega
      · simp only [List.length_cons] at h2
        omega

theorem deleteSectionScript_connection (sectionId : Ident) (t : Tables) :
    ∀ script, deleteSectionScript sectionId t = some script →
      ∀ st ∈ script, st.channel = Channel.connection := by
  intro script h
  unfold deleteSectionScript at h
  split at h
  · cases h
  · cases h
    intro st hst
    simp only [List.mem_append, List.mem_cons, List.mem_singleton, List.not_mem_nil,
      or_false] at hst
    rcases hst with ((rfl | rfl | rfl) | hst) | rfl
    · rfl
    · rfl
    · rfl
    · split at hst
      · rw [List.mem_singleton] at hst
        rw [hst]
      · cases hst
    · rfl

theorem postSectionScript_connection (body : SectionBody) (ScheduleID : Ident) :
    ∀ st ∈ postSectionScript body ScheduleID, st.channel = Channel.connection := by
  intro st hst
  simp only [postSectionScript, List.mem_cons, List.mem_singleton, List.not_mem_nil,
    or_false] at hst
  rcases hst with rfl | rfl | rfl <;> rfl

theorem deleteDepartmentScript_connection (departmentId : Ident) :
    ∀ st ∈ deleteDepartmentScript departmentId, st.channel = Channel.connection := by
  intro st hst
  simp only [deleteDepartmentScript, List.mem_cons, List.mem_singleton, List.not_mem_nil,
    or_false] at hst
  rcases hst with rfl | rfl | rfl | rfl | rfl | rfl | rfl <;> rfl

/-! ## Deleting sections, students and departments -/

theorem deleteSection_found (sectionId : Ident) (t : Tables) (first : SectionRow)
    (rest : List SectionRow)
    (h : t.sections.filter (fun s => s.SectionID = sectionId) = first :: rest) :
    deleteSection sectionId t =
      ({ t with
          enrollments := t.enrollments.filter (fun e => e.SectionID ≠ sectionId),
          sections := t.sections.filter (fun s => s.SectionID ≠ sectionId),
          schedules :=
            if idTruthy first.ScheduleID = true then
              t.schedules.filter (fun s => s.ScheduleID ≠ first.ScheduleID)
            else t.schedules },
        { status := 200, text := "Section and associated schedule deleted successfully!" }) := by
  unfold deleteSection deleteSectionScript
  rw [h]
  simp only [List.map_cons, List.length_cons]
  unfold runHandler
  rw [runSteps_none]
  by_cases htruthy : idTruthy first.ScheduleID = true
  · simp [htruthy, setForeignKeyChecks]
  · simp [htruthy, setForeignKeyChecks]

theorem deleteSection_missing (sectionId : Ident) (t : Tables)
    (h : ∀ s ∈ t.sections, s.SectionID ≠ sectionId) :
    deleteSection sectionId t = (t, { status := 404, text := "Section not found" }) := by
  have hnil : t.sections.filter (fun s => s.SectionID = sectionId) = [] := by
    rw [List.filter_eq_nil_iff]
    intro s hs
    simpa using h s hs
  unfold deleteSection deleteSectionScript
  rw [hnil]
  rfl

/-- C15 (the code does otherwise for ScheduleID 0). When the section exists, DELETE
/api/section/:sectionId answers 200 and leaves no Enrollment row and no Section row with that
SectionID; the Schedules row the section pointed to is removed when its ScheduleID is not 0, and
is left in place when it is 0, because the `DELETE` on Schedules is guarded by the truthiness
of the identifier.  POST /api/section draws the ScheduleID with `Math.floor(Math.random() *
100000)`, which can be 0: after adding section 5 with that draw and deleting it, the answer is
`Section and associated schedule deleted successfully!` and the Schedules row 0 is still there.
When the section does not exist, the answer is 404 and the tables are unchanged. -/
theorem delete_section_leaves_schedule_zero :
    (∀ (t : Tables) (sectionId : Ident) (first : SectionRow) (rest : List SectionRow),
      t.sections.filter (fun s => s.SectionID = sectionId) = first :: rest →
        (deleteSection sectionId t).2 =
          { status := 200, text := "Section and associated schedule deleted successfully!" } ∧
        (∀ e ∈ (deleteSection sectionId t).1.enrollments, e.SectionID ≠ sectionId) ∧
        (∀ s ∈ (deleteSection sectionId t).1.sections, s.SectionID ≠ sectionId) ∧
        (first.ScheduleID ≠ "0" →
          ∀ sch ∈ (deleteSection sectionId t).1.schedules, sch.ScheduleID ≠ first.ScheduleID) ∧
        (first.ScheduleID = "0" → (deleteSection sectionId t).1.schedules = t.schedules)) ∧
    (∀ (t : Tables) (sectionId : Ident), (∀ s ∈ t.sections, s.SectionID ≠ sectionId) →
      deleteSection sectionId t = (t, { status := 404, text := "Section not found" })) ∧
    (runHandler none (postSectionScript sectionFive "0") registrarDb).sections =
      registrarDb.sections ++
        [{ SectionID := "5", CourseCode := "CSC302", SemesterID := "4", ScheduleID := "0",
           RoomNumber := none, FacultyID := none }] ∧
    (deleteSection "5" (runHandler none (postSectionScript sectionFive "0") registrarDb)).2 =
      { status := 200, text := "Section and associated schedule deleted successfully!" } ∧
    (deleteSection "5" (runHandler none (postSectionScript sectionFive "0") registrarDb)).1.sections
      = registrarDb.sections ∧
    (deleteSection "5"
        (runHandler none (postSectionScript sectionFive "0") registrarDb)).1.schedules =
      registrarDb.schedules ++
        [{ ScheduleID := "0", StartTime := 32400, EndTime := 36000, DayOfWeek := "Monday" }] := by
  refine ⟨?_, fun t sectionId h => deleteSection_missing sectionId t h, by decide, by decide,
    by decide, by decide⟩
  intro t sectionId first rest h
  rw [deleteSection_found sectionId t first rest h]
  refine ⟨rfl, ?_, ?_, ?_, ?_⟩
  · intro e he
    simpa using (List.mem_filter.1 he).2
  · intro s hs
    simpa using (List.mem_filter.1 hs).2
  · intro hne sch hsch
    have htruthy : idTruthy first.ScheduleID = true := by
      unfold idTruthy
      exact decide_eq_true hne
    simp only [htruthy, if_true] at hsch
    simpa using (List.mem_filter.1 hsch).2
  · intro hzero
    have hfalsy : ¬ idTruthy first.ScheduleID = true := by
      rw [hzero]
      decide
    simp only [hfalsy, if_false, Bool.false_eq_true]

theorem delete_section_leaves_schedule_zero_witness :
    deleteSection "5" registrarDb =
      (registrarDb, { status := 404, text := "Section not found" }) :=
  delete_section_leaves_schedule_zero.2.1 registrarDb "5" (by decide)

theorem runHandler_enrollments (script : List Statement)
    (h : ∀ st ∈ script, ∀ t : Tables, (st.run t).enrollments = t.enrollments) (t : Tables) :
    (runHandler none script t).enrollments = t.enrollments := by
  unfold runHandler
  rw [runSteps_none]
  induction script generalizing t with
  | nil => rfl
  | cons st rest ih =>
    rw [List.foldl_cons, ih (fun x hx => h x (List.mem_cons_of_mem _ hx)),
      h st (List.mem_cons_self _ _)]

/-- C16 (the code does otherwise). None of the three ways of deleting a student touches the
Enrollment table: DELETE /api/student/:studentId, the `deleteStudent` flow of the dashboard and
DELETE /api/department/:departmentId leave it as it was.  With a student who is enrolled in
section 100, each of them (the first two when `SET FOREIGN_KEY_CHECKS=0` reaches the session of
the `DELETE`, the third always) answers with success, removes the Student row and leaves the
Enrollment row that references the deleted StudentID; with the foreign key checks on, DELETE
/api/student/:studentId fails and deletes nothing.  DELETE /api/section/:sectionId, by contrast,
removes the Enrollment rows of the section. -/
theorem student_delete_leaves_enrollments :
    (∀ (foreignKeyChecks : Bool) (studentId : Ident) (t : Tables),
      (deleteStudent foreignKeyChecks studentId t).1.enrollments = t.enrollments ∧
      (dashboardDeleteStudent foreignKeyChecks studentId t).1.enrollments = t.enrollments) ∧
    (∀ (departmentId : Ident) (t : Tables),
      (deleteDepartment departmentId t).1.enrollments = t.enrollments) ∧
    deleteStudent false "10" { registrarDb with users := [] } =
      ({ registrarDb with users := [], students := [] },
        { status := 200, text := "Student deleted successfully!" }) ∧
    dashboardDeleteStudent false "10" registrarDb =
      ({ registrarDb with users := [], students := [] }, true) ∧
    deleteDepartment "1" registrarDb =
      ({ registrarDb with departments := [], courses := [], students := [] },
        { status := 200, text := "Department and related data deleted successfully!" }) ∧
    registrarDb.enrollments = [{ StudentID := "10", SectionID := "100", Grade := some "A" }] ∧
    deleteStudent true "10" registrarDb =
      (registrarDb, { status := 500, text := "Failed to delete student" }) ∧
    (deleteSection "100" registrarDb).1.enrollments = [] := by
  refine ⟨?_, ?_, by decide, by decide, by decide, by decide, by decide, by decide⟩
  · intro fk studentId t
    have h1 : (deleteStudent fk studentId t).1.enrollments = t.enrollments := by
      unfold deleteStudent
      simp only
      split <;> rfl
    refine ⟨h1, ?_⟩
    unfold dashboardDeleteStudent
    simp only
    split
    · have h2 : ∀ u : Tables, (deleteStudent fk studentId u).1.enrollments = u.enrollments := by
        intro u
        unfold deleteStudent
        simp only
        split <;> rfl
      rw [h2]
      rfl
    · rfl
  · intro departmentId t
    unfold deleteDepartment
    simp only
    apply runHandler_enrollments
    intro st hst u
    simp only [deleteDepartmentScript, List.mem_cons, List.mem_singleton, List.not_mem_nil,
      or_false] at hst
    rcases hst with rfl | rfl | rfl | rfl | rfl | rfl | rfl <;> rfl

theorem put_script_has_pool_statement (sectionId : Ident) (body : SectionBody) (t : Tables)
    (script : List Statement) (h : putSectionScript sectionId body t = some script) :
    ∃ st ∈ script, st.channel = Channel.datapool ∧
      st.sql = "UPDATE Section SET CourseCode = ?, SemesterID = ?, FacultyID = ?, " ++
        "RoomNumber = ? WHERE SectionID = ?" := by
  unfold putSectionScript at h
  split at h
  · cases h
  · cases h
    rename_i existing _ _
    refine ⟨{ channel := Channel.datapool,
              sql := "UPDATE Section SET CourseCode = ?, SemesterID = ?, FacultyID = ?, " ++
                "RoomNumber = ? WHERE SectionID = ?",
              run := fun t =>
                { t with
                  sections := t.sections.map (fun s =>
                    if s.SectionID = sectionId then
                      { s with CourseCode := body.CourseCode, SemesterID := body.SemesterID,
                               FacultyID := body.FacultyID, RoomNumber := body.RoomNumber }
                    else s) } }, ?_, rfl, rfl⟩
    rw [List.mem_append]
    right
    exact List.mem_cons_of_mem _ (List.mem_singleton_self _)

/-- C17 (the code does otherwise for PUT). The statements of POST /api/section, DELETE
/api/section/:sectionId and DELETE /api/department/:departmentId are all issued on the
connection of the transaction: when a step or the commit fails the tables are as before, and
when nothing fails all statements have taken effect.  PUT /api/section/:sectionId issues its
`UPDATE Section` on the pool: when the commit fails after it, the update of the Section row is
persisted while the update of the Schedules row is rolled back. -/
theorem put_section_updates_outside_transaction :
    (∀ (sectionId : Ident) (body : SectionBody) (t : Tables) (script : List Statement),
      putSectionScript sectionId body t = some script →
        ∃ st ∈ script, st.channel = Channel.datapool ∧
          st.sql = "UPDATE Section SET CourseCode = ?, SemesterID = ?, FacultyID = ?, " ++
            "RoomNumber = ? WHERE SectionID = ?") ∧
    (∃ script, putSectionScript "100" sectionMoved registrarDb = some script ∧
      script.length = 2 ∧
      runHandler (some 2) script registrarDb =
        { registrarDb with
          sections :=
            [{ SectionID := "100", CourseCode := "CSC303", SemesterID := "4", ScheduleID := "7",
               RoomNumber := none, FacultyID := none }] } ∧
      runHandler (some 2) script registrarDb ≠ registrarDb ∧
      runHandler none script registrarDb =
        { registrarDb with
          sections :=
            [{ SectionID := "100", CourseCode := "CSC303", SemesterID := "4", ScheduleID := "7",
               RoomNumber := none, FacultyID := none }],
          schedules :=
            [{ ScheduleID := "7", StartTime := 36000, EndTime := 39600,
               DayOfWeek := "Tuesday" }] } ∧
      runHandler (some 2) script registrarDb ≠ runHandler none script registrarDb) ∧
    (∀ (body : SectionBody) (ScheduleID : Ident) (t : Tables),
      (∀ st ∈ postSectionScript body ScheduleID, st.channel = Channel.connection) ∧
      (∀ j, j ≤ (postSectionScript body ScheduleID).length →
        runHandler (some j) (postSectionScript body ScheduleID) t = t) ∧
      runHandler none (postSectionScript body ScheduleID) t =
        (postSectionScript body ScheduleID).foldl (fun u st => st.run u) t) ∧
    (∀ (sectionId : Ident) (t : Tables) (script : List Statement),
      deleteSectionScript sectionId t = some script →
        (∀ st ∈ script, st.channel = Channel.connection) ∧
        (∀ j, j ≤ script.length → runHandler (some j) script t = t) ∧
        runHandler none script t = script.foldl (fun u st => st.run u) t) ∧
    (∀ (departmentId : Ident) (t : Tables),
      (∀ st ∈ deleteDepartmentScript departmentId, st.channel = Channel.connection) ∧
      (∀ j, j ≤ (deleteDepartmentScript departmentId).length →
        runHandler (some j) (deleteDepartmentScript departmentId) t = t) ∧
      runHandler none (deleteDepartmentScript departmentId) t =
        (deleteDepartmentScript departmentId).foldl (fun u st => st.run u) t) := by
  refine ⟨put_script_has_pool_statement, ?_, ?_, ?_, ?_⟩
  · refine ⟨_, rfl, by decide, by decide, by decide, by decide, by decide⟩
  · intro body ScheduleID t
    refine ⟨postSectionScript_connection body ScheduleID, ?_, runSteps_none _ 0 t t⟩
    intro j hj
    exact runSteps_fail _ (postSectionScript_connection body ScheduleID) 0 j t t (by omega)
      (by omega)
  · intro sectionId t script h
    have hall := deleteSectionScript_connection sectionId t script h
    refine ⟨hall, ?_, runSteps_none _ 0 t t⟩
    intro j hj
    exact runSteps_fail _ hall 0 j t t (by omega) (by omega)
  · intro departmentId t
    refine ⟨deleteDepartmentScript_connection departmentId, ?_, runSteps_none _ 0 t t⟩
    intro j hj
    exact runSteps_fail _ (deleteDepartmentScript_connection departmentId) 0 j t t (by omega)
      (by omega)

theorem put_section_updates_outside_transaction_witness :
    runHandler (some 3) (postSectionScript sectionFive "0") registrarDb = registrarDb :=
  (put_section_updates_outside_transaction.2.2.1 sectionFive "0" registrarDb).2.1 3 (by decide)

theorem student_delete_leaves_enrollments_witness :
    (deleteDepartment "1" registrarDb).1.enrollments = registrarDb.enrollments :=
  student_delete_leaves_enrollments.2.1 "1" registrarDb

end Ucms
